import Mathlib

/-!
Mecrisp-Cube: the block buffer cache of `Forth/Src/block.c`

A shallow embedding of the block buffer cache (`BLOCK_init`, `BLOCK_emptyBuffers`,
`BLOCK_update`, `BLOCK_get`, `BLOCK_assign`, `BLOCK_saveBuffers`, `BLOCK_flushBuffers` and the
private helpers `get_block`, `init_block`, `save_buffer`) together with theorems about it,
followed by the line loop of `FS_include` (`Forth/Src/fs.c`) and by `FLASH_programDouble`
(`Forth/Src/flash.c`).

Conventions of the embedding

* The global array `BlockBuffers[BLOCK_BUFFER_COUNT]` is a function from `Fin BLOCK_BUFFER_COUNT`
  to slots, so that a pool always has exactly four slots.
* A byte is a natural number, a buffer is a list of bytes.
* A C `int` is an integer of Lean; the product `block_number*2`, which the source computes in
  32-bit `int`, is wrapped to 32 bits by `int32`.
* The SD card driver (`sd.h`, `SD_ReadBlocks`, `SD_WriteBlocks`) is not part of the sources. It is
  a parameter of the model (`SdCard`): the bytes a read delivers and the card contents after a
  write. The status the driver returns is ignored by `block.c` and is therefore not modelled.
  Every call of the driver is recorded, in order, in the field `sdCalls` of the state.
* A returned pointer `&BlockBuffers[i].Data[0]` is the slot index `some i`, `NULL` is `none`.
* The functions `BLOCK_...` are the bodies between `osMutexAcquire` and `osMutexRelease`, the
  sequential behaviour of one operation. The functions `BLOCK_..._mutex` are the same C
  functions statement by statement, mutex calls included: every statement adds its slot
  accesses and its driver calls to a record of events, and their states are proved equal to
  those of the functions `BLOCK_...`.
-/

namespace Block

/-! ## Data model -/

/-- Number of slots, `#define BLOCK_BUFFER_COUNT 4`. -/
abbrev BLOCK_BUFFER_COUNT : Nat := 4

/-- Bytes in one buffer, `#define BLOCK_BUFFER_SIZE 1024`. -/
abbrev BLOCK_BUFFER_SIZE : Nat := 1024

/-- One cache slot, the C struct `block_buffer_t`. `BlockNumber = -1` is documented as
"Buffer unassigned". -/
structure block_buffer_t where
  Data : List Nat
  BlockNumber : Int
  Current : Bool
  Updated : Bool
deriving DecidableEq

/-- One call of the SD driver: `SD_ReadBlocks(buf, addr, count)` or
`SD_WriteBlocks(buf, addr, count)`; for a write the bytes of the buffer at the time of the
call are recorded. -/
inductive SdCall where
  | read (addr : Int) (count : Nat)
  | write (data : List Nat) (addr : Int) (count : Nat)
deriving DecidableEq

/-- The SD driver as a parameter: `SD_ReadBlocks card addr count` is the byte sequence put into
the buffer, `SD_WriteBlocks card data addr count` is the card after the write. -/
structure SdCard (D : Type) where
  SD_ReadBlocks : D → Int → Nat → List Nat
  SD_WriteBlocks : D → List Nat → Int → Nat → D

/-- The state the operations of `block.c` work on: the global `BlockBuffers`, the contents of
the SD card, and the driver calls made so far (oldest first). -/
structure BlockState (D : Type) where
  BlockBuffers : Fin BLOCK_BUFFER_COUNT → block_buffer_t
  card : D
  sdCalls : List SdCall

variable {D : Type}

/-- Assignment to the whole slot `BlockBuffers[i]`. -/
def setSlot (s : BlockState D) (i : Fin BLOCK_BUFFER_COUNT) (b : block_buffer_t) : BlockState D :=
  { s with BlockBuffers := Function.update s.BlockBuffers i b }

/-- The statement `BlockBuffers[i].Current = v;`. -/
def setCurrent (s : BlockState D) (i : Fin BLOCK_BUFFER_COUNT) (v : Bool) : BlockState D :=
  setSlot s i { s.BlockBuffers i with Current := v }

/-- The statement `BlockBuffers[i].Updated = v;`. -/
def setUpdated (s : BlockState D) (i : Fin BLOCK_BUFFER_COUNT) (v : Bool) : BlockState D :=
  setSlot s i { s.BlockBuffers i with Updated := v }

/-- The index at which a loop
`for (i=0; i<BLOCK_BUFFER_COUNT; i++) { if (c(i)) { ...; break; } }`
enters its body, `none` when it runs to the end. The condition is evaluated on the state before
the loop, which no earlier iteration has changed. -/
def firstIndex (c : Fin BLOCK_BUFFER_COUNT → Bool) : Option (Fin BLOCK_BUFFER_COUNT) :=
  (List.finRange BLOCK_BUFFER_COUNT).find? c

/-! ## Private functions of `block.c` -/

/-- The value a 32-bit `int` holds for the arithmetic result `x`: two's complement wrap-around
into the range from `-2^31` to `2^31 - 1`. -/
def int32 (x : Int) : Int :=
  (x + 2147483648) % 4294967296 - 2147483648

/-- The C function `get_block`: reads 2 SD blocks at `block_number*2`, a product in 32-bit
`int`, into the buffer and binds the slot. -/
def get_block (sd : SdCard D) (s : BlockState D) (block_number : Int)
    (buffer_index : Fin BLOCK_BUFFER_COUNT) : BlockState D :=
  { BlockBuffers := Function.update s.BlockBuffers buffer_index
      { Data := sd.SD_ReadBlocks s.card (int32 (block_number * 2)) 2
        BlockNumber := block_number
        Current := true
        Updated := false }
    card := s.card
    sdCalls := s.sdCalls ++ [SdCall.read (int32 (block_number * 2)) 2] }

/-- The C function `init_block`: `memset` of the buffer with `' '` and binding of the slot. -/
def init_block (s : BlockState D) (block_number : Int)
    (buffer_index : Fin BLOCK_BUFFER_COUNT) : BlockState D :=
  setSlot s buffer_index
    { Data := List.replicate BLOCK_BUFFER_SIZE 0x20
      BlockNumber := block_number
      Current := true
      Updated := false }

/-- The C function `save_buffer`: writes the buffer to 2 SD blocks at `BlockNumber*2`, a
product in 32-bit `int`, and clears `Updated`. -/
def save_buffer (sd : SdCard D) (s : BlockState D)
    (buffer_index : Fin BLOCK_BUFFER_COUNT) : BlockState D :=
  let b := s.BlockBuffers buffer_index
  { BlockBuffers := Function.update s.BlockBuffers buffer_index { b with Updated := false }
    card := sd.SD_WriteBlocks s.card b.Data (int32 (b.BlockNumber * 2)) 2
    sdCalls := s.sdCalls ++ [SdCall.write b.Data (int32 (b.BlockNumber * 2)) 2] }

/-! ## Public functions of `block.c` -/

/-- The C function `BLOCK_emptyBuffers`: every slot gets `BlockNumber = -1`, `Current = FALSE`,
`Updated = FALSE`; `Data` is not touched. -/
def BLOCK_emptyBuffers (s : BlockState D) : BlockState D :=
  (List.finRange BLOCK_BUFFER_COUNT).foldl
    (fun t i => setSlot t i { t.BlockBuffers i with
      BlockNumber := -1, Current := false, Updated := false }) s

/-- The C function `BLOCK_init` without the creation of the mutex: it calls
`BLOCK_emptyBuffers`. -/
def BLOCK_init (s : BlockState D) : BlockState D :=
  BLOCK_emptyBuffers s

/-- The C function `BLOCK_update`: the first slot with `Current` set gets `Updated = TRUE`. -/
def BLOCK_update (s : BlockState D) : BlockState D :=
  match firstIndex (fun i => (s.BlockBuffers i).Current) with
  | some i => setUpdated s i true
  | none => s

/-- The body of the hit branch of `BLOCK_get` and `BLOCK_assign`:
`for (j=0; j<BLOCK_BUFFER_COUNT; j++) { BlockBuffers[i].Current = FALSE; }` followed by
`BlockBuffers[i].Current = TRUE;`. The inner loop indexes with `i`, as the source does. -/
def makeCurrent (s : BlockState D) (i : Fin BLOCK_BUFFER_COUNT) : BlockState D :=
  setCurrent
    ((List.finRange BLOCK_BUFFER_COUNT).foldl (fun t _j => setCurrent t i false) s) i true

/-- The C function `BLOCK_get`: the new state and the returned buffer. -/
def BLOCK_get (sd : SdCard D) (s : BlockState D) (block_number : Int) :
    BlockState D × Option (Fin BLOCK_BUFFER_COUNT) :=
  -- already assigned?
  match firstIndex (fun i => decide ((s.BlockBuffers i).BlockNumber = block_number)) with
  | some i => (makeCurrent s i, some i)
  | none =>
    -- is there an unassigned (empty) buffer?
    match firstIndex (fun i => decide ((s.BlockBuffers i).BlockNumber < 0)) with
    | some i => (get_block sd s block_number i, some i)
    | none =>
      -- take the first not current buffer
      match firstIndex (fun i => !(s.BlockBuffers i).Current) with
      | some i =>
        (get_block sd (if (s.BlockBuffers i).Updated then save_buffer sd s i else s)
          block_number i, some i)
      | none => (s, none)

/-- The C function `BLOCK_assign`: the new state and the returned buffer. -/
def BLOCK_assign (sd : SdCard D) (s : BlockState D) (block_number : Int) :
    BlockState D × Option (Fin BLOCK_BUFFER_COUNT) :=
  -- already assigned?
  match firstIndex (fun i => decide ((s.BlockBuffers i).BlockNumber = block_number)) with
  | some i => (makeCurrent s i, some i)
  | none =>
    -- is there an unassigned (empty) buffer?
    match firstIndex (fun i => decide ((s.BlockBuffers i).BlockNumber < 0)) with
    | some i => (init_block s block_number i, some i)
    | none =>
      -- take the first not current buffer
      match firstIndex (fun i => !(s.BlockBuffers i).Current) with
      | some i =>
        (init_block (if (s.BlockBuffers i).Updated then save_buffer sd s i else s)
          block_number i, some i)
      | none => (s, none)

/-- The C function `BLOCK_saveBuffers`: for every slot in index order, if `Updated` then
`save_buffer(i)` and `Updated = FALSE`. -/
def BLOCK_saveBuffers (sd : SdCard D) (s : BlockState D) : BlockState D :=
  (List.finRange BLOCK_BUFFER_COUNT).foldl
    (fun t i => if (t.BlockBuffers i).Updated then setUpdated (save_buffer sd t i) i false else t) s

/-- The C function `BLOCK_flushBuffers`: `BLOCK_saveBuffers(); BLOCK_emptyBuffers();`. -/
def BLOCK_flushBuffers (sd : SdCard D) (s : BlockState D) : BlockState D :=
  BLOCK_emptyBuffers (BLOCK_saveBuffers sd s)

/-! ## Callers and the environment -/

/-- The public operations, as calls a client can make. -/
inductive Op where
  | emptyBuffers
  | update
  | get (block_number : Int)
  | assign (block_number : Int)
  | saveBuffers
  | flushBuffers
deriving DecidableEq

/-- The effect of one call on the state (the returned pointer is dropped). -/
def Op.run (sd : SdCard D) (s : BlockState D) : Op → BlockState D
  | .emptyBuffers => BLOCK_emptyBuffers s
  | .update => BLOCK_update s
  | .get b => (BLOCK_get sd s b).1
  | .assign b => (BLOCK_assign sd s b).1
  | .saveBuffers => BLOCK_saveBuffers sd s
  | .flushBuffers => BLOCK_flushBuffers sd s

/-- A sequence of calls, left to right. -/
def runOps (sd : SdCard D) (s : BlockState D) (ops : List Op) : BlockState D :=
  ops.foldl (Op.run sd) s

/-- The block number argument of a call is not negative (calls without one qualify). -/
def Op.nonneg : Op → Bool
  | .get b => decide (0 ≤ b)
  | .assign b => decide (0 ≤ b)
  | _ => true

/-- The memory at start-up: `BlockBuffers` is a zero-initialised global, no driver call has been
made, the card holds `card`. -/
def boot (card : D) : BlockState D :=
  { BlockBuffers := fun _ =>
      { Data := List.replicate BLOCK_BUFFER_SIZE 0, BlockNumber := 0,
        Current := false, Updated := false }
    card := card
    sdCalls := [] }

/-- States reachable from `BLOCK_init` through the public operations called with non-negative
block numbers. -/
def Reachable (sd : SdCard D) (s : BlockState D) : Prop :=
  ∃ (card : D) (ops : List Op),
    (∀ o ∈ ops, o.nonneg = true) ∧ s = runOps sd (BLOCK_init (boot card)) ops

/-- The caller stores the bytes `data` through a pointer to the buffer of slot `i`. -/
def pokeBuffer (s : BlockState D) (i : Fin BLOCK_BUFFER_COUNT) (data : List Nat) : BlockState D :=
  setSlot s i { s.BlockBuffers i with Data := data }

/-- Number of slots whose `Current` flag is set. -/
def currentCount (s : BlockState D) : Nat :=
  ((List.finRange BLOCK_BUFFER_COUNT).filter (fun i => (s.BlockBuffers i).Current)).length

/-- Modelled from the spec: the block device of `sd.c` (absent from the sources) as "a block
device whose read returns what was last written to those sectors". The card is a map from sector
address to the 512 bytes of the sector; a read of `count` sectors concatenates them, a write of
`count` sectors cuts the buffer into pieces of 512 bytes. -/
def sectorCard : SdCard (Int → List Nat) where
  SD_ReadBlocks := fun card addr count =>
    (List.range count).foldr (fun k acc => card (addr + (k : Int)) ++ acc) []
  SD_WriteBlocks := fun card data addr count => fun a =>
    if addr ≤ a ∧ a < addr + (count : Int) then
      (data.drop (512 * (a - addr).toNat)).take 512
    else card a

/-- A card on which every sector holds 512 zero bytes. -/
def blankCard : Int → List Nat := fun _ => List.replicate 512 0

/-- A sequence of `BLOCK_get` calls, left to right: the final state and the returned buffers. -/
def getMany (sd : SdCard D) (s : BlockState D) :
    List Int → BlockState D × List (Option (Fin BLOCK_BUFFER_COUNT))
  | [] => (s, [])
  | b :: bs =>
    ((getMany sd (BLOCK_get sd s b).1 bs).1,
      (BLOCK_get sd s b).2 :: (getMany sd (BLOCK_get sd s b).1 bs).2)

/-! ## Concrete states used to evaluate the code -/

/-- The start-up state on a blank card, after `BLOCK_init`. -/
def initState : BlockState (Int → List Nat) := BLOCK_init (boot blankCard)

/-- The state after `BLOCK_init`, `BLOCK_get(10)`, `BLOCK_get(20)` on a blank card. -/
def twoBlocks : BlockState (Int → List Nat) :=
  runOps sectorCard initState [Op.get 10, Op.get 20]

/-- The state after `BLOCK_init` and `BLOCK_get` of 10, 20, 30, 40 on a blank card. -/
def fourBlocks : BlockState (Int → List Nat) :=
  runOps sectorCard initState [Op.get 10, Op.get 20, Op.get 30, Op.get 40]

/-- The state in which the write of block 20 is lost: from `twoBlocks`, `BLOCK_get(20)` returns
slot 1, the caller fills it with 1024 bytes of value 1, then `BLOCK_update` and
`BLOCK_flushBuffers` are called. -/
def lostWrite : BlockState (Int → List Nat) :=
  BLOCK_flushBuffers sectorCard (BLOCK_update
    (pokeBuffer (BLOCK_get sectorCard twoBlocks 20).1 1 (List.replicate 1024 1)))

/-- A full pool given directly: slot `i` holds block `i + 1` with 1024 bytes of value 7; slot 0
is not current and updated, the other slots are current and clean. -/
def dirtyVictim : BlockState (Int → List Nat) :=
  { BlockBuffers := fun i =>
      { Data := List.replicate 1024 7, BlockNumber := (i.val : Int) + 1,
        Current := decide (i ≠ 0), Updated := decide (i = 0) }
    card := blankCard
    sdCalls := [] }

/-! ## Reachability with arbitrary block numbers -/

/-- States reachable from `BLOCK_init` through the public operations, whatever the block
numbers passed to `BLOCK_get` and `BLOCK_assign`. -/
def ReachableAny (sd : SdCard D) (s : BlockState D) : Prop :=
  ∃ (card : D) (ops : List Op), s = runOps sd (BLOCK_init (boot card)) ops

/-- No two distinct slots hold the same non-negative block number. -/
def NoDuplicate (s : BlockState D) : Prop :=
  ∀ i j, (s.BlockBuffers i).BlockNumber = (s.BlockBuffers j).BlockNumber →
    0 ≤ (s.BlockBuffers i).BlockNumber → i = j

/-- An unassigned slot (`BlockNumber < 0`) is neither current nor updated. -/
def UnassignedClean (s : BlockState D) : Prop :=
  ∀ i, (s.BlockBuffers i).BlockNumber < 0 →
    (s.BlockBuffers i).Current = false ∧ (s.BlockBuffers i).Updated = false

/-! ## The SD driver with a status -/

/-- Modelled from the spec: the block device interface
`ReadSectors(buffer, startSector, sectorCount) -> status` and
`WriteSectors(buffer, startSector, sectorCount) -> status` (the header `sd.h` is not part of the
sources). A read delivers the bytes put into the buffer and a status, a write the card after
the call and a status; the status is `true` for success. -/
structure SdDriver (D : Type) where
  SD_ReadBlocks : D → Int → Nat → List Nat × Bool
  SD_WriteBlocks : D → List Nat → Int → Nat → D × Bool

/-- The driver as `block.c` uses it: `get_block` and `save_buffer` call `SD_ReadBlocks` and
`SD_WriteBlocks` as expression statements, so the returned status is dropped. -/
def SdDriver.ignoreStatus (drv : SdDriver D) : SdCard D where
  SD_ReadBlocks := fun card addr count => (drv.SD_ReadBlocks card addr count).1
  SD_WriteBlocks := fun card data addr count => (drv.SD_WriteBlocks card data addr count).1

/-- A driver all of whose calls report failure: a write leaves the card as it is, a read
delivers 1024 zero bytes. -/
def failingDriver : SdDriver (Int → List Nat) where
  SD_ReadBlocks := fun _ _ _ => (List.replicate 1024 0, false)
  SD_WriteBlocks := fun card _ _ _ => (card, false)

/-- A driver on the card of `sectorCard` with one bad place: a write at sector 2 reports failure
and leaves the card as it is; every other call succeeds. -/
def badSectorDriver : SdDriver (Int → List Nat) where
  SD_ReadBlocks := fun card addr count => (sectorCard.SD_ReadBlocks card addr count, true)
  SD_WriteBlocks := fun card data addr count =>
    if addr = 2 then (card, false) else (sectorCard.SD_WriteBlocks card data addr count, true)

/-- The state of `BLOCK_saveBuffers` when its loop reaches the index `i`: the iterations for the
indices below `i` have run. -/
def saveBuffersUpTo (sd : SdCard D) (s : BlockState D) (i : Fin BLOCK_BUFFER_COUNT) :
    BlockState D :=
  ((List.finRange BLOCK_BUFFER_COUNT).take i.val).foldl
    (fun t j => if (t.BlockBuffers j).Updated then setUpdated (save_buffer sd t j) j false else t) s

/-! ## The mutex `BLOCK_MutexID` -/

/-- What the statements of a public function do, in program order:
`osMutexAcquire(BLOCK_MutexID, osWaitForever)`, `osMutexRelease(BLOCK_MutexID)`, the evaluation
of an expression that reads `BlockBuffers[i]`, an assignment to `BlockBuffers[i]`, and a call of
`SD_ReadBlocks` or `SD_WriteBlocks`. -/
inductive LockEvent where
  | acquire
  | release
  | slotRead (i : Fin BLOCK_BUFFER_COUNT)
  | slotWrite (i : Fin BLOCK_BUFFER_COUNT)
  | driver (c : SdCall)
deriving DecidableEq

/-- The event is an access to the slots or to the SD driver. -/
def LockEvent.isAccess : LockEvent → Bool
  | .acquire => false
  | .release => false
  | .slotRead _ => true
  | .slotWrite _ => true
  | .driver _ => true

/-- The driver call of an event, if it is one. -/
def LockEvent.call : LockEvent → Option SdCall
  | .driver c => some c
  | _ => none

/-- The state of `block.c` together with the record of the events so far (oldest first). -/
structure Monitor (D : Type) where
  state : BlockState D
  events : List LockEvent

/-- The call `osMutexAcquire(BLOCK_MutexID, osWaitForever);`. -/
def osMutexAcquire (m : Monitor D) : Monitor D :=
  { m with events := m.events ++ [LockEvent.acquire] }

/-- The call `osMutexRelease(BLOCK_MutexID);`. -/
def osMutexRelease (m : Monitor D) : Monitor D :=
  { m with events := m.events ++ [LockEvent.release] }

/-- The evaluation of an expression that reads a field of `BlockBuffers[i]`. -/
def readSlot (m : Monitor D) (i : Fin BLOCK_BUFFER_COUNT) : Monitor D :=
  { m with events := m.events ++ [LockEvent.slotRead i] }

/-- An assignment to `BlockBuffers[i]` after which the slot is `b`. -/
def writeSlot (m : Monitor D) (i : Fin BLOCK_BUFFER_COUNT) (b : block_buffer_t) : Monitor D :=
  { state := setSlot m.state i b, events := m.events ++ [LockEvent.slotWrite i] }

/-- The C function `get_block`, statement by statement: the call of `SD_ReadBlocks`, which
fills `Data` of the slot, and the three assignments. -/
def get_block_events (sd : SdCard D) (m : Monitor D) (block_number : Int)
    (buffer_index : Fin BLOCK_BUFFER_COUNT) : Monitor D :=
  -- SD_ReadBlocks(&BlockBuffers[buffer_index].Data[0], block_number*2, 2);
  let m1 : Monitor D :=
    { state :=
        { BlockBuffers := Function.update m.state.BlockBuffers buffer_index
            { m.state.BlockBuffers buffer_index with
              Data := sd.SD_ReadBlocks m.state.card (int32 (block_number * 2)) 2 }
          card := m.state.card
          sdCalls := m.state.sdCalls ++ [SdCall.read (int32 (block_number * 2)) 2] }
      events := m.events ++
        [LockEvent.driver (SdCall.read (int32 (block_number * 2)) 2),
          LockEvent.slotWrite buffer_index] }
  -- BlockBuffers[buffer_index].BlockNumber = block_number;
  let m2 := writeSlot m1 buffer_index
    { m1.state.BlockBuffers buffer_index with BlockNumber := block_number }
  -- BlockBuffers[buffer_index].Current = TRUE;
  let m3 := writeSlot m2 buffer_index { m2.state.BlockBuffers buffer_index with Current := true }
  -- BlockBuffers[buffer_index].Updated = FALSE;
  writeSlot m3 buffer_index { m3.state.BlockBuffers buffer_index with Updated := false }

/-- The C function `init_block`, statement by statement: the `memset` and the three
assignments. -/
def init_block_events (m : Monitor D) (block_number : Int)
    (buffer_index : Fin BLOCK_BUFFER_COUNT) : Monitor D :=
  -- memset(&BlockBuffers[buffer_index].Data[0], ' ', BLOCK_BUFFER_SIZE);
  let m1 := writeSlot m buffer_index
    { m.state.BlockBuffers buffer_index with Data := List.replicate BLOCK_BUFFER_SIZE 0x20 }
  -- BlockBuffers[buffer_index].BlockNumber = block_number;
  let m2 := writeSlot m1 buffer_index
    { m1.state.BlockBuffers buffer_index with BlockNumber := block_number }
  -- BlockBuffers[buffer_index].Current = TRUE;
  let m3 := writeSlot m2 buffer_index { m2.state.BlockBuffers buffer_index with Current := true }
  -- BlockBuffers[buffer_index].Updated = FALSE;
  writeSlot m3 buffer_index { m3.state.BlockBuffers buffer_index with Updated := false }

/-- The C function `save_buffer`, statement by statement: the arguments of the call read the
slot, `SD_WriteBlocks` is called, `Updated` is cleared. -/
def save_buffer_events (sd : SdCard D) (m : Monitor D)
    (buffer_index : Fin BLOCK_BUFFER_COUNT) : Monitor D :=
  -- SD_WriteBlocks(&BlockBuffers[buffer_index].Data[0], BlockBuffers[buffer_index].BlockNumber*2, 2);
  let m1 := readSlot m buffer_index
  let b := m1.state.BlockBuffers buffer_index
  let m2 : Monitor D :=
    { state :=
        { BlockBuffers := m1.state.BlockBuffers
          card := sd.SD_WriteBlocks m1.state.card b.Data (int32 (b.BlockNumber * 2)) 2
          sdCalls := m1.state.sdCalls ++ [SdCall.write b.Data (int32 (b.BlockNumber * 2)) 2] }
      events := m1.events ++
        [LockEvent.driver (SdCall.write b.Data (int32 (b.BlockNumber * 2)) 2)] }
  -- BlockBuffers[buffer_index].Updated = FALSE;
  writeSlot m2 buffer_index { m2.state.BlockBuffers buffer_index with Updated := false }

/-- The body of the loop of `BLOCK_emptyBuffers` for the index `i`: three assignments. -/
def emptyBody (m : Monitor D) (i : Fin BLOCK_BUFFER_COUNT) : Monitor D :=
  -- BlockBuffers[i].BlockNumber = -1;
  let m1 := writeSlot m i { m.state.BlockBuffers i with BlockNumber := -1 }
  -- BlockBuffers[i].Current = FALSE;
  let m2 := writeSlot m1 i { m1.state.BlockBuffers i with Current := false }
  -- BlockBuffers[i].Updated = FALSE;
  writeSlot m2 i { m2.state.BlockBuffers i with Updated := false }

/-- The C function `BLOCK_emptyBuffers` with its mutex calls, statement by statement. -/
def BLOCK_emptyBuffers_mutex (m : Monitor D) : Monitor D :=
  -- osMutexAcquire(BLOCK_MutexID, osWaitForever);
  let m0 := osMutexAcquire m
  -- for (i=0; i<BLOCK_BUFFER_COUNT; i++) { ... }
  let m1 := (List.finRange BLOCK_BUFFER_COUNT).foldl emptyBody m0
  -- osMutexRelease(BLOCK_MutexID);
  osMutexRelease m1

/-- The loop of `BLOCK_update` over the indices still to visit:
`if (BlockBuffers[i].Current) { BlockBuffers[i].Updated = TRUE; break; }`. -/
def updateLoop (m : Monitor D) : List (Fin BLOCK_BUFFER_COUNT) → Monitor D
  | [] => m
  | i :: rest =>
    let m1 := readSlot m i
    if (m1.state.BlockBuffers i).Current then
      writeSlot m1 i { m1.state.BlockBuffers i with Updated := true }
    else updateLoop m1 rest

/-- The C function `BLOCK_update` with its mutex calls, statement by statement. -/
def BLOCK_update_mutex (m : Monitor D) : Monitor D :=
  osMutexRelease (updateLoop (osMutexAcquire m) (List.finRange BLOCK_BUFFER_COUNT))

/-- The first loop of `BLOCK_get` and `BLOCK_assign` ("already assigned?") over the indices
still to visit; the second component is `buffer_p`. The inner loop indexes with `i`, as the
source does. -/
def hitLoop (m : Monitor D) (block_number : Int) :
    List (Fin BLOCK_BUFFER_COUNT) → Monitor D × Option (Fin BLOCK_BUFFER_COUNT)
  | [] => (m, none)
  | i :: rest =>
    let m1 := readSlot m i
    if (m1.state.BlockBuffers i).BlockNumber = block_number then
      let m2 := (List.finRange BLOCK_BUFFER_COUNT).foldl
        (fun t _j => writeSlot t i { t.state.BlockBuffers i with Current := false }) m1
      (writeSlot m2 i { m2.state.BlockBuffers i with Current := true }, some i)
    else hitLoop m1 block_number rest

/-- The second loop of `BLOCK_get` and `BLOCK_assign` ("is there an unassigned (empty)
buffer?") over the indices still to visit; `load` is `get_block` or `init_block`. -/
def freeLoop (load : Monitor D → Fin BLOCK_BUFFER_COUNT → Monitor D) (m : Monitor D) :
    List (Fin BLOCK_BUFFER_COUNT) → Monitor D × Option (Fin BLOCK_BUFFER_COUNT)
  | [] => (m, none)
  | i :: rest =>
    let m1 := readSlot m i
    if (m1.state.BlockBuffers i).BlockNumber < 0 then (load m1 i, some i)
    else freeLoop load m1 rest

/-- The third loop of `BLOCK_get` and `BLOCK_assign` ("take the first not current buffer") over
the indices still to visit; `load` is `get_block` or `init_block`. -/
def victimLoop (sd : SdCard D) (load : Monitor D → Fin BLOCK_BUFFER_COUNT → Monitor D)
    (m : Monitor D) :
    List (Fin BLOCK_BUFFER_COUNT) → Monitor D × Option (Fin BLOCK_BUFFER_COUNT)
  | [] => (m, none)
  | i :: rest =>
    let m1 := readSlot m i
    if !(m1.state.BlockBuffers i).Current then
      let m2 := readSlot m1 i
      let m3 := if (m2.state.BlockBuffers i).Updated then save_buffer_events sd m2 i else m2
      (load m3 i, some i)
    else victimLoop sd load m1 rest

/-- The statements of `BLOCK_get` and `BLOCK_assign` between the mutex calls: the three loops,
the second and the third guarded by `if (buffer_p == NULL)`. -/
def lookup (sd : SdCard D) (load : Monitor D → Fin BLOCK_BUFFER_COUNT → Monitor D)
    (m : Monitor D) (block_number : Int) : Monitor D × Option (Fin BLOCK_BUFFER_COUNT) :=
  let r1 := hitLoop m block_number (List.finRange BLOCK_BUFFER_COUNT)
  let r2 := if r1.2 = none then freeLoop load r1.1 (List.finRange BLOCK_BUFFER_COUNT) else r1
  if r2.2 = none then victimLoop sd load r2.1 (List.finRange BLOCK_BUFFER_COUNT) else r2

/-- The C function `BLOCK_get` with its mutex calls, statement by statement; `buffer_p` is
returned after the release. -/
def BLOCK_get_mutex (sd : SdCard D) (m : Monitor D) (block_number : Int) :
    Monitor D × Option (Fin BLOCK_BUFFER_COUNT) :=
  let r := lookup sd (fun t i => get_block_events sd t block_number i) (osMutexAcquire m)
    block_number
  (osMutexRelease r.1, r.2)

/-- The C function `BLOCK_assign` with its mutex calls, statement by statement; `buffer_p` is
returned after the release. -/
def BLOCK_assign_mutex (sd : SdCard D) (m : Monitor D) (block_number : Int) :
    Monitor D × Option (Fin BLOCK_BUFFER_COUNT) :=
  let r := lookup sd (fun t i => init_block_events t block_number i) (osMutexAcquire m)
    block_number
  (osMutexRelease r.1, r.2)

/-- The body of the loop of `BLOCK_saveBuffers` for the index `i`:
`if (BlockBuffers[i].Updated) { save_buffer(i); BlockBuffers[i].Updated = FALSE; }`. -/
def saveBody (sd : SdCard D) (m : Monitor D) (i : Fin BLOCK_BUFFER_COUNT) : Monitor D :=
  let m1 := readSlot m i
  if (m1.state.BlockBuffers i).Updated then
    let m2 := save_buffer_events sd m1 i
    writeSlot m2 i { m2.state.BlockBuffers i with Updated := false }
  else m1

/-- The C function `BLOCK_saveBuffers` with its mutex calls, statement by statement. -/
def BLOCK_saveBuffers_mutex (sd : SdCard D) (m : Monitor D) : Monitor D :=
  -- osMutexAcquire(BLOCK_MutexID, osWaitForever);
  let m0 := osMutexAcquire m
  -- for (i=0; i<BLOCK_BUFFER_COUNT; i++) { ... }
  let m1 := (List.finRange BLOCK_BUFFER_COUNT).foldl (saveBody sd) m0
  -- osMutexRelease(BLOCK_MutexID);
  osMutexRelease m1

/-- The C function `BLOCK_flushBuffers`: it has no mutex call of its own, it calls
`BLOCK_saveBuffers()` and then `BLOCK_emptyBuffers()`. -/
def BLOCK_flushBuffers_mutex (sd : SdCard D) (m : Monitor D) : Monitor D :=
  BLOCK_emptyBuffers_mutex (BLOCK_saveBuffers_mutex sd m)

/-- One public call with its events. -/
def Op.runMutex (sd : SdCard D) (m : Monitor D) : Op → Monitor D
  | .emptyBuffers => BLOCK_emptyBuffers_mutex m
  | .update => BLOCK_update_mutex m
  | .get b => (BLOCK_get_mutex sd m b).1
  | .assign b => (BLOCK_assign_mutex sd m b).1
  | .saveBuffers => BLOCK_saveBuffers_mutex sd m
  | .flushBuffers => BLOCK_flushBuffers_mutex sd m

/-- Lock discipline of a sequence of events, `held` telling whether the mutex is held at its
start: the mutex is acquired only when free, released only when held, every access to a slot or
to the driver happens while it is held, and it is free at the end. -/
def guarded : Bool → List LockEvent → Bool
  | held, [] => !held
  | held, e :: rest =>
    match e with
    | LockEvent.acquire => !held && guarded true rest
    | LockEvent.release => held && guarded false rest
    | LockEvent.slotRead _ => held && guarded held rest
    | LockEvent.slotWrite _ => held && guarded held rest
    | LockEvent.driver _ => held && guarded held rest

/-- The events form a single continuous hold: the discipline is kept, with exactly one
acquire and one release. -/
def singleHold (events : List LockEvent) : Bool :=
  guarded false events && events.count LockEvent.acquire == 1 &&
    events.count LockEvent.release == 1

/-- The events `body` are what a function does between `m` and `t`: the record of `t` is that
of `m` followed by `body`, `body` holds accesses only (no mutex call), the driver calls in
`body` are the driver calls the state has recorded since `m`, and every slot that differs
between `m` and `t` has a write in `body`. -/
def Accesses (m t : Monitor D) (body : List LockEvent) : Prop :=
  t.events = m.events ++ body ∧ (∀ e ∈ body, e.isAccess = true) ∧
    t.state.sdCalls = m.state.sdCalls ++ body.filterMap LockEvent.call ∧
    ∀ i, t.state.BlockBuffers i ≠ m.state.BlockBuffers i → LockEvent.slotWrite i ∈ body

/-- The monitor at start-up on a blank card: the state after `BLOCK_init`, no event. -/
def initMonitor : Monitor (Int → List Nat) := { state := initState, events := [] }

/-- The monitor whose state is `dirtyVictim`, no event. -/
def victimMonitor : Monitor (Int → List Nat) := { state := dirtyVictim, events := [] }


/-! ## Further notions for the claims about `BLOCK_get`, `BLOCK_assign` and `BLOCK_update` -/

/-- The driver call is a write. -/
def SdCall.isWrite : SdCall → Bool
  | SdCall.write _ _ _ => true
  | SdCall.read _ _ => false

/-- A slot is current exactly when it is assigned (`0 ≤ BlockNumber`). -/
def CurrentIffAssigned (s : BlockState D) : Prop :=
  ∀ i, (s.BlockBuffers i).Current = true ↔ 0 ≤ (s.BlockBuffers i).BlockNumber

/-- A full pool given directly: slot `i` holds block `i + 1` with 1024 bytes of value 7 and is
clean; slot 1 is the only current slot. -/
def oneCurrent : BlockState (Int → List Nat) :=
  { BlockBuffers := fun i =>
      { Data := List.replicate 1024 7, BlockNumber := (i.val : Int) + 1,
        Current := decide (i = 1), Updated := false }
    card := blankCard
    sdCalls := [] }

/-- The C function `strlen` on the line buffer: the number of bytes before the first NUL. The
argument is the bytes that precede the terminating NUL the line reader stores. -/
def strlen (line : List Nat) : Nat :=
  (line.takeWhile (fun c => c != 0)).length

/-- The loop of the C function `FS_include`,
`while (f_gets(line, sizeof line, &fil)) { FORTH_evaluate((uint8_t*)line, strlen(line)-1); }`.
The line reader `f_gets` belongs to the FAT library, which is not part of the sources: it is
represented by `lines`, the strings it delivers on its successive calls before it returns
`NULL`. The result is the list of calls `FORTH_evaluate(str, count)`, in order. -/
def FS_include (lines : List (List Nat)) : List (List Nat × Int) :=
  lines.map (fun line => (line, (strlen line : Int) - 1))

/-- The text a call `FORTH_evaluate(str, count)` hands over: the first `count` bytes of
`str`. -/
def evaluatedText (call : List Nat × Int) : List Nat :=
  call.1.take call.2.toNat

/-! ## `FLASH_programDouble` of `Forth/Src/flash.c` -/

/-- The environment of `FLASH_programDouble`: the constants `HAL_OK` and `HAL_ERROR` of the HAL
headers (not part of the sources) and what the HAL and RTOS calls return during one call. -/
structure FlashHal where
  HAL_OK : Int
  HAL_ERROR : Int
  /-- Value returned by `HAL_FLASH_Unlock()`. -/
  unlockResult : Int
  /-- Whether `HAL_FLASHEx_IsOperationSuspended()` is non-zero. -/
  suspended : Bool
  /-- Value returned by `HAL_FLASH_Program_IT(...)`. -/
  programResult : Int
  /-- Whether `osSemaphoreAcquire(...)` returns `osOK`. -/
  semaphoreOk : Bool
  /-- Value of `FlashError` (set by the error interrupt callback) after the semaphore. -/
  flashError : Bool
  /-- Value returned by `HAL_FLASH_Lock()`. -/
  lockResult : Int

/-- What `FLASH_programDouble` calls, in program order. `program addr dw` is
`HAL_FLASH_Program_IT(FLASH_TYPEPROGRAM_DOUBLEWORD, addr, dw)`; `clearFlags` is one
`__HAL_FLASH_CLEAR_FLAG`. -/
inductive FlashEvent where
  | Error_Handler
  | osMutexAcquire
  | HAL_FLASH_Unlock
  | clearFlags
  | program (Address : Nat) (doubleword : Nat)
  | osSemaphoreAcquire
  | HAL_FLASH_Lock
  | osMutexRelease
deriving DecidableEq

/-- The value of `data.doubleword` after `data.word[0] = word1; data.word[1] = word2;` in the
union of a `uint32_t[2]` and a `uint64_t`, on the little-endian Cortex-M4: `word1` is the low
half. -/
def doubleword (word1 word2 : Nat) : Nat :=
  word1 + word2 * 2 ^ 32

/-- The C function `FLASH_programDouble`: the returned value and the calls made, in order.
`Address`, `word1`, `word2` are `uint32_t` values. `Error_Handler()` is a call that returns, as
the `return -1;` that follows it in the source supposes. -/
def FLASH_programDouble (hal : FlashHal) (Address word1 word2 : Nat) :
    Int × List FlashEvent :=
  if Address < 0x08040000 ∨ Address > 0x080C0000 then
    (-1, [FlashEvent.Error_Handler])
  else
    let e1 := [FlashEvent.osMutexAcquire, FlashEvent.HAL_FLASH_Unlock] ++
      (if hal.unlockResult = hal.HAL_ERROR then [FlashEvent.Error_Handler] else []) ++
      [FlashEvent.clearFlags, FlashEvent.clearFlags] ++
      (if hal.suspended then [FlashEvent.Error_Handler] else []) ++
      [FlashEvent.program Address (doubleword word1 word2)]
    let r : Int × List FlashEvent :=
      if hal.programResult = hal.HAL_OK then
        if hal.flashError || !hal.semaphoreOk then
          (hal.HAL_ERROR, e1 ++ [FlashEvent.osSemaphoreAcquire, FlashEvent.Error_Handler])
        else
          (hal.programResult, e1 ++ [FlashEvent.osSemaphoreAcquire])
      else
        (hal.programResult, e1 ++ [FlashEvent.Error_Handler])
    (r.1, r.2 ++ [FlashEvent.HAL_FLASH_Lock] ++
      (if hal.lockResult = hal.HAL_ERROR then [FlashEvent.Error_Handler] else []) ++
      [FlashEvent.osMutexRelease])

/-- A HAL in which every call succeeds, with `HAL_OK = 0` and `HAL_ERROR = 1`. -/
def goodHal : FlashHal :=
  { HAL_OK := 0, HAL_ERROR := 1, unlockResult := 0, suspended := false, programResult := 0,
    semaphoreOk := true, flashError := false, lockResult := 0 }


/-- The state after `BLOCK_init`, `BLOCK_get(2^30 + 1)`, `BLOCK_update` on a blank card: slot 0
holds block `2^30 + 1` and is updated. -/
def bigDirty : BlockState (Int → List Nat) :=
  runOps sectorCard initState [Op.get 1073741825, Op.update]

/-! ## Basic facts about the loops and the branches of `BLOCK_get` and `BLOCK_assign` -/

theorem finRange_count : List.finRange BLOCK_BUFFER_COUNT = [0, 1, 2, 3] := by decide

/-- The 32-bit product `b*2` is the exact double as long as it fits: for `b` from `-2^30` to
`2^30 - 1`. -/
theorem int32_double (b : Int) (h1 : -1073741824 ≤ b) (h2 : b < 1073741824) :
    int32 (b * 2) = 2 * b := by
  unfold int32; omega

theorem firstIndex_eq_some {c : Fin BLOCK_BUFFER_COUNT → Bool} {i : Fin BLOCK_BUFFER_COUNT} :
    firstIndex c = some i ↔ c i = true ∧ ∀ j, j < i → c j = false := by
  revert c i; decide

theorem firstIndex_eq_none {c : Fin BLOCK_BUFFER_COUNT → Bool} :
    firstIndex c = none ↔ ∀ i, c i = false := by
  revert c; decide

theorem firstIndex_isSome {c : Fin BLOCK_BUFFER_COUNT → Bool} (i : Fin BLOCK_BUFFER_COUNT)
    (h : c i = true) : ∃ k, firstIndex c = some k := by
  cases hf : firstIndex c with
  | some k => exact ⟨k, rfl⟩
  | none => rw [firstIndex_eq_none] at hf; simp [hf i] at h

@[simp] theorem setSlot_card (s : BlockState D) (i b) : (setSlot s i b).card = s.card := rfl
@[simp] theorem setSlot_sdCalls (s : BlockState D) (i b) : (setSlot s i b).sdCalls = s.sdCalls := rfl
@[simp] theorem setSlot_same (s : BlockState D) (i b) : (setSlot s i b).BlockBuffers i = b := by
  simp [setSlot]
theorem setSlot_other (s : BlockState D) {i j} (b) (h : j ≠ i) :
    (setSlot s i b).BlockBuffers j = s.BlockBuffers j := by
  simp [setSlot, Function.update_noteq h]

theorem makeCurrent_eq (s : BlockState D) (i : Fin BLOCK_BUFFER_COUNT) :
    makeCurrent s i = setCurrent s i true := by
  simp [makeCurrent, finRange_count, setCurrent, setSlot]

theorem BLOCK_get_hit (sd : SdCard D) (s : BlockState D) (b : Int) {i}
    (h : firstIndex (fun i => decide ((s.BlockBuffers i).BlockNumber = b)) = some i) :
    BLOCK_get sd s b = (setCurrent s i true, some i) := by
  simp only [BLOCK_get, h, makeCurrent_eq]

theorem BLOCK_get_free (sd : SdCard D) (s : BlockState D) (b : Int) {i}
    (h1 : firstIndex (fun i => decide ((s.BlockBuffers i).BlockNumber = b)) = none)
    (h2 : firstIndex (fun i => decide ((s.BlockBuffers i).BlockNumber < 0)) = some i) :
    BLOCK_get sd s b = (get_block sd s b i, some i) := by
  simp only [BLOCK_get, h1, h2]

theorem BLOCK_get_evict (sd : SdCard D) (s : BlockState D) (b : Int) {i}
    (h1 : firstIndex (fun i => decide ((s.BlockBuffers i).BlockNumber = b)) = none)
    (h2 : firstIndex (fun i => decide ((s.BlockBuffers i).BlockNumber < 0)) = none)
    (h3 : firstIndex (fun i => !(s.BlockBuffers i).Current) = some i) :
    BLOCK_get sd s b =
      (get_block sd (if (s.BlockBuffers i).Updated then save_buffer sd s i else s) b i,
        some i) := by
  simp only [BLOCK_get, h1, h2, h3]

theorem BLOCK_get_null (sd : SdCard D) (s : BlockState D) (b : Int)
    (h1 : firstIndex (fun i => decide ((s.BlockBuffers i).BlockNumber = b)) = none)
    (h2 : firstIndex (fun i => decide ((s.BlockBuffers i).BlockNumber < 0)) = none)
    (h3 : firstIndex (fun i => !(s.BlockBuffers i).Current) = none) :
    BLOCK_get sd s b = (s, none) := by
  simp only [BLOCK_get, h1, h2, h3]

theorem BLOCK_assign_hit (sd : SdCard D) (s : BlockState D) (b : Int) {i}
    (h : firstIndex (fun i => decide ((s.BlockBuffers i).BlockNumber = b)) = some i) :
    BLOCK_assign sd s b = (setCurrent s i true, some i) := by
  simp only [BLOCK_assign, h, makeCurrent_eq]

theorem BLOCK_assign_free (sd : SdCard D) (s : BlockState D) (b : Int) {i}
    (h1 : firstIndex (fun i => decide ((s.BlockBuffers i).BlockNumber = b)) = none)
    (h2 : firstIndex (fun i => decide ((s.BlockBuffers i).BlockNumber < 0)) = some i) :
    BLOCK_assign sd s b = (init_block s b i, some i) := by
  simp only [BLOCK_assign, h1, h2]

theorem BLOCK_assign_evict (sd : SdCard D) (s : BlockState D) (b : Int) {i}
    (h1 : firstIndex (fun i => decide ((s.BlockBuffers i).BlockNumber = b)) = none)
    (h2 : firstIndex (fun i => decide ((s.BlockBuffers i).BlockNumber < 0)) = none)
    (h3 : firstIndex (fun i => !(s.BlockBuffers i).Current) = some i) :
    BLOCK_assign sd s b =
      (init_block (if (s.BlockBuffers i).Updated then save_buffer sd s i else s) b i,
        some i) := by
  simp only [BLOCK_assign, h1, h2, h3]

theorem BLOCK_assign_null (sd : SdCard D) (s : BlockState D) (b : Int)
    (h1 : firstIndex (fun i => decide ((s.BlockBuffers i).BlockNumber = b)) = none)
    (h2 : firstIndex (fun i => decide ((s.BlockBuffers i).BlockNumber < 0)) = none)
    (h3 : firstIndex (fun i => !(s.BlockBuffers i).Current) = none) :
    BLOCK_assign sd s b = (s, none) := by
  simp only [BLOCK_assign, h1, h2, h3]

/-- The hit test finds the lowest slot that holds `b`. -/
theorem hit_iff (s : BlockState D) (b : Int) (k : Fin BLOCK_BUFFER_COUNT) :
    firstIndex (fun i => decide ((s.BlockBuffers i).BlockNumber = b)) = some k ↔
      (s.BlockBuffers k).BlockNumber = b ∧ ∀ j, j < k → (s.BlockBuffers j).BlockNumber ≠ b := by
  rw [firstIndex_eq_some]; simp

theorem miss_iff (s : BlockState D) (b : Int) :
    firstIndex (fun i => decide ((s.BlockBuffers i).BlockNumber = b)) = none ↔
      ∀ i, (s.BlockBuffers i).BlockNumber ≠ b := by
  rw [firstIndex_eq_none]; simp

theorem free_iff (s : BlockState D) (k : Fin BLOCK_BUFFER_COUNT) :
    firstIndex (fun i => decide ((s.BlockBuffers i).BlockNumber < 0)) = some k ↔
      (s.BlockBuffers k).BlockNumber < 0 ∧ ∀ j, j < k → 0 ≤ (s.BlockBuffers j).BlockNumber := by
  rw [firstIndex_eq_some]; simp

theorem full_iff (s : BlockState D) :
    firstIndex (fun i => decide ((s.BlockBuffers i).BlockNumber < 0)) = none ↔
      ∀ i, 0 ≤ (s.BlockBuffers i).BlockNumber := by
  rw [firstIndex_eq_none]; simp

theorem victim_iff (s : BlockState D) (k : Fin BLOCK_BUFFER_COUNT) :
    firstIndex (fun i => !(s.BlockBuffers i).Current) = some k ↔
      (s.BlockBuffers k).Current = false ∧ ∀ j, j < k → (s.BlockBuffers j).Current = true := by
  rw [firstIndex_eq_some]; simp

theorem novictim_iff (s : BlockState D) :
    firstIndex (fun i => !(s.BlockBuffers i).Current) = none ↔
      ∀ i, (s.BlockBuffers i).Current = true := by
  rw [firstIndex_eq_none]; simp


/-- A statement about all four slots is the conjunction of its four instances. -/
theorem forall_slot {P : Fin BLOCK_BUFFER_COUNT → Prop} :
    (∀ i, P i) ↔ P 0 ∧ P 1 ∧ P 2 ∧ P 3 := by
  constructor
  · intro h; exact ⟨h 0, h 1, h 2, h 3⟩
  · rintro ⟨h0, h1, h2, h3⟩ i
    fin_cases i
    · exact h0
    · exact h1
    · exact h2
    · exact h3

theorem firstIndex_unfold (c : Fin BLOCK_BUFFER_COUNT → Bool) :
    firstIndex c = if c 0 then some 0 else if c 1 then some 1 else if c 2 then some 2
      else if c 3 then some 3 else none := by
  revert c; decide

theorem BLOCK_emptyBuffers_slot (s : BlockState D) (i : Fin BLOCK_BUFFER_COUNT) :
    (BLOCK_emptyBuffers s).BlockBuffers i =
      { Data := (s.BlockBuffers i).Data, BlockNumber := -1, Current := false,
        Updated := false } := by
  revert i
  simp [forall_slot, BLOCK_emptyBuffers, finRange_count, setSlot, Function.update_apply]

theorem BLOCK_emptyBuffers_card (s : BlockState D) : (BLOCK_emptyBuffers s).card = s.card := by
  simp [BLOCK_emptyBuffers, finRange_count]

theorem BLOCK_emptyBuffers_sdCalls (s : BlockState D) :
    (BLOCK_emptyBuffers s).sdCalls = s.sdCalls := by
  simp [BLOCK_emptyBuffers, finRange_count]

theorem setCurrent_fields (s : BlockState D) (i j : Fin BLOCK_BUFFER_COUNT) (v : Bool) :
    ((setCurrent s i v).BlockBuffers j).Data = (s.BlockBuffers j).Data ∧
    ((setCurrent s i v).BlockBuffers j).BlockNumber = (s.BlockBuffers j).BlockNumber ∧
    ((setCurrent s i v).BlockBuffers j).Updated = (s.BlockBuffers j).Updated := by
  by_cases h : j = i
  · subst h; simp [setCurrent]
  · simp [setCurrent, setSlot_other _ _ h]

/-- After `BLOCK_get` returned slot `k` for block `b`, slot `k` is the lowest slot that holds
`b`. -/
theorem get_result_holds (sd : SdCard D) (s : BlockState D) (b : Int) (k : Fin BLOCK_BUFFER_COUNT)
    (h : (BLOCK_get sd s b).2 = some k) :
    firstIndex (fun i => decide (((BLOCK_get sd s b).1.BlockBuffers i).BlockNumber = b))
      = some k := by
  cases h1 : firstIndex (fun i => decide ((s.BlockBuffers i).BlockNumber = b)) with
  | some i =>
    rw [BLOCK_get_hit sd s b h1] at h ⊢
    simp only [Option.some.injEq] at h; subst h
    rw [hit_iff] at h1 ⊢
    simpa [(setCurrent_fields s _ _ true).2.1] using h1
  | none =>
    have hm := (miss_iff s b).1 h1
    cases h2 : firstIndex (fun i => decide ((s.BlockBuffers i).BlockNumber < 0)) with
    | some i =>
      rw [BLOCK_get_free sd s b h1 h2] at h ⊢
      simp only [Option.some.injEq] at h; subst h
      rw [hit_iff]
      refine ⟨by simp [get_block], fun j hj => ?_⟩
      have : j ≠ i := ne_of_lt hj
      simpa [get_block, Function.update_noteq this] using hm j
    | none =>
      cases h3 : firstIndex (fun i => !(s.BlockBuffers i).Current) with
      | some i =>
        rw [BLOCK_get_evict sd s b h1 h2 h3] at h ⊢
        simp only [Option.some.injEq] at h; subst h
        rw [hit_iff]
        refine ⟨by simp [get_block], fun j hj => ?_⟩
        have : j ≠ i := ne_of_lt hj
        by_cases hu : (s.BlockBuffers i).Updated = true
        · simpa [get_block, save_buffer, hu, Function.update_noteq this] using hm j
        · simpa [get_block, hu, Function.update_noteq this] using hm j
      | none =>
        rw [BLOCK_get_null sd s b h1 h2 h3] at h
        simp at h

/-- After `BLOCK_assign` returned slot `k` for block `b`, slot `k` is the lowest slot that holds
`b`. -/
theorem assign_result_holds (sd : SdCard D) (s : BlockState D) (b : Int)
    (k : Fin BLOCK_BUFFER_COUNT) (h : (BLOCK_assign sd s b).2 = some k) :
    firstIndex (fun i => decide (((BLOCK_assign sd s b).1.BlockBuffers i).BlockNumber = b))
      = some k := by
  cases h1 : firstIndex (fun i => decide ((s.BlockBuffers i).BlockNumber = b)) with
  | some i =>
    rw [BLOCK_assign_hit sd s b h1] at h ⊢
    simp only [Option.some.injEq] at h; subst h
    rw [hit_iff] at h1 ⊢
    simpa [(setCurrent_fields s _ _ true).2.1] using h1
  | none =>
    have hm := (miss_iff s b).1 h1
    cases h2 : firstIndex (fun i => decide ((s.BlockBuffers i).BlockNumber < 0)) with
    | some i =>
      rw [BLOCK_assign_free sd s b h1 h2] at h ⊢
      simp only [Option.some.injEq] at h; subst h
      rw [hit_iff]
      refine ⟨by simp [init_block], fun j hj => ?_⟩
      have : j ≠ i := ne_of_lt hj
      simpa [init_block, setSlot_other _ _ this] using hm j
    | none =>
      cases h3 : firstIndex (fun i => !(s.BlockBuffers i).Current) with
      | some i =>
        rw [BLOCK_assign_evict sd s b h1 h2 h3] at h ⊢
        simp only [Option.some.injEq] at h; subst h
        rw [hit_iff]
        refine ⟨by simp [init_block], fun j hj => ?_⟩
        have : j ≠ i := ne_of_lt hj
        by_cases hu : (s.BlockBuffers i).Updated = true
        · simpa [init_block, save_buffer, hu, setSlot_other _ _ this,
            Function.update_noteq this] using hm j
        · simpa [init_block, hu, setSlot_other _ _ this] using hm j
      | none =>
        rw [BLOCK_assign_null sd s b h1 h2 h3] at h
        simp at h

/-- What a hit does: the lowest slot holding `b` is returned, no driver call is made, the card
and the `Data`, `BlockNumber` and `Updated` of every slot stay as they were. -/
theorem get_hit_frame (sd : SdCard D) (s : BlockState D) (b : Int) (k : Fin BLOCK_BUFFER_COUNT)
    (h : firstIndex (fun i => decide ((s.BlockBuffers i).BlockNumber = b)) = some k) :
    (BLOCK_get sd s b).2 = some k ∧
    (BLOCK_get sd s b).1.sdCalls = s.sdCalls ∧
    (BLOCK_get sd s b).1.card = s.card ∧
    ∀ j, ((BLOCK_get sd s b).1.BlockBuffers j).Data = (s.BlockBuffers j).Data ∧
      ((BLOCK_get sd s b).1.BlockBuffers j).BlockNumber = (s.BlockBuffers j).BlockNumber ∧
      ((BLOCK_get sd s b).1.BlockBuffers j).Updated = (s.BlockBuffers j).Updated := by
  rw [BLOCK_get_hit sd s b h]
  exact ⟨rfl, rfl, rfl, fun j => setCurrent_fields s k j true⟩

/-- The card `sectorCard` returns on a read what was last written to those sectors. -/
theorem sectorCard_read_write (card : Int → List Nat) (data : List Nat) (addr : Int)
    (h : data.length = 1024) :
    sectorCard.SD_ReadBlocks (sectorCard.SD_WriteBlocks card data addr 2) addr 2 = data := by
  have h2 : ¬ (addr + 1 < addr + 2 → addr + 1 < addr) := by omega
  have t : List.take 512 (List.drop 512 data) = List.drop 512 data :=
    List.take_of_length_le (by simp [h])
  simp [sectorCard, List.range_succ, h2]
  rw [t, List.take_append_drop]

/-! ## The write-back contract (C1 to C4): evaluation of the code

`BLOCK_get` and `BLOCK_assign` never clear the `Current` flag of another slot: the inner loop of
the hit branch writes `BlockBuffers[i].Current` where the index `j` was meant, and `get_block`
and `init_block` set `Current` without clearing it elsewhere. The four theorems below evaluate
the code on the inputs at which this shows. -/

set_option maxRecDepth 100000 in
/-- C1 (write-back round trip), evaluated on the code. On a card that returns what was last
written, after `BLOCK_init`, `BLOCK_get(10)`, `BLOCK_get(20)` the call `BLOCK_get(20)` returns
slot 1; the caller fills that buffer with 1024 bytes of value 1 and calls `BLOCK_update` and
`BLOCK_flushBuffers`. The only write that reaches the card is the one of block 10 (sector 20),
and the next `BLOCK_get(20)` returns a buffer of 1024 zero bytes, not the bytes stored. -/
theorem C1_round_trip_lost :
    Reachable sectorCard twoBlocks ∧
    (BLOCK_get sectorCard twoBlocks 20).2 = some 1 ∧
    (BLOCK_get sectorCard lostWrite 20).2 = some 0 ∧
    ((BLOCK_get sectorCard lostWrite 20).1.BlockBuffers 0).Data = List.replicate 1024 0 ∧
    ((BLOCK_get sectorCard lostWrite 20).1.BlockBuffers 0).Data ≠ List.replicate 1024 1 ∧
    lostWrite.sdCalls =
      [SdCall.read 20 2, SdCall.read 40 2, SdCall.write (List.replicate 1024 0) 20 2] :=
  ⟨⟨blankCard, [Op.get 10, Op.get 20], by decide, rfl⟩, by decide, by decide, by decide,
    by decide, by decide⟩

/-- C2 (`BLOCK_update` marks the most recent block), evaluated on the code. After `BLOCK_init`,
`BLOCK_get(10)` returns slot 0 and `BLOCK_get(20)` returns slot 1; a following `BLOCK_update`
sets `Updated` in slot 0 (block 10) and leaves slot 1 (block 20) clean. -/
theorem C2_update_marks_older :
    Reachable sectorCard twoBlocks ∧
    (BLOCK_get sectorCard initState 10).2 = some 0 ∧
    (BLOCK_get sectorCard (BLOCK_get sectorCard initState 10).1 20).2 = some 1 ∧
    (BLOCK_get sectorCard (BLOCK_get sectorCard initState 10).1 20).1 = twoBlocks ∧
    (twoBlocks.BlockBuffers 0).BlockNumber = 10 ∧
    (twoBlocks.BlockBuffers 1).BlockNumber = 20 ∧
    ((BLOCK_update twoBlocks).BlockBuffers 0).Updated = true ∧
    ((BLOCK_update twoBlocks).BlockBuffers 1).Updated = false :=
  ⟨⟨blankCard, [Op.get 10, Op.get 20], by decide, rfl⟩, by decide, by decide, rfl,
    by decide, by decide, by decide, by decide⟩

/-- C3 (at most one current), evaluated on the code. After `BLOCK_init`, `BLOCK_get(10)`,
`BLOCK_get(20)` two slots have `Current` set. -/
theorem C3_two_current :
    Reachable sectorCard twoBlocks ∧ currentCount twoBlocks = 2 ∧
    (twoBlocks.BlockBuffers 0).Current = true ∧ (twoBlocks.BlockBuffers 1).Current = true :=
  ⟨⟨blankCard, [Op.get 10, Op.get 20], by decide, rfl⟩, by decide, by decide, by decide⟩

/-- C4 (no resource exhaustion), evaluated on the code. After `BLOCK_init` and `BLOCK_get` of
10, 20, 30, 40 every slot is assigned and current, and both `BLOCK_get(50)` and
`BLOCK_assign(50)` return `NULL`. -/
theorem C4_null_when_all_current :
    Reachable sectorCard fourBlocks ∧
    (∀ i, (fourBlocks.BlockBuffers i).Current = true) ∧
    (BLOCK_get sectorCard fourBlocks 50).2 = none ∧
    (BLOCK_assign sectorCard fourBlocks 50).2 = none :=
  ⟨⟨blankCard, [Op.get 10, Op.get 20, Op.get 30, Op.get 40], by decide, rfl⟩,
    by decide, by decide, by decide⟩

/-! ## The branches of `BLOCK_get` and `BLOCK_assign` (C5 to C9) -/

/-- C5 (hit consistency). In every state and for every block `b`: if some slot holds `b`, then
`BLOCK_get(b)` returns the lowest slot that holds `b`, makes no driver call, and leaves the card
and the `Data`, `BlockNumber` and `Updated` of every slot unchanged. Hence, when `BLOCK_get(b)`
or `BLOCK_assign(b)` returned slot `k`, a `BLOCK_get(b)` directly afterwards returns slot `k`
again, makes no driver call and leaves the `Data` of every slot unchanged. -/
theorem C5_hit_consistency (sd : SdCard D) (s : BlockState D) (b : Int) :
    ((∃ i, (s.BlockBuffers i).BlockNumber = b) →
      ∃ k, (BLOCK_get sd s b).2 = some k ∧
        (s.BlockBuffers k).BlockNumber = b ∧
        (∀ j, j < k → (s.BlockBuffers j).BlockNumber ≠ b) ∧
        (BLOCK_get sd s b).1.sdCalls = s.sdCalls ∧
        (BLOCK_get sd s b).1.card = s.card ∧
        ∀ j, ((BLOCK_get sd s b).1.BlockBuffers j).Data = (s.BlockBuffers j).Data ∧
          ((BLOCK_get sd s b).1.BlockBuffers j).BlockNumber = (s.BlockBuffers j).BlockNumber ∧
          ((BLOCK_get sd s b).1.BlockBuffers j).Updated = (s.BlockBuffers j).Updated) ∧
    (∀ k, (BLOCK_get sd s b).2 = some k →
      (BLOCK_get sd (BLOCK_get sd s b).1 b).2 = some k ∧
      (BLOCK_get sd (BLOCK_get sd s b).1 b).1.sdCalls = (BLOCK_get sd s b).1.sdCalls ∧
      ∀ j, ((BLOCK_get sd (BLOCK_get sd s b).1 b).1.BlockBuffers j).Data =
        ((BLOCK_get sd s b).1.BlockBuffers j).Data) ∧
    (∀ k, (BLOCK_assign sd s b).2 = some k →
      (BLOCK_get sd (BLOCK_assign sd s b).1 b).2 = some k ∧
      (BLOCK_get sd (BLOCK_assign sd s b).1 b).1.sdCalls = (BLOCK_assign sd s b).1.sdCalls ∧
      ∀ j, ((BLOCK_get sd (BLOCK_assign sd s b).1 b).1.BlockBuffers j).Data =
        ((BLOCK_assign sd s b).1.BlockBuffers j).Data) := by
  refine ⟨?_, ?_, ?_⟩
  · rintro ⟨i, hi⟩
    obtain ⟨k, hk⟩ := firstIndex_isSome
      (c := fun i => decide ((s.BlockBuffers i).BlockNumber = b)) i (by simpa using hi)
    have hf := get_hit_frame sd s b k hk
    have hl := (hit_iff s b k).1 hk
    exact ⟨k, hf.1, hl.1, hl.2, hf.2⟩
  · intro k hk
    have hf := get_hit_frame sd _ b k (get_result_holds sd s b k hk)
    exact ⟨hf.1, hf.2.1, fun j => (hf.2.2.2 j).1⟩
  · intro k hk
    have hf := get_hit_frame sd _ b k (assign_result_holds sd s b k hk)
    exact ⟨hf.1, hf.2.1, fun j => (hf.2.2.2 j).1⟩

/-- C5 at a concrete input: in `twoBlocks` slot 1 holds block 20, `BLOCK_get(20)` returns slot 1
without a driver call, and so does a second `BLOCK_get(20)`; after `BLOCK_assign(20)` likewise. -/
theorem C5_hit_consistency_witness :
    (∃ i, (twoBlocks.BlockBuffers i).BlockNumber = 20) ∧
    (BLOCK_get sectorCard twoBlocks 20).2 = some 1 ∧
    (BLOCK_assign sectorCard twoBlocks 20).2 = some 1 ∧
    (∃ k, (BLOCK_get sectorCard twoBlocks 20).2 = some k ∧
      (twoBlocks.BlockBuffers k).BlockNumber = 20 ∧
      (∀ j, j < k → (twoBlocks.BlockBuffers j).BlockNumber ≠ 20) ∧
      (BLOCK_get sectorCard twoBlocks 20).1.sdCalls = twoBlocks.sdCalls ∧
      (BLOCK_get sectorCard twoBlocks 20).1.card = twoBlocks.card ∧
      ∀ j, ((BLOCK_get sectorCard twoBlocks 20).1.BlockBuffers j).Data =
          (twoBlocks.BlockBuffers j).Data ∧
        ((BLOCK_get sectorCard twoBlocks 20).1.BlockBuffers j).BlockNumber =
          (twoBlocks.BlockBuffers j).BlockNumber ∧
        ((BLOCK_get sectorCard twoBlocks 20).1.BlockBuffers j).Updated =
          (twoBlocks.BlockBuffers j).Updated) ∧
    (BLOCK_get sectorCard (BLOCK_get sectorCard twoBlocks 20).1 20).2 = some 1 ∧
    (BLOCK_get sectorCard (BLOCK_assign sectorCard twoBlocks 20).1 20).2 = some 1 :=
  ⟨⟨1, by decide⟩, by decide, by decide,
    (C5_hit_consistency sectorCard twoBlocks 20).1 ⟨1, by decide⟩,
    ((C5_hit_consistency sectorCard twoBlocks 20).2.1 1 (by decide)).1,
    ((C5_hit_consistency sectorCard twoBlocks 20).2.2 1 (by decide)).1⟩

/-- C6, the statement as given fails on the code. `block.c` computes `block_number*2` in
32-bit `int`: in `initState` no slot holds block `2^30` and all slots are unassigned, and
`BLOCK_get(2^30)` issues its read at sector `-2^31`, not at sector `2*2^30 = 2^31`. -/
theorem C6_read_sector_wraps :
    (0 : Int) ≤ 1073741824 ∧
    (∀ i, (initState.BlockBuffers i).BlockNumber ≠ 1073741824) ∧
    (∃ i, (initState.BlockBuffers i).BlockNumber < 0) ∧
    (BLOCK_get sectorCard initState 1073741824).2 = some 0 ∧
    (BLOCK_get sectorCard initState 1073741824).1.sdCalls =
      initState.sdCalls ++ [SdCall.read (-2147483648) 2] ∧
    (BLOCK_get sectorCard initState 1073741824).1.sdCalls ≠
      initState.sdCalls ++ [SdCall.read (2 * 1073741824) 2] :=
  ⟨by decide, by decide, ⟨0, by decide⟩, by decide, by decide, by decide⟩

/-- C6 as the code behaves (free-slot load). In every state and for every `b` with
`0 ≤ b < 2^30` that no slot holds, if some slot is unassigned (`BlockNumber < 0`, the test of
the source; it is the slot with `BlockNumber = -1` whenever no block number lies below `-1`),
then `BLOCK_get(b)` returns the lowest unassigned slot, makes exactly one driver call, the read
of 2 blocks at `2*b`, leaves the card unchanged, and the slot afterwards has `BlockNumber = b`,
`Current` set, `Updated` clear and holds the bytes the driver delivered. From `BLOCK_init`,
`BLOCK_get` of 10, 20, 30, 40 returns slots 0, 1, 2, 3 with the reads at 20, 40, 60, 80. -/
theorem C6_free_slot_load (sd : SdCard D) :
    (∀ (s : BlockState D) (b : Int), 0 ≤ b → b < 1073741824 →
      (∀ i, (s.BlockBuffers i).BlockNumber ≠ b) →
      (∃ i, (s.BlockBuffers i).BlockNumber < 0) →
      ∃ k, (BLOCK_get sd s b).2 = some k ∧
        (s.BlockBuffers k).BlockNumber < 0 ∧
        (∀ j, j < k → 0 ≤ (s.BlockBuffers j).BlockNumber) ∧
        ((∀ j, -1 ≤ (s.BlockBuffers j).BlockNumber) →
          (s.BlockBuffers k).BlockNumber = -1 ∧
          ∀ j, j < k → (s.BlockBuffers j).BlockNumber ≠ -1) ∧
        (BLOCK_get sd s b).1.sdCalls = s.sdCalls ++ [SdCall.read (2 * b) 2] ∧
        (BLOCK_get sd s b).1.card = s.card ∧
        (BLOCK_get sd s b).1.BlockBuffers k =
          { Data := sd.SD_ReadBlocks s.card (2 * b) 2, BlockNumber := b, Current := true,
            Updated := false }) ∧
    (∀ s : BlockState D,
      (getMany sd (BLOCK_init s) [10, 20, 30, 40]).2 = [some 0, some 1, some 2, some 3] ∧
      (getMany sd (BLOCK_init s) [10, 20, 30, 40]).1.sdCalls =
        s.sdCalls ++ [SdCall.read 20 2, SdCall.read 40 2, SdCall.read 60 2, SdCall.read 80 2] ∧
      ((getMany sd (BLOCK_init s) [10, 20, 30, 40]).1.BlockBuffers 0).BlockNumber = 10 ∧
      ((getMany sd (BLOCK_init s) [10, 20, 30, 40]).1.BlockBuffers 1).BlockNumber = 20 ∧
      ((getMany sd (BLOCK_init s) [10, 20, 30, 40]).1.BlockBuffers 2).BlockNumber = 30 ∧
      ((getMany sd (BLOCK_init s) [10, 20, 30, 40]).1.BlockBuffers 3).BlockNumber = 40) := by
  constructor
  · rintro s b hb0 hb1 hmiss ⟨i, hi⟩
    obtain ⟨k, hk⟩ := firstIndex_isSome
      (c := fun i => decide ((s.BlockBuffers i).BlockNumber < 0)) i (by simpa using hi)
    have hl := (free_iff s k).1 hk
    have hd : int32 (b * 2) = 2 * b := int32_double b (by omega) hb1
    refine ⟨k, ?_, hl.1, hl.2, ?_, ?_, ?_, ?_⟩
    · rw [BLOCK_get_free sd s b ((miss_iff s b).2 hmiss) hk]
    · intro hge
      refine ⟨le_antisymm (by have := hl.1; omega) (hge k), fun j hj hj1 => ?_⟩
      have := hl.2 j hj
      omega
    · rw [BLOCK_get_free sd s b ((miss_iff s b).2 hmiss) hk]
      simp [get_block, hd]
    · rw [BLOCK_get_free sd s b ((miss_iff s b).2 hmiss) hk]
      simp [get_block]
    · rw [BLOCK_get_free sd s b ((miss_iff s b).2 hmiss) hk]
      simp [get_block, hd]
  · intro s
    simp [getMany, BLOCK_get, firstIndex_unfold, BLOCK_init, int32,
      BLOCK_emptyBuffers_slot, BLOCK_emptyBuffers_sdCalls, get_block, Function.update_apply]

/-- C6 at a concrete input: in `twoBlocks` no slot holds block 7 and slots 2 and 3 are
unassigned; `BLOCK_get(7)` returns slot 2 after one read at sector 14. -/
theorem C6_free_slot_load_witness :
    (0 : Int) ≤ 7 ∧ (7 : Int) < 1073741824 ∧
    (∀ i, (twoBlocks.BlockBuffers i).BlockNumber ≠ 7) ∧
    (∃ i, (twoBlocks.BlockBuffers i).BlockNumber < 0) ∧
    (BLOCK_get sectorCard twoBlocks 7).2 = some 2 ∧
    (∃ k, (BLOCK_get sectorCard twoBlocks 7).2 = some k ∧
      (twoBlocks.BlockBuffers k).BlockNumber < 0 ∧
      (∀ j, j < k → 0 ≤ (twoBlocks.BlockBuffers j).BlockNumber) ∧
      ((∀ j, -1 ≤ (twoBlocks.BlockBuffers j).BlockNumber) →
        (twoBlocks.BlockBuffers k).BlockNumber = -1 ∧
        ∀ j, j < k → (twoBlocks.BlockBuffers j).BlockNumber ≠ -1) ∧
      (BLOCK_get sectorCard twoBlocks 7).1.sdCalls =
        twoBlocks.sdCalls ++ [SdCall.read (2 * 7) 2] ∧
      (BLOCK_get sectorCard twoBlocks 7).1.card = twoBlocks.card ∧
      (BLOCK_get sectorCard twoBlocks 7).1.BlockBuffers k =
        { Data := sectorCard.SD_ReadBlocks twoBlocks.card (2 * 7) 2, BlockNumber := 7,
          Current := true, Updated := false }) :=
  ⟨by decide, by decide, by decide, ⟨2, by decide⟩, by decide,
    (C6_free_slot_load sectorCard).1 twoBlocks 7 (by decide) (by decide) (by decide)
      ⟨2, by decide⟩⟩

/-- C8 (assign fill). In every state and for every block `b` that no slot holds, if
`BLOCK_assign(b)` returns slot `k`, then afterwards slot `k` has `BlockNumber = b`, `Current`
set, `Updated` clear, and its buffer has 1024 bytes that all equal `0x20`, whatever the slot
held before. -/
theorem C8_assign_fill (sd : SdCard D) (s : BlockState D) (b : Int)
    (k : Fin BLOCK_BUFFER_COUNT)
    (hmiss : ∀ i, (s.BlockBuffers i).BlockNumber ≠ b)
    (hk : (BLOCK_assign sd s b).2 = some k) :
    (BLOCK_assign sd s b).1.BlockBuffers k =
      { Data := List.replicate 1024 0x20, BlockNumber := b, Current := true,
        Updated := false } ∧
    ((BLOCK_assign sd s b).1.BlockBuffers k).Data.length = 1024 ∧
    ∀ x ∈ ((BLOCK_assign sd s b).1.BlockBuffers k).Data, x = 0x20 := by
  have h1 := (miss_iff s b).2 hmiss
  have key : (BLOCK_assign sd s b).1.BlockBuffers k =
      { Data := List.replicate 1024 0x20, BlockNumber := b, Current := true,
        Updated := false } := by
    cases h2 : firstIndex (fun i => decide ((s.BlockBuffers i).BlockNumber < 0)) with
    | some i =>
      rw [BLOCK_assign_free sd s b h1 h2] at hk ⊢
      simp only [Option.some.injEq] at hk; subst hk
      exact setSlot_same _ _ _
    | none =>
      cases h3 : firstIndex (fun i => !(s.BlockBuffers i).Current) with
      | some i =>
        rw [BLOCK_assign_evict sd s b h1 h2 h3] at hk ⊢
        simp only [Option.some.injEq] at hk; subst hk
        exact setSlot_same _ _ _
      | none =>
        rw [BLOCK_assign_null sd s b h1 h2 h3] at hk
        simp at hk
  rw [key]
  exact ⟨rfl, List.length_replicate _ _, fun x hx => List.eq_of_mem_replicate hx⟩

/-- C8 at concrete inputs: `BLOCK_assign(7)` in `twoBlocks` takes the unassigned slot 2, and
`BLOCK_assign(9)` in `dirtyVictim` takes the evicted slot 0, which held bytes of value 7; both
buffers are filled with `0x20`. -/
theorem C8_assign_fill_witness :
    ((∀ i, (twoBlocks.BlockBuffers i).BlockNumber ≠ 7) ∧
      (BLOCK_assign sectorCard twoBlocks 7).2 = some 2 ∧
      (BLOCK_assign sectorCard twoBlocks 7).1.BlockBuffers 2 =
        { Data := List.replicate 1024 0x20, BlockNumber := 7, Current := true,
          Updated := false }) ∧
    ((∀ i, (dirtyVictim.BlockBuffers i).BlockNumber ≠ 9) ∧
      (BLOCK_assign sectorCard dirtyVictim 9).2 = some 0 ∧
      (dirtyVictim.BlockBuffers 0).Data = List.replicate 1024 7 ∧
      ∀ x ∈ ((BLOCK_assign sectorCard dirtyVictim 9).1.BlockBuffers 0).Data, x = 0x20) :=
  ⟨⟨by decide, by decide,
      (C8_assign_fill sectorCard twoBlocks 7 2 (by decide) (by decide)).1⟩,
    ⟨by decide, by decide, rfl,
      (C8_assign_fill sectorCard dirtyVictim 9 0 (by decide) (by decide)).2.2⟩⟩

/-- C9 (`BLOCK_assign` does no file I/O to obtain the block). In every state and for every
block `b` the driver calls `BLOCK_assign(b)` adds contain no read; they are either none at all
or the single write-back of the returned slot, which was not current and was updated, with the
bytes the slot had before the call, at the sector `save_buffer` computes from the block number
the slot had before the call. -/
theorem C9_assign_no_read (sd : SdCard D) (s : BlockState D) (b : Int) :
    ∃ new, (BLOCK_assign sd s b).1.sdCalls = s.sdCalls ++ new ∧
      (∀ a n, SdCall.read a n ∉ new) ∧
      (new = [] ∨
        ∃ k, (BLOCK_assign sd s b).2 = some k ∧
          (s.BlockBuffers k).Current = false ∧ (s.BlockBuffers k).Updated = true ∧
          new = [SdCall.write (s.BlockBuffers k).Data
            (int32 ((s.BlockBuffers k).BlockNumber * 2)) 2]) := by
  cases h1 : firstIndex (fun i => decide ((s.BlockBuffers i).BlockNumber = b)) with
  | some i =>
    refine ⟨[], ?_, by simp, Or.inl rfl⟩
    rw [BLOCK_assign_hit sd s b h1]; simp [setCurrent]
  | none =>
    cases h2 : firstIndex (fun i => decide ((s.BlockBuffers i).BlockNumber < 0)) with
    | some i =>
      refine ⟨[], ?_, by simp, Or.inl rfl⟩
      rw [BLOCK_assign_free sd s b h1 h2]; simp [init_block]
    | none =>
      cases h3 : firstIndex (fun i => !(s.BlockBuffers i).Current) with
      | some i =>
        rw [BLOCK_assign_evict sd s b h1 h2 h3]
        by_cases hu : (s.BlockBuffers i).Updated = true
        · refine ⟨[SdCall.write (s.BlockBuffers i).Data
              (int32 ((s.BlockBuffers i).BlockNumber * 2)) 2],
            ?_, by simp, Or.inr ⟨i, rfl, ((victim_iff s i).1 h3).1, hu, rfl⟩⟩
          simp [hu, init_block, save_buffer]
        · refine ⟨[], ?_, by simp, Or.inl rfl⟩
          simp [hu, init_block]
      | none =>
        refine ⟨[], ?_, by simp, Or.inl rfl⟩
        rw [BLOCK_assign_null sd s b h1 h2 h3]; simp

/-! ## Facts about `BLOCK_saveBuffers`, `BLOCK_emptyBuffers` and `BLOCK_update` -/

/-- The slots after `BLOCK_saveBuffers`: `Updated` is cleared, the rest is kept. -/
theorem BLOCK_saveBuffers_fields (sd : SdCard D) (s : BlockState D)
    (i : Fin BLOCK_BUFFER_COUNT) :
    ((BLOCK_saveBuffers sd s).BlockBuffers i).Updated = false ∧
    ((BLOCK_saveBuffers sd s).BlockBuffers i).BlockNumber = (s.BlockBuffers i).BlockNumber ∧
    ((BLOCK_saveBuffers sd s).BlockBuffers i).Current = (s.BlockBuffers i).Current ∧
    ((BLOCK_saveBuffers sd s).BlockBuffers i).Data = (s.BlockBuffers i).Data := by
  revert i
  unfold BLOCK_saveBuffers
  rw [finRange_count]
  simp only [List.foldl_cons, List.foldl_nil, forall_slot]
  by_cases h0 : (s.BlockBuffers 0).Updated = true <;>
  by_cases h1 : (s.BlockBuffers 1).Updated = true <;>
  by_cases h2 : (s.BlockBuffers 2).Updated = true <;>
  by_cases h3 : (s.BlockBuffers 3).Updated = true <;>
  simp [h0, h1, h2, h3, save_buffer, setUpdated, setSlot, Function.update_apply]

/-- The driver calls of `BLOCK_saveBuffers`: the writes of the updated slots in index order. -/
theorem BLOCK_saveBuffers_sdCalls (sd : SdCard D) (s : BlockState D) :
    (BLOCK_saveBuffers sd s).sdCalls =
      s.sdCalls ++ ((List.finRange BLOCK_BUFFER_COUNT).filter
        (fun i => (s.BlockBuffers i).Updated)).map
          (fun i => SdCall.write (s.BlockBuffers i).Data
            (int32 ((s.BlockBuffers i).BlockNumber * 2)) 2) := by
  unfold BLOCK_saveBuffers
  rw [finRange_count]
  simp only [List.foldl_cons, List.foldl_nil]
  by_cases h0 : (s.BlockBuffers 0).Updated = true <;>
  by_cases h1 : (s.BlockBuffers 1).Updated = true <;>
  by_cases h2 : (s.BlockBuffers 2).Updated = true <;>
  by_cases h3 : (s.BlockBuffers 3).Updated = true <;>
  simp [h0, h1, h2, h3, save_buffer, setUpdated, setSlot, Function.update_apply]

/-- The writes of the updated slots are at `2*BlockNumber` when the block number of every
updated slot lies between `-2^30` and `2^30 - 1`. -/
theorem writes_exact (s : BlockState D)
    (hb : ∀ i, (s.BlockBuffers i).Updated = true →
      -1073741824 ≤ (s.BlockBuffers i).BlockNumber ∧
      (s.BlockBuffers i).BlockNumber < 1073741824) :
    ((List.finRange BLOCK_BUFFER_COUNT).filter (fun i => (s.BlockBuffers i).Updated)).map
        (fun i => SdCall.write (s.BlockBuffers i).Data
          (int32 ((s.BlockBuffers i).BlockNumber * 2)) 2) =
      ((List.finRange BLOCK_BUFFER_COUNT).filter (fun i => (s.BlockBuffers i).Updated)).map
        (fun i => SdCall.write (s.BlockBuffers i).Data (2 * (s.BlockBuffers i).BlockNumber) 2) := by
  apply List.map_congr_left
  intro i hi
  have hu : (s.BlockBuffers i).Updated = true := by
    simpa using (List.mem_filter.1 hi).2
  rw [int32_double _ (hb i hu).1 (hb i hu).2]

/-- Without an updated slot `BLOCK_saveBuffers` does nothing. -/
theorem BLOCK_saveBuffers_clean (sd : SdCard D) (s : BlockState D)
    (h : ∀ i, (s.BlockBuffers i).Updated = false) : BLOCK_saveBuffers sd s = s := by
  unfold BLOCK_saveBuffers
  rw [finRange_count]
  simp [h]

/-- Extensionality for states. -/
theorem BlockState.ext_slots {s t : BlockState D}
    (h1 : ∀ i, s.BlockBuffers i = t.BlockBuffers i) (h2 : s.card = t.card)
    (h3 : s.sdCalls = t.sdCalls) : s = t := by
  cases s; cases t
  simp only [BlockState.mk.injEq]
  exact ⟨funext h1, h2, h3⟩



/-! ## `BLOCK_saveBuffers` (C10) -/

set_option maxRecDepth 100000 in
/-- C10, the statement as given fails on the code. `save_buffer` computes `BlockNumber*2` in
32-bit `int`: in `bigDirty`, the state after `BLOCK_init`, `BLOCK_get(2^30 + 1)` and
`BLOCK_update`, slot 0 is updated and holds block `2^30 + 1`, and `BLOCK_saveBuffers` writes it
at sector `-2147483646`, not at sector `2*(2^30 + 1) = 2147483650`. -/
theorem C10_write_sector_wraps :
    (bigDirty.BlockBuffers 0).Updated = true ∧
    (bigDirty.BlockBuffers 0).BlockNumber = 1073741825 ∧
    (BLOCK_saveBuffers sectorCard bigDirty).sdCalls =
      bigDirty.sdCalls ++ [SdCall.write (bigDirty.BlockBuffers 0).Data (-2147483646) 2] ∧
    (BLOCK_saveBuffers sectorCard bigDirty).sdCalls ≠
      bigDirty.sdCalls ++
        [SdCall.write (bigDirty.BlockBuffers 0).Data (2 * (bigDirty.BlockBuffers 0).BlockNumber) 2] := by
  decide

/-- C10 as the code behaves (`BLOCK_saveBuffers` writes back exactly the updated slots and keeps
them resident). In every state the driver calls added by `BLOCK_saveBuffers` are, in slot index
order, one write of 2 blocks with the bytes of the slot for every slot that is updated, at the
sector `save_buffer` computes from its block number, and nothing for a clean slot; when the
block number of every updated slot lies between `-2^30` and `2^30 - 1`, that sector is
`2*BlockNumber`. Afterwards no slot is updated and `BlockNumber`, `Current` and `Data` of every
slot are unchanged. -/
theorem C10_saveBuffers (sd : SdCard D) (s : BlockState D) :
    (BLOCK_saveBuffers sd s).sdCalls =
      s.sdCalls ++ ((List.finRange BLOCK_BUFFER_COUNT).filter
        (fun i => (s.BlockBuffers i).Updated)).map
          (fun i => SdCall.write (s.BlockBuffers i).Data
            (int32 ((s.BlockBuffers i).BlockNumber * 2)) 2) ∧
    ((∀ i, (s.BlockBuffers i).Updated = true →
        -1073741824 ≤ (s.BlockBuffers i).BlockNumber ∧
        (s.BlockBuffers i).BlockNumber < 1073741824) →
      (BLOCK_saveBuffers sd s).sdCalls =
        s.sdCalls ++ ((List.finRange BLOCK_BUFFER_COUNT).filter
          (fun i => (s.BlockBuffers i).Updated)).map
            (fun i => SdCall.write (s.BlockBuffers i).Data
              (2 * (s.BlockBuffers i).BlockNumber) 2)) ∧
    ∀ i, ((BLOCK_saveBuffers sd s).BlockBuffers i).Updated = false ∧
      ((BLOCK_saveBuffers sd s).BlockBuffers i).BlockNumber = (s.BlockBuffers i).BlockNumber ∧
      ((BLOCK_saveBuffers sd s).BlockBuffers i).Current = (s.BlockBuffers i).Current ∧
      ((BLOCK_saveBuffers sd s).BlockBuffers i).Data = (s.BlockBuffers i).Data := by
  refine ⟨BLOCK_saveBuffers_sdCalls sd s, fun hb => ?_, BLOCK_saveBuffers_fields sd s⟩
  rw [BLOCK_saveBuffers_sdCalls, writes_exact s hb]

/-- C10 as the code behaves, at a concrete input: in `dirtyVictim` slot 0 is the only updated
slot and holds block 1; `BLOCK_saveBuffers` makes the single write of its bytes at sector 2. -/
theorem C10_saveBuffers_witness :
    (∀ i, (dirtyVictim.BlockBuffers i).Updated = true →
      -1073741824 ≤ (dirtyVictim.BlockBuffers i).BlockNumber ∧
      (dirtyVictim.BlockBuffers i).BlockNumber < 1073741824) ∧
    (List.finRange BLOCK_BUFFER_COUNT).filter
      (fun i => (dirtyVictim.BlockBuffers i).Updated) = [0] ∧
    (dirtyVictim.BlockBuffers 0).BlockNumber = 1 ∧
    (BLOCK_saveBuffers sectorCard dirtyVictim).sdCalls =
      dirtyVictim.sdCalls ++ ((List.finRange BLOCK_BUFFER_COUNT).filter
        (fun i => (dirtyVictim.BlockBuffers i).Updated)).map
          (fun i => SdCall.write (dirtyVictim.BlockBuffers i).Data
            (2 * (dirtyVictim.BlockBuffers i).BlockNumber) 2) :=
  ⟨by decide, by decide, by decide,
    (C10_saveBuffers sectorCard dirtyVictim).2.1 (by decide)⟩

/-! ## `BLOCK_flushBuffers` and `BLOCK_emptyBuffers` (C11 to C13) -/

set_option maxRecDepth 100000 in
/-- C11, the statement as given fails on the code in one point: the sectors of a written slot.
`save_buffer` computes `BlockNumber*2` in 32-bit `int`: in `bigDirty`, the state after
`BLOCK_init`, `BLOCK_get(2^30 + 1)` and `BLOCK_update`, `BLOCK_flushBuffers` writes the updated
slot 0, which holds block `2^30 + 1`, at sector `-2147483646`, not at sector
`2*(2^30 + 1) = 2147483650`. -/
theorem C11_flush_sector_wraps :
    (bigDirty.BlockBuffers 0).Updated = true ∧
    (bigDirty.BlockBuffers 0).BlockNumber = 1073741825 ∧
    (BLOCK_flushBuffers sectorCard bigDirty).sdCalls =
      bigDirty.sdCalls ++ [SdCall.write (bigDirty.BlockBuffers 0).Data (-2147483646) 2] ∧
    (BLOCK_flushBuffers sectorCard bigDirty).sdCalls ≠
      bigDirty.sdCalls ++
        [SdCall.write (bigDirty.BlockBuffers 0).Data (2 * (bigDirty.BlockBuffers 0).BlockNumber) 2] := by
  decide

/-- C11 as the code behaves (`BLOCK_flushBuffers` commits and releases everything). In every
state `BLOCK_flushBuffers` gives the state of `BLOCK_saveBuffers` followed by
`BLOCK_emptyBuffers`: its driver calls are those of `BLOCK_saveBuffers`, one write per updated
slot, in index order, of 2 blocks with the bytes of that slot at the sector `save_buffer`
computes from its block number; when the block number of every updated slot lies between
`-2^30` and `2^30 - 1` that sector is `2*BlockNumber`. The card is the one `BLOCK_saveBuffers`
leaves; afterwards every slot has `BlockNumber = -1`, is not current and not updated (its bytes
are kept). -/
theorem C11_flushBuffers (sd : SdCard D) (s : BlockState D) :
    BLOCK_flushBuffers sd s = BLOCK_emptyBuffers (BLOCK_saveBuffers sd s) ∧
    (BLOCK_flushBuffers sd s).sdCalls = (BLOCK_saveBuffers sd s).sdCalls ∧
    (BLOCK_flushBuffers sd s).sdCalls =
      s.sdCalls ++ ((List.finRange BLOCK_BUFFER_COUNT).filter
        (fun i => (s.BlockBuffers i).Updated)).map
          (fun i => SdCall.write (s.BlockBuffers i).Data
            (int32 ((s.BlockBuffers i).BlockNumber * 2)) 2) ∧
    ((∀ i, (s.BlockBuffers i).Updated = true →
        -1073741824 ≤ (s.BlockBuffers i).BlockNumber ∧
        (s.BlockBuffers i).BlockNumber < 1073741824) →
      (BLOCK_flushBuffers sd s).sdCalls =
        s.sdCalls ++ ((List.finRange BLOCK_BUFFER_COUNT).filter
          (fun i => (s.BlockBuffers i).Updated)).map
            (fun i => SdCall.write (s.BlockBuffers i).Data
              (2 * (s.BlockBuffers i).BlockNumber) 2)) ∧
    (BLOCK_flushBuffers sd s).card = (BLOCK_saveBuffers sd s).card ∧
    ∀ i, ((BLOCK_flushBuffers sd s).BlockBuffers i).BlockNumber = -1 ∧
      ((BLOCK_flushBuffers sd s).BlockBuffers i).Current = false ∧
      ((BLOCK_flushBuffers sd s).BlockBuffers i).Updated = false ∧
      ((BLOCK_flushBuffers sd s).BlockBuffers i).Data = (s.BlockBuffers i).Data := by
  refine ⟨rfl, ?_, ?_, fun hb => ?_, ?_, fun i => ?_⟩
  · exact BLOCK_emptyBuffers_sdCalls _
  · rw [← BLOCK_saveBuffers_sdCalls]; exact BLOCK_emptyBuffers_sdCalls _
  · rw [← writes_exact s hb, ← BLOCK_saveBuffers_sdCalls]; exact BLOCK_emptyBuffers_sdCalls _
  · exact BLOCK_emptyBuffers_card _
  · have h := BLOCK_emptyBuffers_slot (BLOCK_saveBuffers sd s) i
    have hd := (BLOCK_saveBuffers_fields sd s i).2.2.2
    unfold BLOCK_flushBuffers
    rw [h]
    exact ⟨rfl, rfl, rfl, hd⟩

/-- C11 as the code behaves, at a concrete input: in `dirtyVictim` slot 0 is the only updated
slot and holds block 1; `BLOCK_flushBuffers` makes the single write of its bytes at sector 2. -/
theorem C11_flushBuffers_witness :
    (∀ i, (dirtyVictim.BlockBuffers i).Updated = true →
      -1073741824 ≤ (dirtyVictim.BlockBuffers i).BlockNumber ∧
      (dirtyVictim.BlockBuffers i).BlockNumber < 1073741824) ∧
    (List.finRange BLOCK_BUFFER_COUNT).filter
      (fun i => (dirtyVictim.BlockBuffers i).Updated) = [0] ∧
    (dirtyVictim.BlockBuffers 0).BlockNumber = 1 ∧
    (BLOCK_flushBuffers sectorCard dirtyVictim).sdCalls =
      dirtyVictim.sdCalls ++ ((List.finRange BLOCK_BUFFER_COUNT).filter
        (fun i => (dirtyVictim.BlockBuffers i).Updated)).map
          (fun i => SdCall.write (dirtyVictim.BlockBuffers i).Data
            (2 * (dirtyVictim.BlockBuffers i).BlockNumber) 2) :=
  ⟨by decide, by decide, by decide,
    (C11_flushBuffers sectorCard dirtyVictim).2.2.2.1 (by decide)⟩

/-- After `BLOCK_flushBuffers` no slot is updated. -/
theorem BLOCK_flushBuffers_clean (sd : SdCard D) (s : BlockState D)
    (i : Fin BLOCK_BUFFER_COUNT) : ((BLOCK_flushBuffers sd s).BlockBuffers i).Updated = false := by
  unfold BLOCK_flushBuffers
  rw [BLOCK_emptyBuffers_slot]

/-- `BLOCK_emptyBuffers` changes nothing in a state it has produced. -/
theorem BLOCK_emptyBuffers_idem (s : BlockState D) :
    BLOCK_emptyBuffers (BLOCK_emptyBuffers s) = BLOCK_emptyBuffers s := by
  apply BlockState.ext_slots
  · intro i; rw [BLOCK_emptyBuffers_slot, BLOCK_emptyBuffers_slot]
  · rw [BLOCK_emptyBuffers_card]
  · rw [BLOCK_emptyBuffers_sdCalls]

/-- C12 (flush idempotence). In every state a second `BLOCK_flushBuffers` directly after the
first makes no driver call and leaves the state as the first left it: every slot has
`BlockNumber = -1`, is not current and not updated after the first call and after the second. -/
theorem C12_flush_idempotent (sd : SdCard D) (s : BlockState D) :
    (BLOCK_flushBuffers sd (BLOCK_flushBuffers sd s)).sdCalls = (BLOCK_flushBuffers sd s).sdCalls ∧
    BLOCK_flushBuffers sd (BLOCK_flushBuffers sd s) = BLOCK_flushBuffers sd s ∧
    (∀ i, ((BLOCK_flushBuffers sd s).BlockBuffers i).BlockNumber = -1 ∧
      ((BLOCK_flushBuffers sd s).BlockBuffers i).Current = false ∧
      ((BLOCK_flushBuffers sd s).BlockBuffers i).Updated = false) ∧
    (∀ i, ((BLOCK_flushBuffers sd (BLOCK_flushBuffers sd s)).BlockBuffers i).BlockNumber = -1 ∧
      ((BLOCK_flushBuffers sd (BLOCK_flushBuffers sd s)).BlockBuffers i).Current = false ∧
      ((BLOCK_flushBuffers sd (BLOCK_flushBuffers sd s)).BlockBuffers i).Updated = false) := by
  have key : BLOCK_flushBuffers sd (BLOCK_flushBuffers sd s) = BLOCK_flushBuffers sd s := by
    have hc := BLOCK_saveBuffers_clean sd (BLOCK_flushBuffers sd s)
      (BLOCK_flushBuffers_clean sd s)
    show BLOCK_emptyBuffers (BLOCK_saveBuffers sd (BLOCK_flushBuffers sd s)) = _
    rw [hc]
    exact BLOCK_emptyBuffers_idem _
  have meta1 : ∀ i, ((BLOCK_flushBuffers sd s).BlockBuffers i).BlockNumber = -1 ∧
      ((BLOCK_flushBuffers sd s).BlockBuffers i).Current = false ∧
      ((BLOCK_flushBuffers sd s).BlockBuffers i).Updated = false := by
    intro i
    unfold BLOCK_flushBuffers
    rw [BLOCK_emptyBuffers_slot]
    exact ⟨rfl, rfl, rfl⟩
  refine ⟨by rw [key], key, meta1, ?_⟩
  rw [key]; exact meta1

/-- C13 (`BLOCK_emptyBuffers` and `BLOCK_init` reset the pool without writing back). In every
state, updated slots included, after `BLOCK_emptyBuffers` and after `BLOCK_init` every slot has
`BlockNumber = -1`, `Current` and `Updated` clear and its bytes as before; no driver call is
made and the card is unchanged. -/
theorem C13_emptyBuffers (s : BlockState D) :
    (∀ i, (BLOCK_emptyBuffers s).BlockBuffers i =
      { Data := (s.BlockBuffers i).Data, BlockNumber := -1, Current := false,
        Updated := false }) ∧
    (BLOCK_emptyBuffers s).sdCalls = s.sdCalls ∧
    (BLOCK_emptyBuffers s).card = s.card ∧
    (∀ i, (BLOCK_init s).BlockBuffers i =
      { Data := (s.BlockBuffers i).Data, BlockNumber := -1, Current := false,
        Updated := false }) ∧
    (BLOCK_init s).sdCalls = s.sdCalls ∧
    (BLOCK_init s).card = s.card :=
  ⟨BLOCK_emptyBuffers_slot s, BLOCK_emptyBuffers_sdCalls s, BLOCK_emptyBuffers_card s,
    BLOCK_emptyBuffers_slot s, BLOCK_emptyBuffers_sdCalls s, BLOCK_emptyBuffers_card s⟩

/-! ## The null result and the two scenarios (C17 to C19) -/

/-- C17 (null on no candidate). In every state and for every block `b` such that no slot holds
`b`, no slot is unassigned (`BlockNumber < 0`) and every slot is current, `BLOCK_get(b)` and
`BLOCK_assign(b)` return `NULL` and leave the whole state, slots, card and driver calls, as it
was. -/
theorem C17_null_on_no_candidate (sd : SdCard D) (s : BlockState D) (b : Int)
    (hmiss : ∀ i, (s.BlockBuffers i).BlockNumber ≠ b)
    (hfull : ∀ i, 0 ≤ (s.BlockBuffers i).BlockNumber)
    (hcur : ∀ i, (s.BlockBuffers i).Current = true) :
    BLOCK_get sd s b = (s, none) ∧ BLOCK_assign sd s b = (s, none) :=
  ⟨BLOCK_get_null sd s b ((miss_iff s b).2 hmiss) ((full_iff s).2 hfull)
      ((novictim_iff s).2 hcur),
    BLOCK_assign_null sd s b ((miss_iff s b).2 hmiss) ((full_iff s).2 hfull)
      ((novictim_iff s).2 hcur)⟩

/-- C17 at a concrete input: in `fourBlocks` the blocks 10, 20, 30, 40 are held and every slot
is current; `BLOCK_get(50)` and `BLOCK_assign(50)` return `NULL` and change nothing. -/
theorem C17_null_on_no_candidate_witness :
    (∀ i, (fourBlocks.BlockBuffers i).BlockNumber ≠ 50) ∧
    (∀ i, 0 ≤ (fourBlocks.BlockBuffers i).BlockNumber) ∧
    (∀ i, (fourBlocks.BlockBuffers i).Current = true) ∧
    BLOCK_get sectorCard fourBlocks 50 = (fourBlocks, none) ∧
    BLOCK_assign sectorCard fourBlocks 50 = (fourBlocks, none) :=
  ⟨by decide, by decide, by decide,
    C17_null_on_no_candidate sectorCard fourBlocks 50 (by decide) (by decide) (by decide)⟩

/-- C18 (five-block scenario), evaluated on the code. From `BLOCK_init`, `BLOCK_get` of 10, 20,
30, 40 returns slots 0, 1, 2, 3; the fifth call `BLOCK_get(50)` returns `NULL`, makes no
driver call (there is no read at sector 100) and slot 0 still holds block 10. -/
theorem C18_fifth_get_returns_null (sd : SdCard D) (s : BlockState D) :
    (getMany sd (BLOCK_init s) [10, 20, 30, 40, 50]).2 =
      [some 0, some 1, some 2, some 3, none] ∧
    (getMany sd (BLOCK_init s) [10, 20, 30, 40, 50]).1.sdCalls =
      s.sdCalls ++ [SdCall.read 20 2, SdCall.read 40 2, SdCall.read 60 2, SdCall.read 80 2] ∧
    ((getMany sd (BLOCK_init s) [10, 20, 30, 40, 50]).1.BlockBuffers 0).BlockNumber = 10 ∧
    (∀ i, ((getMany sd (BLOCK_init s) [10, 20, 30, 40, 50]).1.BlockBuffers i).BlockNumber
      ≠ 50) := by
  simp [getMany, BLOCK_get, firstIndex_unfold, BLOCK_init, forall_slot, int32,
    BLOCK_emptyBuffers_slot, BLOCK_emptyBuffers_sdCalls, get_block, Function.update_apply]

/-- C19 (dirty-eviction scenario), evaluated on the code. From `BLOCK_init`, after
`BLOCK_get(5)`, `BLOCK_update` and `BLOCK_get` of 6, 7, 8, the call `BLOCK_get(9)` returns
`NULL`: the driver calls are the four reads only, no write at sector 10 and no read at sector 18
is made, and slot 0 still holds block 5 and is still updated. -/
theorem C19_dirty_slot_never_evicted (sd : SdCard D) (s : BlockState D) :
    (BLOCK_get sd (runOps sd (BLOCK_init s)
      [Op.get 5, Op.update, Op.get 6, Op.get 7, Op.get 8]) 9).2 = none ∧
    (runOps sd (BLOCK_init s)
      [Op.get 5, Op.update, Op.get 6, Op.get 7, Op.get 8, Op.get 9]).sdCalls =
      s.sdCalls ++ [SdCall.read 10 2, SdCall.read 12 2, SdCall.read 14 2, SdCall.read 16 2] ∧
    ((runOps sd (BLOCK_init s)
      [Op.get 5, Op.update, Op.get 6, Op.get 7, Op.get 8, Op.get 9]).BlockBuffers 0).BlockNumber
      = 5 ∧
    ((runOps sd (BLOCK_init s)
      [Op.get 5, Op.update, Op.get 6, Op.get 7, Op.get 8, Op.get 9]).BlockBuffers 0).Updated
      = true := by
  simp [runOps, Op.run, BLOCK_get, BLOCK_update, setUpdated, setSlot, firstIndex_unfold,
    BLOCK_init, BLOCK_emptyBuffers_slot, BLOCK_emptyBuffers_sdCalls, get_block, int32,
    Function.update_apply]

/-! ## What one call does to one slot, and the invariants of reachable states (C14, C15) -/

/-- One slot across `BLOCK_get(b)`: it is unchanged, or it held `b` and was made current, or
no slot held `b` and this slot is the returned one, now bound to `b`, current and clean. -/
theorem get_slot_cases (sd : SdCard D) (s : BlockState D) (b : Int)
    (j : Fin BLOCK_BUFFER_COUNT) :
    (BLOCK_get sd s b).1.BlockBuffers j = s.BlockBuffers j ∨
    ((s.BlockBuffers j).BlockNumber = b ∧
      (BLOCK_get sd s b).1.BlockBuffers j = { s.BlockBuffers j with Current := true }) ∨
    ((∀ i, (s.BlockBuffers i).BlockNumber ≠ b) ∧ (BLOCK_get sd s b).2 = some j ∧
      ((BLOCK_get sd s b).1.BlockBuffers j).BlockNumber = b ∧
      ((BLOCK_get sd s b).1.BlockBuffers j).Current = true ∧
      ((BLOCK_get sd s b).1.BlockBuffers j).Updated = false) := by
  cases h1 : firstIndex (fun i => decide ((s.BlockBuffers i).BlockNumber = b)) with
  | some i =>
    rw [BLOCK_get_hit sd s b h1]
    by_cases hj : j = i
    · subst hj
      exact Or.inr (Or.inl ⟨((hit_iff s b j).1 h1).1, by simp [setCurrent]⟩)
    · exact Or.inl (by simp [setCurrent, setSlot_other _ _ hj])
  | none =>
    have hm := (miss_iff s b).1 h1
    cases h2 : firstIndex (fun i => decide ((s.BlockBuffers i).BlockNumber < 0)) with
    | some i =>
      rw [BLOCK_get_free sd s b h1 h2]
      by_cases hj : j = i
      · subst hj
        exact Or.inr (Or.inr ⟨hm, rfl, by simp [get_block], by simp [get_block],
          by simp [get_block]⟩)
      · exact Or.inl (by simp [get_block, Function.update_noteq hj])
    | none =>
      cases h3 : firstIndex (fun i => !(s.BlockBuffers i).Current) with
      | some i =>
        rw [BLOCK_get_evict sd s b h1 h2 h3]
        by_cases hj : j = i
        · subst hj
          exact Or.inr (Or.inr ⟨hm, rfl, by simp [get_block], by simp [get_block],
            by simp [get_block]⟩)
        · refine Or.inl ?_
          by_cases hu : (s.BlockBuffers i).Updated = true
          · simp [hu, get_block, save_buffer, Function.update_noteq hj]
          · simp [hu, get_block, Function.update_noteq hj]
      | none =>
        rw [BLOCK_get_null sd s b h1 h2 h3]
        exact Or.inl rfl

/-- One slot across `BLOCK_assign(b)`: it is unchanged, or it held `b` and was made current, or
no slot held `b` and this slot is the returned one, now bound to `b`, current and clean. -/
theorem assign_slot_cases (sd : SdCard D) (s : BlockState D) (b : Int)
    (j : Fin BLOCK_BUFFER_COUNT) :
    (BLOCK_assign sd s b).1.BlockBuffers j = s.BlockBuffers j ∨
    ((s.BlockBuffers j).BlockNumber = b ∧
      (BLOCK_assign sd s b).1.BlockBuffers j = { s.BlockBuffers j with Current := true }) ∨
    ((∀ i, (s.BlockBuffers i).BlockNumber ≠ b) ∧ (BLOCK_assign sd s b).2 = some j ∧
      ((BLOCK_assign sd s b).1.BlockBuffers j).BlockNumber = b ∧
      ((BLOCK_assign sd s b).1.BlockBuffers j).Current = true ∧
      ((BLOCK_assign sd s b).1.BlockBuffers j).Updated = false) := by
  cases h1 : firstIndex (fun i => decide ((s.BlockBuffers i).BlockNumber = b)) with
  | some i =>
    rw [BLOCK_assign_hit sd s b h1]
    by_cases hj : j = i
    · subst hj
      exact Or.inr (Or.inl ⟨((hit_iff s b j).1 h1).1, by simp [setCurrent]⟩)
    · exact Or.inl (by simp [setCurrent, setSlot_other _ _ hj])
  | none =>
    have hm := (miss_iff s b).1 h1
    cases h2 : firstIndex (fun i => decide ((s.BlockBuffers i).BlockNumber < 0)) with
    | some i =>
      rw [BLOCK_assign_free sd s b h1 h2]
      by_cases hj : j = i
      · subst hj
        exact Or.inr (Or.inr ⟨hm, rfl, by simp [init_block], by simp [init_block],
          by simp [init_block]⟩)
      · exact Or.inl (by simp [init_block, setSlot_other _ _ hj])
    | none =>
      cases h3 : firstIndex (fun i => !(s.BlockBuffers i).Current) with
      | some i =>
        rw [BLOCK_assign_evict sd s b h1 h2 h3]
        by_cases hj : j = i
        · subst hj
          exact Or.inr (Or.inr ⟨hm, rfl, by simp [init_block], by simp [init_block],
            by simp [init_block]⟩)
        · refine Or.inl ?_
          by_cases hu : (s.BlockBuffers i).Updated = true
          · simp [hu, init_block, save_buffer, setSlot_other _ _ hj,
              Function.update_noteq hj]
          · simp [hu, init_block, setSlot_other _ _ hj]
      | none =>
        rw [BLOCK_assign_null sd s b h1 h2 h3]
        exact Or.inl rfl

/-- One slot across `BLOCK_update`: it is unchanged, or it was current and is now updated. -/
theorem update_slot_cases (s : BlockState D) (j : Fin BLOCK_BUFFER_COUNT) :
    (BLOCK_update s).BlockBuffers j = s.BlockBuffers j ∨
    ((s.BlockBuffers j).Current = true ∧
      (BLOCK_update s).BlockBuffers j = { s.BlockBuffers j with Updated := true }) := by
  unfold BLOCK_update
  cases h : firstIndex (fun i => (s.BlockBuffers i).Current) with
  | some i =>
    by_cases hj : j = i
    · subst hj
      exact Or.inr ⟨(firstIndex_eq_some.1 h).1, by simp [setUpdated]⟩
    · exact Or.inl (by simp [setUpdated, setSlot_other _ _ hj])
  | none => exact Or.inl rfl

/-- A property that every call keeps holds after every sequence of calls. -/
theorem runOps_induct (sd : SdCard D) (P : BlockState D → Prop) (ok : Op → Prop)
    (hstep : ∀ s o, ok o → P s → P (Op.run sd s o)) :
    ∀ (ops : List Op) (s : BlockState D), (∀ o ∈ ops, ok o) → P s → P (runOps sd s ops) := by
  intro ops
  induction ops with
  | nil => intro s _ h; exact h
  | cons o rest ih =>
    intro s hok h
    have h1 : P (Op.run sd s o) := hstep s o (hok o (List.mem_cons_self _ _)) h
    exact ih (Op.run sd s o) (fun o2 ho2 => hok o2 (List.mem_cons_of_mem _ ho2)) h1

/-- The block number of one slot across `BLOCK_get`: kept, or set to `b` in the returned slot
on a miss. -/
theorem get_blockNumber_cases (sd : SdCard D) (s : BlockState D) (b : Int)
    (j : Fin BLOCK_BUFFER_COUNT) :
    ((BLOCK_get sd s b).1.BlockBuffers j).BlockNumber = (s.BlockBuffers j).BlockNumber ∨
    ((∀ i, (s.BlockBuffers i).BlockNumber ≠ b) ∧ (BLOCK_get sd s b).2 = some j ∧
      ((BLOCK_get sd s b).1.BlockBuffers j).BlockNumber = b) := by
  rcases get_slot_cases sd s b j with h | ⟨_, h⟩ | ⟨hm, hr, hb, _⟩
  · exact Or.inl (by rw [h])
  · exact Or.inl (by rw [h])
  · exact Or.inr ⟨hm, hr, hb⟩

theorem assign_blockNumber_cases (sd : SdCard D) (s : BlockState D) (b : Int)
    (j : Fin BLOCK_BUFFER_COUNT) :
    ((BLOCK_assign sd s b).1.BlockBuffers j).BlockNumber = (s.BlockBuffers j).BlockNumber ∨
    ((∀ i, (s.BlockBuffers i).BlockNumber ≠ b) ∧ (BLOCK_assign sd s b).2 = some j ∧
      ((BLOCK_assign sd s b).1.BlockBuffers j).BlockNumber = b) := by
  rcases assign_slot_cases sd s b j with h | ⟨_, h⟩ | ⟨hm, hr, hb, _⟩
  · exact Or.inl (by rw [h])
  · exact Or.inl (by rw [h])
  · exact Or.inr ⟨hm, hr, hb⟩

/-- A call that keeps or rebinds block numbers as `BLOCK_get` and `BLOCK_assign` do keeps
`NoDuplicate`. -/
theorem NoDuplicate_of_cases {s t : BlockState D} {b : Int} {r : Option (Fin BLOCK_BUFFER_COUNT)}
    (h : NoDuplicate s)
    (hc : ∀ j, (t.BlockBuffers j).BlockNumber = (s.BlockBuffers j).BlockNumber ∨
      ((∀ i, (s.BlockBuffers i).BlockNumber ≠ b) ∧ r = some j ∧
        (t.BlockBuffers j).BlockNumber = b)) :
    NoDuplicate t := by
  intro i j hij hpos
  rcases hc i with hi | ⟨hmi, hri, hbi⟩ <;> rcases hc j with hj | ⟨hmj, hrj, hbj⟩
  · rw [hi, hj] at hij; rw [hi] at hpos; exact h i j hij hpos
  · rw [hi, hbj] at hij; exact absurd hij (hmj i)
  · rw [hbi, hj] at hij; exact absurd hij.symm (hmi j)
  · rw [hri] at hrj; exact Option.some.inj hrj

theorem NoDuplicate_step (sd : SdCard D) (s : BlockState D) (o : Op) (h : NoDuplicate s) :
    NoDuplicate (Op.run sd s o) := by
  cases o with
  | emptyBuffers =>
    intro i j _ hpos
    simp [Op.run, BLOCK_emptyBuffers_slot] at hpos
  | update =>
    intro i j hij hpos
    have e : ∀ k, ((BLOCK_update s).BlockBuffers k).BlockNumber =
        (s.BlockBuffers k).BlockNumber := by
      intro k
      rcases update_slot_cases s k with hk | ⟨_, hk⟩ <;> rw [hk]
    simp only [Op.run, e] at hij hpos
    exact h i j hij hpos
  | get b => exact NoDuplicate_of_cases h (get_blockNumber_cases sd s b)
  | assign b => exact NoDuplicate_of_cases h (assign_blockNumber_cases sd s b)
  | saveBuffers =>
    intro i j hij hpos
    simp only [Op.run, (BLOCK_saveBuffers_fields sd s _).2.1] at hij hpos
    exact h i j hij hpos
  | flushBuffers =>
    intro i j _ hpos
    simp [Op.run, BLOCK_flushBuffers, BLOCK_emptyBuffers_slot] at hpos

/-- C14 (no duplicate residency). In every state reachable from `BLOCK_init` through the public
operations, with any block numbers, two distinct slots never hold the same non-negative block
number. -/
theorem C14_no_duplicate_residency (sd : SdCard D) (s : BlockState D)
    (hr : ReachableAny sd s) (i j : Fin BLOCK_BUFFER_COUNT) (hij : i ≠ j)
    (hpos : 0 ≤ (s.BlockBuffers i).BlockNumber) :
    (s.BlockBuffers i).BlockNumber ≠ (s.BlockBuffers j).BlockNumber := by
  obtain ⟨card, ops, rfl⟩ := hr
  have h0 : NoDuplicate (BLOCK_init (boot card)) := by
    intro i j _ hpos
    simp [BLOCK_init, BLOCK_emptyBuffers_slot] at hpos
  have h := runOps_induct sd NoDuplicate (fun _ => True)
    (fun s o _ hs => NoDuplicate_step sd s o hs) ops _ (fun _ _ => trivial) h0
  exact fun e => hij (h i j e hpos)

/-- C14 at a concrete input: `twoBlocks` is reachable, slot 0 holds block 10, and slot 1 holds
a different block. -/
theorem C14_no_duplicate_residency_witness :
    ReachableAny sectorCard twoBlocks ∧ (0 : Fin BLOCK_BUFFER_COUNT) ≠ 1 ∧
    0 ≤ (twoBlocks.BlockBuffers 0).BlockNumber ∧
    (twoBlocks.BlockBuffers 0).BlockNumber ≠ (twoBlocks.BlockBuffers 1).BlockNumber :=
  ⟨⟨blankCard, [Op.get 10, Op.get 20], rfl⟩, by decide, by decide,
    C14_no_duplicate_residency sectorCard twoBlocks
      ⟨blankCard, [Op.get 10, Op.get 20], rfl⟩ 0 1 (by decide) (by decide)⟩

theorem UnassignedClean_step (sd : SdCard D) (s : BlockState D) (o : Op)
    (hok : o.nonneg = true) (h : UnassignedClean s) : UnassignedClean (Op.run sd s o) := by
  cases o with
  | emptyBuffers =>
    intro i _
    simp [Op.run, BLOCK_emptyBuffers_slot]
  | update =>
    intro i hi
    rcases update_slot_cases s i with hk | ⟨hc, hk⟩
    · simp only [Op.run, hk] at hi ⊢; exact h i hi
    · simp only [Op.run, hk] at hi ⊢
      have := (h i hi).1
      rw [hc] at this; exact absurd this (by decide)
  | get b =>
    have hb : 0 ≤ b := by simpa [Op.nonneg] using hok
    intro i hi
    rcases get_slot_cases sd s b i with hk | ⟨he, hk⟩ | ⟨_, _, hbn, _, _⟩
    · simp only [Op.run, hk] at hi ⊢; exact h i hi
    · simp only [Op.run, hk] at hi ⊢; omega
    · simp only [Op.run, hbn] at hi; omega
  | assign b =>
    have hb : 0 ≤ b := by simpa [Op.nonneg] using hok
    intro i hi
    rcases assign_slot_cases sd s b i with hk | ⟨he, hk⟩ | ⟨_, _, hbn, _, _⟩
    · simp only [Op.run, hk] at hi ⊢; exact h i hi
    · simp only [Op.run, hk] at hi ⊢; omega
    · simp only [Op.run, hbn] at hi; omega
  | saveBuffers =>
    intro i hi
    have f := BLOCK_saveBuffers_fields sd s i
    simp only [Op.run, f.2.1] at hi
    show ((BLOCK_saveBuffers sd s).BlockBuffers i).Current = false ∧
      ((BLOCK_saveBuffers sd s).BlockBuffers i).Updated = false
    rw [f.1, f.2.2.1]
    exact ⟨(h i hi).1, rfl⟩
  | flushBuffers =>
    intro i _
    simp [Op.run, BLOCK_flushBuffers, BLOCK_emptyBuffers_slot]

/-- C15 (empty slots are clean). In every state reachable from `BLOCK_init` through the public
operations called with non-negative block numbers, a slot with `BlockNumber = -1` (more
generally with a negative block number) has `Updated` clear. -/
theorem C15_empty_slots_clean (sd : SdCard D) (s : BlockState D) (hr : Reachable sd s)
    (i : Fin BLOCK_BUFFER_COUNT) :
    ((s.BlockBuffers i).BlockNumber = -1 → (s.BlockBuffers i).Updated = false) ∧
    ((s.BlockBuffers i).BlockNumber < 0 → (s.BlockBuffers i).Updated = false) := by
  obtain ⟨card, ops, hok, rfl⟩ := hr
  have h0 : UnassignedClean (BLOCK_init (boot card)) := by
    intro i _
    simp [BLOCK_init, BLOCK_emptyBuffers_slot]
  have h := runOps_induct sd UnassignedClean (fun o => o.nonneg = true)
    (fun s o ho hs => UnassignedClean_step sd s o ho hs) ops _ hok h0
  exact ⟨fun e => (h i (by omega)).2, fun e => (h i e).2⟩

/-- C15 at a concrete input: `twoBlocks` is reachable, its slot 2 has `BlockNumber = -1` and is
not updated. -/
theorem C15_empty_slots_clean_witness :
    Reachable sectorCard twoBlocks ∧ (twoBlocks.BlockBuffers 2).BlockNumber = -1 ∧
    (twoBlocks.BlockBuffers 2).Updated = false :=
  ⟨⟨blankCard, [Op.get 10, Op.get 20], by decide, rfl⟩, by decide,
    (C15_empty_slots_clean sectorCard twoBlocks
      ⟨blankCard, [Op.get 10, Op.get 20], by decide, rfl⟩ 2).1 (by decide)⟩

/-! ## The status of the driver calls (C16) -/

/-- C16, the statement as given fails on the code. With a driver all of whose calls report
failure: `BLOCK_saveBuffers` on `dirtyVictim` (slot 0 updated, block 1) clears `Updated` of
slot 0; `BLOCK_get(9)` on `dirtyVictim` evicts slot 0, which is then clean and bound to block
9; `BLOCK_get(7)` on `initState` binds slot 0 to block 7 although the read failed. -/
theorem C16_failure_not_recorded :
    (failingDriver.SD_WriteBlocks dirtyVictim.card (dirtyVictim.BlockBuffers 0).Data 2 2).2
      = false ∧
    (dirtyVictim.BlockBuffers 0).Updated = true ∧
    (dirtyVictim.BlockBuffers 0).BlockNumber = 1 ∧
    ((BLOCK_saveBuffers failingDriver.ignoreStatus dirtyVictim).BlockBuffers 0).Updated
      = false ∧
    (BLOCK_get failingDriver.ignoreStatus dirtyVictim 9).2 = some 0 ∧
    ((BLOCK_get failingDriver.ignoreStatus dirtyVictim 9).1.BlockBuffers 0).Updated = false ∧
    ((BLOCK_get failingDriver.ignoreStatus dirtyVictim 9).1.BlockBuffers 0).BlockNumber = 9 ∧
    (failingDriver.SD_ReadBlocks initState.card 14 2).2 = false ∧
    (BLOCK_get failingDriver.ignoreStatus initState 7).2 = some 0 ∧
    ((BLOCK_get failingDriver.ignoreStatus initState 7).1.BlockBuffers 0).BlockNumber = 7 :=
  ⟨rfl, by decide, by decide, by decide, by decide, by decide, by decide, rfl, by decide,
    by decide⟩

/-- When the loop of `BLOCK_saveBuffers` reaches the index `i`, slot `i` is as it was before
the call, and the call is the rest of the loop from there. -/
theorem saveBuffersUpTo_spec (sd : SdCard D) (s : BlockState D) (i : Fin BLOCK_BUFFER_COUNT) :
    (saveBuffersUpTo sd s i).BlockBuffers i = s.BlockBuffers i ∧
    BLOCK_saveBuffers sd s =
      ((List.finRange BLOCK_BUFFER_COUNT).drop i.val).foldl
        (fun t j =>
          if (t.BlockBuffers j).Updated then setUpdated (save_buffer sd t j) j false else t)
        (saveBuffersUpTo sd s i) := by
  constructor
  · revert i
    have e0 : ((0 : Fin BLOCK_BUFFER_COUNT) : Nat) = 0 := rfl
    have e1 : ((1 : Fin BLOCK_BUFFER_COUNT) : Nat) = 1 := rfl
    have e2 : ((2 : Fin BLOCK_BUFFER_COUNT) : Nat) = 2 := rfl
    have e3 : ((3 : Fin BLOCK_BUFFER_COUNT) : Nat) = 3 := rfl
    simp only [forall_slot, saveBuffersUpTo, finRange_count, e0, e1, e2, e3, List.take_zero,
      List.take_succ_cons, List.foldl_cons, List.foldl_nil]
    by_cases h0 : (s.BlockBuffers 0).Updated = true <;>
    by_cases h1 : (s.BlockBuffers 1).Updated = true <;>
    by_cases h2 : (s.BlockBuffers 2).Updated = true <;>
    simp [h0, h1, h2, save_buffer, setUpdated, setSlot, Function.update_apply]
  · unfold saveBuffersUpTo BLOCK_saveBuffers
    rw [← List.foldl_append, List.take_append_drop]

/-- C16 as the code behaves: the status of the driver calls is ignored. For every driver, whatever
status its other calls report, and every state: `save_buffer` after a write that reports failure
leaves the slot clean with its block number; `get_block` after a read that reports failure binds
the slot to the requested block, current and clean, with the bytes the read delivered;
`BLOCK_saveBuffers` makes the write of every updated slot `i`, on the card the earlier
iterations of its loop have left, and when that write reports failure the slot is clean
afterwards all the same, with its block number; an eviction by `BLOCK_get(b)` or
`BLOCK_assign(b)` of an updated slot `k` whose write reports failure returns slot `k` bound to
`b`, current and clean; a `BLOCK_get(b)` whose read into an unassigned slot, or into an
evicted slot (after the write-back, if there was one), reports failure returns that slot bound
to `b`, current and clean. -/
theorem C16_status_ignored (drv : SdDriver D) (s : BlockState D) :
    (∀ i,
      (drv.SD_WriteBlocks s.card (s.BlockBuffers i).Data
        (int32 ((s.BlockBuffers i).BlockNumber * 2)) 2).2 = false →
      ((save_buffer drv.ignoreStatus s i).BlockBuffers i).Updated = false ∧
      ((save_buffer drv.ignoreStatus s i).BlockBuffers i).BlockNumber =
        (s.BlockBuffers i).BlockNumber) ∧
    (∀ i b,
      (drv.SD_ReadBlocks s.card (int32 (b * 2)) 2).2 = false →
      (get_block drv.ignoreStatus s b i).BlockBuffers i =
        { Data := (drv.SD_ReadBlocks s.card (int32 (b * 2)) 2).1, BlockNumber := b,
          Current := true, Updated := false }) ∧
    (∀ i, (s.BlockBuffers i).Updated = true →
      (drv.SD_WriteBlocks (saveBuffersUpTo drv.ignoreStatus s i).card (s.BlockBuffers i).Data
        (int32 ((s.BlockBuffers i).BlockNumber * 2)) 2).2 = false →
      (saveBuffersUpTo drv.ignoreStatus s i).BlockBuffers i = s.BlockBuffers i ∧
      BLOCK_saveBuffers drv.ignoreStatus s =
        ((List.finRange BLOCK_BUFFER_COUNT).drop i.val).foldl
          (fun t j =>
            if (t.BlockBuffers j).Updated then
              setUpdated (save_buffer drv.ignoreStatus t j) j false
            else t)
          (saveBuffersUpTo drv.ignoreStatus s i) ∧
      SdCall.write (s.BlockBuffers i).Data (int32 ((s.BlockBuffers i).BlockNumber * 2)) 2 ∈
        (BLOCK_saveBuffers drv.ignoreStatus s).sdCalls ∧
      ((BLOCK_saveBuffers drv.ignoreStatus s).BlockBuffers i).Updated = false ∧
      ((BLOCK_saveBuffers drv.ignoreStatus s).BlockBuffers i).BlockNumber =
        (s.BlockBuffers i).BlockNumber) ∧
    (∀ (b : Int) (k : Fin BLOCK_BUFFER_COUNT),
      (∀ i, (s.BlockBuffers i).BlockNumber ≠ b) →
      (∀ i, 0 ≤ (s.BlockBuffers i).BlockNumber) →
      (s.BlockBuffers k).Current = false →
      (∀ j, j < k → (s.BlockBuffers j).Current = true) →
      (s.BlockBuffers k).Updated = true →
      (drv.SD_WriteBlocks s.card (s.BlockBuffers k).Data
        (int32 ((s.BlockBuffers k).BlockNumber * 2)) 2).2 = false →
      (BLOCK_get drv.ignoreStatus s b).2 = some k ∧
      ((BLOCK_get drv.ignoreStatus s b).1.BlockBuffers k).BlockNumber = b ∧
      ((BLOCK_get drv.ignoreStatus s b).1.BlockBuffers k).Current = true ∧
      ((BLOCK_get drv.ignoreStatus s b).1.BlockBuffers k).Updated = false ∧
      (BLOCK_assign drv.ignoreStatus s b).2 = some k ∧
      ((BLOCK_assign drv.ignoreStatus s b).1.BlockBuffers k).BlockNumber = b ∧
      ((BLOCK_assign drv.ignoreStatus s b).1.BlockBuffers k).Current = true ∧
      ((BLOCK_assign drv.ignoreStatus s b).1.BlockBuffers k).Updated = false) ∧
    (∀ (b : Int) (k : Fin BLOCK_BUFFER_COUNT),
      (∀ i, (s.BlockBuffers i).BlockNumber ≠ b) →
      (s.BlockBuffers k).BlockNumber < 0 →
      (∀ j, j < k → 0 ≤ (s.BlockBuffers j).BlockNumber) →
      (drv.SD_ReadBlocks s.card (int32 (b * 2)) 2).2 = false →
      (BLOCK_get drv.ignoreStatus s b).2 = some k ∧
      (BLOCK_get drv.ignoreStatus s b).1.BlockBuffers k =
        { Data := (drv.SD_ReadBlocks s.card (int32 (b * 2)) 2).1, BlockNumber := b,
          Current := true, Updated := false }) ∧
    (∀ (b : Int) (k : Fin BLOCK_BUFFER_COUNT),
      (∀ i, (s.BlockBuffers i).BlockNumber ≠ b) →
      (∀ i, 0 ≤ (s.BlockBuffers i).BlockNumber) →
      (s.BlockBuffers k).Current = false →
      (∀ j, j < k → (s.BlockBuffers j).Current = true) →
      (drv.SD_ReadBlocks
        (if (s.BlockBuffers k).Updated then save_buffer drv.ignoreStatus s k else s).card
        (int32 (b * 2)) 2).2 = false →
      (BLOCK_get drv.ignoreStatus s b).2 = some k ∧
      (BLOCK_get drv.ignoreStatus s b).1.BlockBuffers k =
        { Data := (drv.SD_ReadBlocks
            (if (s.BlockBuffers k).Updated then save_buffer drv.ignoreStatus s k else s).card
            (int32 (b * 2)) 2).1,
          BlockNumber := b, Current := true, Updated := false }) := by
  refine ⟨fun i _ => ⟨?_, ?_⟩, fun i b _ => ?_,
    fun i hu _ => ⟨(saveBuffersUpTo_spec _ s i).1, (saveBuffersUpTo_spec _ s i).2, ?_, ?_, ?_⟩,
    ?_, ?_, ?_⟩
  · simp [save_buffer]
  · simp [save_buffer]
  · simp [get_block, SdDriver.ignoreStatus]
  · rw [BLOCK_saveBuffers_sdCalls]
    refine List.mem_append_right _ (List.mem_map.2 ⟨i, ?_, rfl⟩)
    exact List.mem_filter.2 ⟨List.mem_finRange i, by simpa using hu⟩
  · exact (BLOCK_saveBuffers_fields _ s i).1
  · exact (BLOCK_saveBuffers_fields _ s i).2.1
  · intro b k hmiss hfull hk hlow _ _
    have h1 := (miss_iff s b).2 hmiss
    have h2 := (full_iff s).2 hfull
    have h3 := (victim_iff s k).2 ⟨hk, hlow⟩
    rw [BLOCK_get_evict _ s b h1 h2 h3, BLOCK_assign_evict _ s b h1 h2 h3]
    exact ⟨rfl, by simp [get_block], by simp [get_block], by simp [get_block], rfl,
      by simp [init_block], by simp [init_block], by simp [init_block]⟩
  · intro b k hmiss hk hlow _
    rw [BLOCK_get_free _ s b ((miss_iff s b).2 hmiss) ((free_iff s k).2 ⟨hk, hlow⟩)]
    exact ⟨rfl, by simp [get_block, SdDriver.ignoreStatus]⟩
  · intro b k hmiss hfull hk hlow _
    have h1 := (miss_iff s b).2 hmiss
    have h2 := (full_iff s).2 hfull
    have h3 := (victim_iff s k).2 ⟨hk, hlow⟩
    rw [BLOCK_get_evict _ s b h1 h2 h3]
    exact ⟨rfl, by simp [get_block, SdDriver.ignoreStatus]⟩

/-- C16 as the code behaves, at a concrete input: the driver `badSectorDriver`, of which only the
write at sector 2 reports failure, and the state `dirtyVictim`, whose slot 0 is updated and
holds block 1. `BLOCK_saveBuffers` makes that write and leaves slot 0 clean with block 1, and
`BLOCK_get(9)` evicts slot 0 and returns it bound to block 9, current and clean. -/
theorem C16_status_ignored_witness :
    (dirtyVictim.BlockBuffers 0).Updated = true ∧
    int32 ((dirtyVictim.BlockBuffers 0).BlockNumber * 2) = 2 ∧
    (badSectorDriver.SD_WriteBlocks
      (saveBuffersUpTo badSectorDriver.ignoreStatus dirtyVictim 0).card
      (dirtyVictim.BlockBuffers 0).Data
      (int32 ((dirtyVictim.BlockBuffers 0).BlockNumber * 2)) 2).2 = false ∧
    (badSectorDriver.SD_ReadBlocks dirtyVictim.card 18 2).2 = true ∧
    (SdCall.write (dirtyVictim.BlockBuffers 0).Data
        (int32 ((dirtyVictim.BlockBuffers 0).BlockNumber * 2)) 2 ∈
        (BLOCK_saveBuffers badSectorDriver.ignoreStatus dirtyVictim).sdCalls ∧
      ((BLOCK_saveBuffers badSectorDriver.ignoreStatus dirtyVictim).BlockBuffers 0).Updated
        = false ∧
      ((BLOCK_saveBuffers badSectorDriver.ignoreStatus dirtyVictim).BlockBuffers 0).BlockNumber =
        (dirtyVictim.BlockBuffers 0).BlockNumber) ∧
    (BLOCK_get badSectorDriver.ignoreStatus dirtyVictim 9).2 = some 0 ∧
    ((BLOCK_get badSectorDriver.ignoreStatus dirtyVictim 9).1.BlockBuffers 0).BlockNumber = 9 ∧
    ((BLOCK_get badSectorDriver.ignoreStatus dirtyVictim 9).1.BlockBuffers 0).Current = true ∧
    ((BLOCK_get badSectorDriver.ignoreStatus dirtyVictim 9).1.BlockBuffers 0).Updated = false :=
  ⟨by decide, by decide, rfl, rfl,
    ((C16_status_ignored badSectorDriver dirtyVictim).2.2.1 0 (by decide) rfl).2.2,
    ((C16_status_ignored badSectorDriver dirtyVictim).2.2.2.1 9 0 (by decide) (by decide)
      (by decide) (by decide) (by decide) rfl).1,
    ((C16_status_ignored badSectorDriver dirtyVictim).2.2.2.1 9 0 (by decide) (by decide)
      (by decide) (by decide) (by decide) rfl).2.1,
    ((C16_status_ignored badSectorDriver dirtyVictim).2.2.2.1 9 0 (by decide) (by decide)
      (by decide) (by decide) (by decide) rfl).2.2.1,
    ((C16_status_ignored badSectorDriver dirtyVictim).2.2.2.1 9 0 (by decide) (by decide)
      (by decide) (by decide) (by decide) rfl).2.2.2.1⟩

/-! ## The mutex (C20) -/

/-! ### The statements between the mutex calls: their state and their events -/

theorem Accesses.refl (m : Monitor D) : Accesses m m [] := by
  simp [Accesses]

theorem Accesses.trans {m t u : Monitor D} {x y : List LockEvent}
    (h1 : Accesses m t x) (h2 : Accesses t u y) : Accesses m u (x ++ y) := by
  obtain ⟨a1, a2, a3, a4⟩ := h1
  obtain ⟨b1, b2, b3, b4⟩ := h2
  refine ⟨by rw [b1, a1, List.append_assoc], ?_, ?_, ?_⟩
  · intro e he
    rcases List.mem_append.1 he with h | h
    · exact a2 e h
    · exact b2 e h
  · rw [b3, a3, List.filterMap_append, List.append_assoc]
  · intro i hi
    by_cases c : t.state.BlockBuffers i = m.state.BlockBuffers i
    · exact List.mem_append_right _ (b4 i (fun h => hi (h.trans c)))
    · exact List.mem_append_left _ (a4 i c)

/-- A slot that `setSlot s i b` has changed is the slot `i`. -/
theorem setSlot_changed (s : BlockState D) (i j : Fin BLOCK_BUFFER_COUNT) (b : block_buffer_t)
    (h : (setSlot s i b).BlockBuffers j ≠ s.BlockBuffers j) : j = i := by
  by_contra c
  exact h (setSlot_other s b c)

theorem readSlot_state (m : Monitor D) (i : Fin BLOCK_BUFFER_COUNT) :
    (readSlot m i).state = m.state := rfl

theorem readSlot_accesses (m : Monitor D) (i : Fin BLOCK_BUFFER_COUNT) :
    Accesses m (readSlot m i) [LockEvent.slotRead i] := by
  simp [Accesses, readSlot, LockEvent.isAccess, LockEvent.call]

theorem writeSlot_state (m : Monitor D) (i : Fin BLOCK_BUFFER_COUNT) (b : block_buffer_t) :
    (writeSlot m i b).state = setSlot m.state i b := rfl

theorem writeSlot_accesses (m : Monitor D) (i : Fin BLOCK_BUFFER_COUNT) (b : block_buffer_t) :
    Accesses m (writeSlot m i b) [LockEvent.slotWrite i] := by
  refine ⟨rfl, by simp [LockEvent.isAccess], by simp [writeSlot, setSlot, LockEvent.call], ?_⟩
  intro j hj
  rw [setSlot_changed m.state i j b hj]
  exact List.mem_singleton_self _

/-- The state of `get_block`, statement by statement, is the state of `get_block`. -/
theorem get_block_events_state (sd : SdCard D) (m : Monitor D) (b : Int)
    (i : Fin BLOCK_BUFFER_COUNT) :
    (get_block_events sd m b i).state = get_block sd m.state b i := by
  simp [get_block_events, get_block, writeSlot, setSlot]

theorem get_block_events_accesses (sd : SdCard D) (m : Monitor D) (b : Int)
    (i : Fin BLOCK_BUFFER_COUNT) :
    ∃ body, body ≠ [] ∧ Accesses m (get_block_events sd m b i) body := by
  refine ⟨[LockEvent.driver (SdCall.read (int32 (b * 2)) 2), LockEvent.slotWrite i,
    LockEvent.slotWrite i, LockEvent.slotWrite i, LockEvent.slotWrite i], by simp, ?_⟩
  refine ⟨by simp [get_block_events, writeSlot], by simp [LockEvent.isAccess],
    by simp [get_block_events, writeSlot, setSlot, LockEvent.call], ?_⟩
  intro j hj
  have hji : j = i := by
    by_contra c
    exact hj (by simp [get_block_events, writeSlot, setSlot, Function.update_noteq c])
  simp [hji]

/-- The state of `init_block`, statement by statement, is the state of `init_block`. -/
theorem init_block_events_state (m : Monitor D) (b : Int) (i : Fin BLOCK_BUFFER_COUNT) :
    (init_block_events m b i).state = init_block m.state b i := by
  simp only [init_block_events, init_block, writeSlot, setSlot, Function.update_idem,
    Function.update_same]

theorem init_block_events_accesses (m : Monitor D) (b : Int) (i : Fin BLOCK_BUFFER_COUNT) :
    ∃ body, body ≠ [] ∧ Accesses m (init_block_events m b i) body := by
  refine ⟨[LockEvent.slotWrite i, LockEvent.slotWrite i, LockEvent.slotWrite i,
    LockEvent.slotWrite i], by simp, ?_⟩
  refine ⟨by simp [init_block_events, writeSlot], by simp [LockEvent.isAccess],
    by simp [init_block_events, writeSlot, setSlot, LockEvent.call], ?_⟩
  intro j hj
  have hji : j = i := by
    by_contra c
    exact hj (by simp [init_block_events, writeSlot, setSlot, Function.update_noteq c])
  simp [hji]

/-- The state of `save_buffer`, statement by statement, is the state of `save_buffer`. -/
theorem save_buffer_events_state (sd : SdCard D) (m : Monitor D) (i : Fin BLOCK_BUFFER_COUNT) :
    (save_buffer_events sd m i).state = save_buffer sd m.state i := by
  simp [save_buffer_events, save_buffer, writeSlot, setSlot, readSlot]

theorem save_buffer_events_accesses (sd : SdCard D) (m : Monitor D)
    (i : Fin BLOCK_BUFFER_COUNT) :
    ∃ body, body ≠ [] ∧ Accesses m (save_buffer_events sd m i) body := by
  refine ⟨[LockEvent.slotRead i,
    LockEvent.driver (SdCall.write (m.state.BlockBuffers i).Data
      (int32 ((m.state.BlockBuffers i).BlockNumber * 2)) 2),
    LockEvent.slotWrite i], by simp, ?_⟩
  refine ⟨by simp [save_buffer_events, writeSlot, readSlot], by simp [LockEvent.isAccess],
    by simp [save_buffer_events, writeSlot, setSlot, readSlot, LockEvent.call], ?_⟩
  intro j hj
  have hji : j = i := by
    by_contra c
    exact hj (by simp [save_buffer_events, writeSlot, setSlot, readSlot,
      Function.update_noteq c])
  simp [hji]

theorem foldl_state {α : Type} (f : Monitor D → α → Monitor D)
    (g : BlockState D → α → BlockState D) (hf : ∀ t a, (f t a).state = g t.state a)
    (l : List α) (m : Monitor D) : (l.foldl f m).state = l.foldl g m.state := by
  induction l generalizing m with
  | nil => rfl
  | cons a l ih => simp only [List.foldl_cons]; rw [ih, hf]

theorem foldl_accesses {α : Type} (f : Monitor D → α → Monitor D)
    (hf : ∀ t a, ∃ body, body ≠ [] ∧ Accesses t (f t a) body) (l : List α) (m : Monitor D) :
    ∃ body, (l ≠ [] → body ≠ []) ∧ Accesses m (l.foldl f m) body := by
  induction l generalizing m with
  | nil => exact ⟨[], fun h => absurd rfl h, Accesses.refl m⟩
  | cons a l ih =>
    obtain ⟨x, hx, h1⟩ := hf m a
    obtain ⟨y, _, h2⟩ := ih (f m a)
    exact ⟨x ++ y, fun _ => by simp [hx], h1.trans h2⟩

/-- The state of the loop of `BLOCK_update`, statement by statement. -/
theorem updateLoop_state (l : List (Fin BLOCK_BUFFER_COUNT)) (m : Monitor D) :
    (updateLoop m l).state =
      match l.find? (fun i => (m.state.BlockBuffers i).Current) with
      | some i => setUpdated m.state i true
      | none => m.state := by
  induction l generalizing m with
  | nil => rfl
  | cons i rest ih =>
    by_cases h : (m.state.BlockBuffers i).Current = true
    · simp [updateLoop, readSlot, writeSlot, setUpdated, h]
    · have h2 := ih (readSlot m i)
      simp only [readSlot_state] at h2
      simp [updateLoop, readSlot_state, h, h2]

theorem updateLoop_accesses (l : List (Fin BLOCK_BUFFER_COUNT)) (m : Monitor D) :
    ∃ body, (l ≠ [] → body ≠ []) ∧ Accesses m (updateLoop m l) body := by
  induction l generalizing m with
  | nil => exact ⟨[], fun h => absurd rfl h, Accesses.refl m⟩
  | cons i rest ih =>
    by_cases h : (m.state.BlockBuffers i).Current = true
    · refine ⟨[LockEvent.slotRead i] ++ [LockEvent.slotWrite i], fun _ => by simp, ?_⟩
      simp only [updateLoop, readSlot_state, h, if_true]
      exact (readSlot_accesses m i).trans (writeSlot_accesses _ i _)
    · obtain ⟨y, _, hy⟩ := ih (readSlot m i)
      refine ⟨[LockEvent.slotRead i] ++ y, fun _ => by simp, ?_⟩
      simp only [updateLoop, readSlot_state, h]
      exact (readSlot_accesses m i).trans hy

/-- The state and the result of the first loop of `BLOCK_get` and `BLOCK_assign`. -/
theorem hitLoop_spec (b : Int) (l : List (Fin BLOCK_BUFFER_COUNT)) (m : Monitor D) :
    ((hitLoop m b l).1.state, (hitLoop m b l).2) =
      match l.find? (fun i => decide ((m.state.BlockBuffers i).BlockNumber = b)) with
      | some i => (makeCurrent m.state i, some i)
      | none => (m.state, none) := by
  induction l generalizing m with
  | nil => rfl
  | cons i rest ih =>
    by_cases h : (m.state.BlockBuffers i).BlockNumber = b
    · have hs := foldl_state
        (fun (t : Monitor D) (_j : Fin BLOCK_BUFFER_COUNT) =>
          writeSlot t i { t.state.BlockBuffers i with Current := false })
        (fun t _j => setCurrent t i false) (fun _ _ => rfl)
        (List.finRange BLOCK_BUFFER_COUNT) (readSlot m i)
      simp only [readSlot_state] at hs
      simp only [hitLoop, readSlot_state, h, if_true, List.find?, decide_True, writeSlot_state, hs,
        makeCurrent, setCurrent]
    · have h2 := ih (readSlot m i)
      simp only [readSlot_state] at h2
      simp [hitLoop, readSlot_state, h, h2]

theorem hitLoop_accesses (b : Int) (l : List (Fin BLOCK_BUFFER_COUNT)) (m : Monitor D) :
    ∃ body, (l ≠ [] → body ≠ []) ∧ Accesses m (hitLoop m b l).1 body := by
  induction l generalizing m with
  | nil => exact ⟨[], fun h => absurd rfl h, Accesses.refl m⟩
  | cons i rest ih =>
    by_cases h : (m.state.BlockBuffers i).BlockNumber = b
    · obtain ⟨y, _, hy⟩ := foldl_accesses
        (fun (t : Monitor D) (_j : Fin BLOCK_BUFFER_COUNT) =>
          writeSlot t i { t.state.BlockBuffers i with Current := false })
        (fun t _ => ⟨_, by simp, writeSlot_accesses t i _⟩)
        (List.finRange BLOCK_BUFFER_COUNT) (readSlot m i)
      refine ⟨[LockEvent.slotRead i] ++ (y ++ [LockEvent.slotWrite i]), fun _ => by simp, ?_⟩
      simp only [hitLoop, readSlot_state, h, if_true]
      exact (readSlot_accesses m i).trans (hy.trans (writeSlot_accesses _ i _))
    · obtain ⟨y, _, hy⟩ := ih (readSlot m i)
      refine ⟨[LockEvent.slotRead i] ++ y, fun _ => by simp, ?_⟩
      simp only [hitLoop, readSlot_state, h]
      exact (readSlot_accesses m i).trans hy

/-- The state and the result of the second loop of `BLOCK_get` and `BLOCK_assign`. -/
theorem freeLoop_spec (load : Monitor D → Fin BLOCK_BUFFER_COUNT → Monitor D)
    (g : BlockState D → Fin BLOCK_BUFFER_COUNT → BlockState D)
    (hload : ∀ t i, (load t i).state = g t.state i)
    (l : List (Fin BLOCK_BUFFER_COUNT)) (m : Monitor D) :
    ((freeLoop load m l).1.state, (freeLoop load m l).2) =
      match l.find? (fun i => decide ((m.state.BlockBuffers i).BlockNumber < 0)) with
      | some i => (g m.state i, some i)
      | none => (m.state, none) := by
  induction l generalizing m with
  | nil => rfl
  | cons i rest ih =>
    by_cases h : (m.state.BlockBuffers i).BlockNumber < 0
    · simp [freeLoop, readSlot_state, h, hload]
    · have h2 := ih (readSlot m i)
      simp only [readSlot_state] at h2
      simp [freeLoop, readSlot_state, h, h2]

theorem freeLoop_accesses (load : Monitor D → Fin BLOCK_BUFFER_COUNT → Monitor D)
    (hload : ∀ t i, ∃ body, body ≠ [] ∧ Accesses t (load t i) body)
    (l : List (Fin BLOCK_BUFFER_COUNT)) (m : Monitor D) :
    ∃ body, Accesses m (freeLoop load m l).1 body := by
  induction l generalizing m with
  | nil => exact ⟨[], Accesses.refl m⟩
  | cons i rest ih =>
    by_cases h : (m.state.BlockBuffers i).BlockNumber < 0
    · obtain ⟨y, _, hy⟩ := hload (readSlot m i) i
      refine ⟨[LockEvent.slotRead i] ++ y, ?_⟩
      simp only [freeLoop, readSlot_state, h, if_true]
      exact (readSlot_accesses m i).trans hy
    · obtain ⟨y, hy⟩ := ih (readSlot m i)
      refine ⟨[LockEvent.slotRead i] ++ y, ?_⟩
      simp only [freeLoop, readSlot_state, h]
      exact (readSlot_accesses m i).trans hy

/-- The state and the result of the third loop of `BLOCK_get` and `BLOCK_assign`. -/
theorem victimLoop_spec (sd : SdCard D)
    (load : Monitor D → Fin BLOCK_BUFFER_COUNT → Monitor D)
    (g : BlockState D → Fin BLOCK_BUFFER_COUNT → BlockState D)
    (hload : ∀ t i, (load t i).state = g t.state i)
    (l : List (Fin BLOCK_BUFFER_COUNT)) (m : Monitor D) :
    ((victimLoop sd load m l).1.state, (victimLoop sd load m l).2) =
      match l.find? (fun i => !(m.state.BlockBuffers i).Current) with
      | some i =>
        (g (if (m.state.BlockBuffers i).Updated then save_buffer sd m.state i else m.state) i,
          some i)
      | none => (m.state, none) := by
  induction l generalizing m with
  | nil => rfl
  | cons i rest ih =>
    by_cases h : (m.state.BlockBuffers i).Current = true
    · have h2 := ih (readSlot m i)
      simp only [readSlot_state] at h2
      simp [victimLoop, readSlot_state, h, h2]
    · by_cases hu : (m.state.BlockBuffers i).Updated = true
      · simp [victimLoop, readSlot_state, h, hu, hload, save_buffer_events_state]
      · simp [victimLoop, readSlot_state, h, hu, hload]

theorem victimLoop_accesses (sd : SdCard D)
    (load : Monitor D → Fin BLOCK_BUFFER_COUNT → Monitor D)
    (hload : ∀ t i, ∃ body, body ≠ [] ∧ Accesses t (load t i) body)
    (l : List (Fin BLOCK_BUFFER_COUNT)) (m : Monitor D) :
    ∃ body, Accesses m (victimLoop sd load m l).1 body := by
  induction l generalizing m with
  | nil => exact ⟨[], Accesses.refl m⟩
  | cons i rest ih =>
    by_cases h : (m.state.BlockBuffers i).Current = true
    · obtain ⟨y, hy⟩ := ih (readSlot m i)
      refine ⟨[LockEvent.slotRead i] ++ y, ?_⟩
      simp only [victimLoop, readSlot_state, h]
      exact (readSlot_accesses m i).trans hy
    · have hr := (readSlot_accesses m i).trans (readSlot_accesses (readSlot m i) i)
      by_cases hu : (m.state.BlockBuffers i).Updated = true
      · obtain ⟨x, _, hx⟩ := save_buffer_events_accesses sd (readSlot (readSlot m i) i) i
        obtain ⟨y, _, hy⟩ := hload (save_buffer_events sd (readSlot (readSlot m i) i) i) i
        refine ⟨(([LockEvent.slotRead i] ++ [LockEvent.slotRead i]) ++ x) ++ y, ?_⟩
        simp only [victimLoop, readSlot_state, h, hu, if_true]
        exact (hr.trans hx).trans hy
      · obtain ⟨y, _, hy⟩ := hload (readSlot (readSlot m i) i) i
        refine ⟨([LockEvent.slotRead i] ++ [LockEvent.slotRead i]) ++ y, ?_⟩
        simp only [victimLoop, readSlot_state, h, hu]
        exact hr.trans hy

/-- The state and the result of the statements of `BLOCK_get` and `BLOCK_assign` between the
mutex calls, in terms of the three searches. -/
theorem lookup_spec (sd : SdCard D) (load : Monitor D → Fin BLOCK_BUFFER_COUNT → Monitor D)
    (g : BlockState D → Fin BLOCK_BUFFER_COUNT → BlockState D)
    (hload : ∀ t i, (load t i).state = g t.state i) (m : Monitor D) (b : Int) :
    ((lookup sd load m b).1.state, (lookup sd load m b).2) =
      match firstIndex (fun i => decide ((m.state.BlockBuffers i).BlockNumber = b)) with
      | some i => (makeCurrent m.state i, some i)
      | none =>
        match firstIndex (fun i => decide ((m.state.BlockBuffers i).BlockNumber < 0)) with
        | some i => (g m.state i, some i)
        | none =>
          match firstIndex (fun i => !(m.state.BlockBuffers i).Current) with
          | some i =>
            (g (if (m.state.BlockBuffers i).Updated then save_buffer sd m.state i
              else m.state) i, some i)
          | none => (m.state, none) := by
  have h1 := hitLoop_spec b (List.finRange BLOCK_BUFFER_COUNT) m
  unfold firstIndex
  unfold lookup
  cases hf1 : (List.finRange BLOCK_BUFFER_COUNT).find?
      (fun i => decide ((m.state.BlockBuffers i).BlockNumber = b)) with
  | some i =>
    rw [hf1] at h1
    have e1 := (Prod.ext_iff.1 h1).1
    have e2 := (Prod.ext_iff.1 h1).2
    simp only at e1 e2
    simp only [e2, reduceCtorEq, if_false, e1]
  | none =>
    rw [hf1] at h1
    have e1 := (Prod.ext_iff.1 h1).1
    have e2 := (Prod.ext_iff.1 h1).2
    simp only at e1 e2
    have h2 := freeLoop_spec load g hload (List.finRange BLOCK_BUFFER_COUNT)
      (hitLoop m b (List.finRange BLOCK_BUFFER_COUNT)).1
    rw [e1] at h2
    simp only [e2, if_true]
    cases hf2 : (List.finRange BLOCK_BUFFER_COUNT).find?
        (fun i => decide ((m.state.BlockBuffers i).BlockNumber < 0)) with
    | some i =>
      rw [hf2] at h2
      have f1 := (Prod.ext_iff.1 h2).1
      have f2 := (Prod.ext_iff.1 h2).2
      simp only at f1 f2
      simp only [f2, reduceCtorEq, if_false, f1]
    | none =>
      rw [hf2] at h2
      have f1 := (Prod.ext_iff.1 h2).1
      have f2 := (Prod.ext_iff.1 h2).2
      simp only at f1 f2
      have h3 := victimLoop_spec sd load g hload (List.finRange BLOCK_BUFFER_COUNT)
        (freeLoop load (hitLoop m b (List.finRange BLOCK_BUFFER_COUNT)).1
          (List.finRange BLOCK_BUFFER_COUNT)).1
      rw [f1] at h3
      simp only [f2, if_true]
      exact h3

theorem lookup_accesses (sd : SdCard D)
    (load : Monitor D → Fin BLOCK_BUFFER_COUNT → Monitor D)
    (hload : ∀ t i, ∃ body, body ≠ [] ∧ Accesses t (load t i) body) (m : Monitor D) (b : Int) :
    ∃ body, body ≠ [] ∧ Accesses m (lookup sd load m b).1 body := by
  obtain ⟨x, hx, h1⟩ := hitLoop_accesses b (List.finRange BLOCK_BUFFER_COUNT) m
  have hx2 : x ≠ [] := hx (by decide)
  unfold lookup
  by_cases c1 : (hitLoop m b (List.finRange BLOCK_BUFFER_COUNT)).2 = none
  · obtain ⟨y, h2⟩ := freeLoop_accesses load hload (List.finRange BLOCK_BUFFER_COUNT)
      (hitLoop m b (List.finRange BLOCK_BUFFER_COUNT)).1
    simp only [c1, if_true]
    by_cases c2 : (freeLoop load (hitLoop m b (List.finRange BLOCK_BUFFER_COUNT)).1
        (List.finRange BLOCK_BUFFER_COUNT)).2 = none
    · obtain ⟨z, h3⟩ := victimLoop_accesses sd load hload (List.finRange BLOCK_BUFFER_COUNT)
        (freeLoop load (hitLoop m b (List.finRange BLOCK_BUFFER_COUNT)).1
          (List.finRange BLOCK_BUFFER_COUNT)).1
      simp only [c2, if_true]
      exact ⟨(x ++ y) ++ z, by simp [hx2], (h1.trans h2).trans h3⟩
    · simp only [c2, if_false]
      exact ⟨x ++ y, by simp [hx2], h1.trans h2⟩
  · simp only [c1, if_false]
    exact ⟨x, hx2, h1⟩

/-- The events between the acquire and the release: what a function appends to the record when
its statements between the two mutex calls are accesses. -/
theorem hold_of_accesses {m t : Monitor D} {body : List LockEvent}
    (h : Accesses (osMutexAcquire m) t body) :
    (osMutexRelease t).events = m.events ++ LockEvent.acquire :: body ++ [LockEvent.release] ∧
    (osMutexRelease t).state.sdCalls = m.state.sdCalls ++ body.filterMap LockEvent.call ∧
    ∀ i, (osMutexRelease t).state.BlockBuffers i ≠ m.state.BlockBuffers i →
      LockEvent.slotWrite i ∈ body := by
  obtain ⟨a1, _, a3, a4⟩ := h
  refine ⟨?_, a3, a4⟩
  simp [osMutexRelease, a1, osMutexAcquire]

theorem guarded_accesses (body rest : List LockEvent)
    (h : ∀ e ∈ body, e.isAccess = true) : guarded true (body ++ rest) = guarded true rest := by
  induction body with
  | nil => rfl
  | cons e body ih =>
    have he := h e (List.mem_cons_self _ _)
    have ih2 := ih (fun x hx => h x (List.mem_cons_of_mem _ hx))
    cases e <;> simp_all [guarded, LockEvent.isAccess]

theorem count_acquire_accesses (body : List LockEvent)
    (h : ∀ e ∈ body, e.isAccess = true) : body.count LockEvent.acquire = 0 := by
  rw [List.count_eq_zero]
  intro hm
  exact absurd (h _ hm) (by decide)

theorem count_release_accesses (body : List LockEvent)
    (h : ∀ e ∈ body, e.isAccess = true) : body.count LockEvent.release = 0 := by
  rw [List.count_eq_zero]
  intro hm
  exact absurd (h _ hm) (by decide)

/-- One acquire, accesses, one release: a single continuous hold. -/
theorem singleHold_accesses (body : List LockEvent) (h : ∀ e ∈ body, e.isAccess = true) :
    singleHold (LockEvent.acquire :: body ++ [LockEvent.release]) = true := by
  have hg : guarded false (LockEvent.acquire :: (body ++ [LockEvent.release])) = true := by
    show (!false && guarded true (body ++ [LockEvent.release])) = true
    rw [guarded_accesses body _ h]; rfl
  simp [singleHold, hg, List.count_cons, List.count_append, count_acquire_accesses body h,
    count_release_accesses body h]

/-- Two holds one after the other keep the discipline and are not a single hold. -/
theorem twoHolds_accesses (x y : List LockEvent) (hx : ∀ e ∈ x, e.isAccess = true)
    (hy : ∀ e ∈ y, e.isAccess = true) :
    guarded false ((LockEvent.acquire :: x ++ [LockEvent.release]) ++
      (LockEvent.acquire :: y ++ [LockEvent.release])) = true ∧
    singleHold ((LockEvent.acquire :: x ++ [LockEvent.release]) ++
      (LockEvent.acquire :: y ++ [LockEvent.release])) = false ∧
    ((LockEvent.acquire :: x ++ [LockEvent.release]) ++
      (LockEvent.acquire :: y ++ [LockEvent.release])).count LockEvent.acquire = 2 := by
  have hg : guarded false ((LockEvent.acquire :: x ++ [LockEvent.release]) ++
      (LockEvent.acquire :: y ++ [LockEvent.release])) = true := by
    show (!false && guarded true ((x ++ [LockEvent.release]) ++
      (LockEvent.acquire :: y ++ [LockEvent.release]))) = true
    rw [List.append_assoc, guarded_accesses x _ hx]
    show (true && (true && (!false && guarded true (y ++ [LockEvent.release])))) = true
    rw [guarded_accesses y _ hy]; rfl
  have hc : ((LockEvent.acquire :: x ++ [LockEvent.release]) ++
      (LockEvent.acquire :: y ++ [LockEvent.release])).count LockEvent.acquire = 2 := by
    simp [List.count_cons, List.count_append, count_acquire_accesses x hx,
      count_acquire_accesses y hy]
  refine ⟨hg, ?_, hc⟩
  simp only [singleHold, hc]
  simp

/-- The state of `BLOCK_emptyBuffers` with its mutex calls is the state of `BLOCK_emptyBuffers`,
and its statements between the mutex calls are accesses. -/
theorem BLOCK_emptyBuffers_mutex_spec (m : Monitor D) :
    (BLOCK_emptyBuffers_mutex m).state = BLOCK_emptyBuffers m.state ∧
    ∃ body, body ≠ [] ∧ (∀ e ∈ body, e.isAccess = true) ∧
      (BLOCK_emptyBuffers_mutex m).events =
        m.events ++ LockEvent.acquire :: body ++ [LockEvent.release] ∧
      (BLOCK_emptyBuffers_mutex m).state.sdCalls =
        m.state.sdCalls ++ body.filterMap LockEvent.call ∧
      ∀ i, (BLOCK_emptyBuffers_mutex m).state.BlockBuffers i ≠ m.state.BlockBuffers i →
        LockEvent.slotWrite i ∈ body := by
  constructor
  · have h := foldl_state emptyBody
      (fun (t : BlockState D) i => setSlot t i { t.BlockBuffers i with
        BlockNumber := -1, Current := false, Updated := false })
      (fun t i => by simp [emptyBody, writeSlot, setSlot])
      (List.finRange BLOCK_BUFFER_COUNT) (osMutexAcquire m)
    exact h
  · obtain ⟨body, hb, h⟩ := foldl_accesses emptyBody
      (fun t i => ⟨([LockEvent.slotWrite i] ++ [LockEvent.slotWrite i]) ++
          [LockEvent.slotWrite i], by simp,
        ((writeSlot_accesses t i _).trans (writeSlot_accesses _ i _)).trans
          (writeSlot_accesses _ i _)⟩)
      (List.finRange BLOCK_BUFFER_COUNT) (osMutexAcquire m)
    exact ⟨body, hb (by decide), h.2.1, hold_of_accesses h⟩

/-- The state of `BLOCK_update` with its mutex calls is the state of `BLOCK_update`, and its
statements between the mutex calls are accesses. -/
theorem BLOCK_update_mutex_spec (m : Monitor D) :
    (BLOCK_update_mutex m).state = BLOCK_update m.state ∧
    ∃ body, body ≠ [] ∧ (∀ e ∈ body, e.isAccess = true) ∧
      (BLOCK_update_mutex m).events =
        m.events ++ LockEvent.acquire :: body ++ [LockEvent.release] ∧
      (BLOCK_update_mutex m).state.sdCalls =
        m.state.sdCalls ++ body.filterMap LockEvent.call ∧
      ∀ i, (BLOCK_update_mutex m).state.BlockBuffers i ≠ m.state.BlockBuffers i →
        LockEvent.slotWrite i ∈ body := by
  constructor
  · unfold BLOCK_update_mutex BLOCK_update firstIndex
    show (updateLoop (osMutexAcquire m) _).state = _
    rw [updateLoop_state]
    rfl
  · obtain ⟨body, hb, h⟩ := updateLoop_accesses (List.finRange BLOCK_BUFFER_COUNT)
      (osMutexAcquire m)
    exact ⟨body, hb (by decide), h.2.1, hold_of_accesses h⟩

/-- The state and the result of `BLOCK_get` with its mutex calls are those of `BLOCK_get`, and
its statements between the mutex calls are accesses. -/
theorem BLOCK_get_mutex_spec (sd : SdCard D) (m : Monitor D) (b : Int) :
    (BLOCK_get_mutex sd m b).1.state = (BLOCK_get sd m.state b).1 ∧
    (BLOCK_get_mutex sd m b).2 = (BLOCK_get sd m.state b).2 ∧
    ∃ body, body ≠ [] ∧ (∀ e ∈ body, e.isAccess = true) ∧
      (BLOCK_get_mutex sd m b).1.events =
        m.events ++ LockEvent.acquire :: body ++ [LockEvent.release] ∧
      (BLOCK_get_mutex sd m b).1.state.sdCalls =
        m.state.sdCalls ++ body.filterMap LockEvent.call ∧
      ∀ i, (BLOCK_get_mutex sd m b).1.state.BlockBuffers i ≠ m.state.BlockBuffers i →
        LockEvent.slotWrite i ∈ body := by
  have hs := lookup_spec sd (fun t i => get_block_events sd t b i)
    (fun s i => get_block sd s b i) (fun t i => get_block_events_state sd t b i)
    (osMutexAcquire m) b
  have hs2 : ((lookup sd (fun t i => get_block_events sd t b i) (osMutexAcquire m) b).1.state,
      (lookup sd (fun t i => get_block_events sd t b i) (osMutexAcquire m) b).2) =
      BLOCK_get sd m.state b := hs
  refine ⟨(Prod.ext_iff.1 hs2).1, (Prod.ext_iff.1 hs2).2, ?_⟩
  obtain ⟨body, hb, h⟩ := lookup_accesses sd (fun t i => get_block_events sd t b i)
    (fun t i => get_block_events_accesses sd t b i) (osMutexAcquire m) b
  exact ⟨body, hb, h.2.1, hold_of_accesses h⟩

/-- The state and the result of `BLOCK_assign` with its mutex calls are those of
`BLOCK_assign`, and its statements between the mutex calls are accesses. -/
theorem BLOCK_assign_mutex_spec (sd : SdCard D) (m : Monitor D) (b : Int) :
    (BLOCK_assign_mutex sd m b).1.state = (BLOCK_assign sd m.state b).1 ∧
    (BLOCK_assign_mutex sd m b).2 = (BLOCK_assign sd m.state b).2 ∧
    ∃ body, body ≠ [] ∧ (∀ e ∈ body, e.isAccess = true) ∧
      (BLOCK_assign_mutex sd m b).1.events =
        m.events ++ LockEvent.acquire :: body ++ [LockEvent.release] ∧
      (BLOCK_assign_mutex sd m b).1.state.sdCalls =
        m.state.sdCalls ++ body.filterMap LockEvent.call ∧
      ∀ i, (BLOCK_assign_mutex sd m b).1.state.BlockBuffers i ≠ m.state.BlockBuffers i →
        LockEvent.slotWrite i ∈ body := by
  have hs := lookup_spec sd (fun t i => init_block_events t b i)
    (fun s i => init_block s b i) (fun t i => init_block_events_state t b i)
    (osMutexAcquire m) b
  have hs2 : ((lookup sd (fun t i => init_block_events t b i) (osMutexAcquire m) b).1.state,
      (lookup sd (fun t i => init_block_events t b i) (osMutexAcquire m) b).2) =
      BLOCK_assign sd m.state b := hs
  refine ⟨(Prod.ext_iff.1 hs2).1, (Prod.ext_iff.1 hs2).2, ?_⟩
  obtain ⟨body, hb, h⟩ := lookup_accesses sd (fun t i => init_block_events t b i)
    (fun t i => init_block_events_accesses t b i) (osMutexAcquire m) b
  exact ⟨body, hb, h.2.1, hold_of_accesses h⟩

/-- The state of `BLOCK_saveBuffers` with its mutex calls is the state of `BLOCK_saveBuffers`,
and its statements between the mutex calls are accesses. -/
theorem BLOCK_saveBuffers_mutex_spec (sd : SdCard D) (m : Monitor D) :
    (BLOCK_saveBuffers_mutex sd m).state = BLOCK_saveBuffers sd m.state ∧
    ∃ body, body ≠ [] ∧ (∀ e ∈ body, e.isAccess = true) ∧
      (BLOCK_saveBuffers_mutex sd m).events =
        m.events ++ LockEvent.acquire :: body ++ [LockEvent.release] ∧
      (BLOCK_saveBuffers_mutex sd m).state.sdCalls =
        m.state.sdCalls ++ body.filterMap LockEvent.call ∧
      ∀ i, (BLOCK_saveBuffers_mutex sd m).state.BlockBuffers i ≠ m.state.BlockBuffers i →
        LockEvent.slotWrite i ∈ body := by
  constructor
  · have h := foldl_state (saveBody sd)
      (fun (t : BlockState D) i =>
        if (t.BlockBuffers i).Updated then setUpdated (save_buffer sd t i) i false else t)
      (fun t i => by
        by_cases hu : (t.state.BlockBuffers i).Updated = true
        · simp [saveBody, readSlot_state, hu, writeSlot_state, save_buffer_events_state,
            setUpdated]
        · simp [saveBody, readSlot_state, hu])
      (List.finRange BLOCK_BUFFER_COUNT) (osMutexAcquire m)
    exact h
  · obtain ⟨body, hb, h⟩ := foldl_accesses (saveBody sd)
      (fun t i => by
        by_cases hu : (t.state.BlockBuffers i).Updated = true
        · obtain ⟨x, _, hx⟩ := save_buffer_events_accesses sd (readSlot t i) i
          refine ⟨([LockEvent.slotRead i] ++ x) ++ [LockEvent.slotWrite i], by simp, ?_⟩
          simp only [saveBody, readSlot_state, hu, if_true]
          exact ((readSlot_accesses t i).trans hx).trans (writeSlot_accesses _ i _)
        · refine ⟨[LockEvent.slotRead i], by simp, ?_⟩
          simp only [saveBody, readSlot_state, hu]
          exact readSlot_accesses t i)
      (List.finRange BLOCK_BUFFER_COUNT) (osMutexAcquire m)
    exact ⟨body, hb (by decide), h.2.1, hold_of_accesses h⟩

set_option maxRecDepth 100000 in
/-- C20, the statement as given fails on the code: `BLOCK_flushBuffers` on `initMonitor` reads
`Updated` of the four slots inside a first hold, releases the mutex, acquires it again and
writes the twelve fields inside a second hold. The mutex is released between the save phase and
the empty phase, so the call is not a single continuous hold. -/
theorem C20_flush_is_two_holds :
    (BLOCK_flushBuffers_mutex sectorCard initMonitor).events =
      [LockEvent.acquire, LockEvent.slotRead 0, LockEvent.slotRead 1, LockEvent.slotRead 2,
        LockEvent.slotRead 3, LockEvent.release,
        LockEvent.acquire, LockEvent.slotWrite 0, LockEvent.slotWrite 0, LockEvent.slotWrite 0,
        LockEvent.slotWrite 1, LockEvent.slotWrite 1, LockEvent.slotWrite 1,
        LockEvent.slotWrite 2, LockEvent.slotWrite 2, LockEvent.slotWrite 2,
        LockEvent.slotWrite 3, LockEvent.slotWrite 3, LockEvent.slotWrite 3,
        LockEvent.release] ∧
    singleHold (BLOCK_flushBuffers_mutex sectorCard initMonitor).events = false ∧
    ((BLOCK_flushBuffers_mutex sectorCard initMonitor).events.count LockEvent.acquire = 2) := by
  decide

/-- C20 as the code behaves. With every public function embedded statement by statement, each
statement recording its slot accesses and driver calls: every call leaves the state (and
`BLOCK_get`, `BLOCK_assign` the buffer) of its function body. For every state, every argument
and so on every path, `BLOCK_emptyBuffers`, `BLOCK_update`, `BLOCK_get`, `BLOCK_assign` and
`BLOCK_saveBuffers` append to the record one acquire, then a non-empty sequence of slot accesses
and driver calls without a mutex call, which holds every driver call the state has recorded and
a write for every slot the call has changed, then one release: a single continuous hold.
`BLOCK_flushBuffers` appends two such holds one after the other, the first with the accesses
and all driver calls of its save phase, the second with the accesses of its empty phase: it
keeps the lock discipline but is not a single hold. -/
theorem C20_lock_discipline (sd : SdCard D) (m : Monitor D) (o : Op) :
    (Op.runMutex sd m o).state = Op.run sd m.state o ∧
    (∀ b, (BLOCK_get_mutex sd m b).2 = (BLOCK_get sd m.state b).2 ∧
      (BLOCK_assign_mutex sd m b).2 = (BLOCK_assign sd m.state b).2) ∧
    (o ≠ Op.flushBuffers →
      ∃ body, body ≠ [] ∧ (∀ e ∈ body, e.isAccess = true) ∧
        (Op.runMutex sd m o).events =
          m.events ++ LockEvent.acquire :: body ++ [LockEvent.release] ∧
        (Op.runMutex sd m o).state.sdCalls =
          m.state.sdCalls ++ body.filterMap LockEvent.call ∧
        (∀ i, (Op.runMutex sd m o).state.BlockBuffers i ≠ m.state.BlockBuffers i →
          LockEvent.slotWrite i ∈ body) ∧
        singleHold (LockEvent.acquire :: body ++ [LockEvent.release]) = true) ∧
    (o = Op.flushBuffers →
      ∃ save empty, save ≠ [] ∧ empty ≠ [] ∧
        (∀ e ∈ save, e.isAccess = true) ∧ (∀ e ∈ empty, e.isAccess = true) ∧
        (Op.runMutex sd m o).events =
          m.events ++ ((LockEvent.acquire :: save ++ [LockEvent.release]) ++
            (LockEvent.acquire :: empty ++ [LockEvent.release])) ∧
        (Op.runMutex sd m o).state.sdCalls =
          m.state.sdCalls ++ save.filterMap LockEvent.call ∧
        empty.filterMap LockEvent.call = [] ∧
        (∀ i, (Op.runMutex sd m o).state.BlockBuffers i ≠ m.state.BlockBuffers i →
          LockEvent.slotWrite i ∈ save ∨ LockEvent.slotWrite i ∈ empty) ∧
        guarded false ((LockEvent.acquire :: save ++ [LockEvent.release]) ++
          (LockEvent.acquire :: empty ++ [LockEvent.release])) = true ∧
        singleHold ((LockEvent.acquire :: save ++ [LockEvent.release]) ++
          (LockEvent.acquire :: empty ++ [LockEvent.release])) = false) := by
  refine ⟨?_, fun b => ⟨(BLOCK_get_mutex_spec sd m b).2.1, (BLOCK_assign_mutex_spec sd m b).2.1⟩,
    ?_, ?_⟩
  · cases o with
    | emptyBuffers => exact (BLOCK_emptyBuffers_mutex_spec m).1
    | update => exact (BLOCK_update_mutex_spec m).1
    | get b => exact (BLOCK_get_mutex_spec sd m b).1
    | assign b => exact (BLOCK_assign_mutex_spec sd m b).1
    | saveBuffers => exact (BLOCK_saveBuffers_mutex_spec sd m).1
    | flushBuffers =>
      show (BLOCK_emptyBuffers_mutex (BLOCK_saveBuffers_mutex sd m)).state = _
      rw [(BLOCK_emptyBuffers_mutex_spec _).1, (BLOCK_saveBuffers_mutex_spec sd m).1]
      rfl
  · intro ho
    cases o with
    | emptyBuffers =>
      obtain ⟨body, h1, h2, h3, h4, h5⟩ := (BLOCK_emptyBuffers_mutex_spec m).2
      exact ⟨body, h1, h2, h3, h4, h5, singleHold_accesses body h2⟩
    | update =>
      obtain ⟨body, h1, h2, h3, h4, h5⟩ := (BLOCK_update_mutex_spec m).2
      exact ⟨body, h1, h2, h3, h4, h5, singleHold_accesses body h2⟩
    | get b =>
      obtain ⟨body, h1, h2, h3, h4, h5⟩ := (BLOCK_get_mutex_spec sd m b).2.2
      exact ⟨body, h1, h2, h3, h4, h5, singleHold_accesses body h2⟩
    | assign b =>
      obtain ⟨body, h1, h2, h3, h4, h5⟩ := (BLOCK_assign_mutex_spec sd m b).2.2
      exact ⟨body, h1, h2, h3, h4, h5, singleHold_accesses body h2⟩
    | saveBuffers =>
      obtain ⟨body, h1, h2, h3, h4, h5⟩ := (BLOCK_saveBuffers_mutex_spec sd m).2
      exact ⟨body, h1, h2, h3, h4, h5, singleHold_accesses body h2⟩
    | flushBuffers => exact absurd rfl ho
  · intro ho
    subst ho
    obtain ⟨x, x1, x2, x3, x4, x5⟩ := (BLOCK_saveBuffers_mutex_spec sd m).2
    obtain ⟨y, y1, y2, y3, y4, y5⟩ :=
      (BLOCK_emptyBuffers_mutex_spec (BLOCK_saveBuffers_mutex sd m)).2
    have hst : (BLOCK_emptyBuffers_mutex (BLOCK_saveBuffers_mutex sd m)).state.sdCalls =
        (BLOCK_saveBuffers_mutex sd m).state.sdCalls := by
      rw [(BLOCK_emptyBuffers_mutex_spec _).1]
      exact BLOCK_emptyBuffers_sdCalls _
    have hy : y.filterMap LockEvent.call = [] := by
      have h := y4
      rw [hst] at h
      exact (List.self_eq_append_right.1 h)
    refine ⟨x, y, x1, y1, x2, y2, ?_, ?_, hy, ?_, (twoHolds_accesses x y x2 y2).1,
      (twoHolds_accesses x y x2 y2).2.1⟩
    · show (BLOCK_emptyBuffers_mutex (BLOCK_saveBuffers_mutex sd m)).events = _
      rw [y3, x3]
      simp
    · show (BLOCK_emptyBuffers_mutex (BLOCK_saveBuffers_mutex sd m)).state.sdCalls = _
      rw [hst, x4]
    · intro i hi
      by_cases c : (BLOCK_saveBuffers_mutex sd m).state.BlockBuffers i = m.state.BlockBuffers i
      · exact Or.inr (y5 i (fun h => hi (h.trans c)))
      · exact Or.inl (x5 i c)

set_option maxRecDepth 100000 in
/-- C20 as the code behaves, at concrete inputs: on `victimMonitor`, whose slot 0 is updated and
not current, `BLOCK_get(9)` is a single hold that contains its write and its read;
`BLOCK_flushBuffers` is two holds. -/
theorem C20_lock_discipline_witness :
    (Op.get 9 ≠ Op.flushBuffers) ∧
    (∃ body, body ≠ [] ∧ (∀ e ∈ body, e.isAccess = true) ∧
      (Op.runMutex sectorCard victimMonitor (Op.get 9)).events =
        victimMonitor.events ++ LockEvent.acquire :: body ++ [LockEvent.release] ∧
      (Op.runMutex sectorCard victimMonitor (Op.get 9)).state.sdCalls =
        victimMonitor.state.sdCalls ++ body.filterMap LockEvent.call ∧
      (∀ i, (Op.runMutex sectorCard victimMonitor (Op.get 9)).state.BlockBuffers i ≠
          victimMonitor.state.BlockBuffers i → LockEvent.slotWrite i ∈ body) ∧
      singleHold (LockEvent.acquire :: body ++ [LockEvent.release]) = true) ∧
    (Op.runMutex sectorCard victimMonitor (Op.get 9)).events =
      [LockEvent.acquire, LockEvent.slotRead 0, LockEvent.slotRead 1, LockEvent.slotRead 2,
        LockEvent.slotRead 3, LockEvent.slotRead 0, LockEvent.slotRead 1, LockEvent.slotRead 2,
        LockEvent.slotRead 3, LockEvent.slotRead 0, LockEvent.slotRead 0, LockEvent.slotRead 0,
        LockEvent.driver (SdCall.write (List.replicate 1024 7) 2 2), LockEvent.slotWrite 0,
        LockEvent.driver (SdCall.read 18 2), LockEvent.slotWrite 0, LockEvent.slotWrite 0,
        LockEvent.slotWrite 0, LockEvent.slotWrite 0, LockEvent.release] :=
  ⟨by decide, (C20_lock_discipline sectorCard victimMonitor (Op.get 9)).2.2.1 (by decide),
    by decide⟩



/-! ## Recency, victims and frames (C21 to C25) -/

/-- C21 (MRU update on a hit), evaluated on the code. In `twoBlocks` slots 0 and 1 are current
and slot 0 holds block 10. `BLOCK_get(10)` and `BLOCK_assign(10)` hit slot 0 and leave slot 1
current as well. -/
theorem C21_hit_keeps_other_current :
    (twoBlocks.BlockBuffers 0).BlockNumber = 10 ∧
    (twoBlocks.BlockBuffers 1).Current = true ∧
    (BLOCK_get sectorCard twoBlocks 10).2 = some 0 ∧
    ((BLOCK_get sectorCard twoBlocks 10).1.BlockBuffers 0).Current = true ∧
    ((BLOCK_get sectorCard twoBlocks 10).1.BlockBuffers 1).Current = true ∧
    (BLOCK_assign sectorCard twoBlocks 10).2 = some 0 ∧
    ((BLOCK_assign sectorCard twoBlocks 10).1.BlockBuffers 0).Current = true ∧
    ((BLOCK_assign sectorCard twoBlocks 10).1.BlockBuffers 1).Current = true :=
  ⟨by decide, by decide, by decide, by decide, by decide, by decide, by decide, by decide⟩

/-- C22 (eviction victim). In every state and for every block `b` such that no slot holds `b`,
no slot is unassigned (`BlockNumber < 0`) and some slot is not current, `BLOCK_get(b)` and
`BLOCK_assign(b)` return the lowest slot whose `Current` flag is clear, whatever its `Updated`
flag, and that slot then holds `b`. -/
theorem C22_eviction_victim (sd : SdCard D) (s : BlockState D) (b : Int)
    (hmiss : ∀ i, (s.BlockBuffers i).BlockNumber ≠ b)
    (hfull : ∀ i, 0 ≤ (s.BlockBuffers i).BlockNumber)
    (hnc : ∃ i, (s.BlockBuffers i).Current = false) :
    ∃ k, (s.BlockBuffers k).Current = false ∧
      (∀ j, j < k → (s.BlockBuffers j).Current = true) ∧
      (BLOCK_get sd s b).2 = some k ∧ (BLOCK_assign sd s b).2 = some k ∧
      ((BLOCK_get sd s b).1.BlockBuffers k).BlockNumber = b ∧
      ((BLOCK_assign sd s b).1.BlockBuffers k).BlockNumber = b := by
  obtain ⟨i, hi⟩ := hnc
  obtain ⟨k, hk⟩ := firstIndex_isSome
    (c := fun i => !(s.BlockBuffers i).Current) i (by simp [hi])
  have hv := (victim_iff s k).1 hk
  have h1 := (miss_iff s b).2 hmiss
  have h2 := (full_iff s).2 hfull
  refine ⟨k, hv.1, hv.2, ?_, ?_, ?_, ?_⟩
  · rw [BLOCK_get_evict sd s b h1 h2 hk]
  · rw [BLOCK_assign_evict sd s b h1 h2 hk]
  · rw [BLOCK_get_evict sd s b h1 h2 hk]; simp [get_block]
  · rw [BLOCK_assign_evict sd s b h1 h2 hk]; simp [init_block]

/-- C22 at concrete inputs: in `dirtyVictim` slot 0 is the only slot that is not current (and
it is updated), in `oneCurrent` slots 0, 2, 3 are not current; in both `BLOCK_get(9)` and
`BLOCK_assign(9)` return slot 0. -/
theorem C22_eviction_victim_witness :
    (∀ i, (dirtyVictim.BlockBuffers i).BlockNumber ≠ 9) ∧
    (∀ i, 0 ≤ (dirtyVictim.BlockBuffers i).BlockNumber) ∧
    (∃ i, (dirtyVictim.BlockBuffers i).Current = false) ∧
    (BLOCK_get sectorCard dirtyVictim 9).2 = some 0 ∧
    (BLOCK_get sectorCard oneCurrent 9).2 = some 0 ∧
    (∃ k, (dirtyVictim.BlockBuffers k).Current = false ∧
      (∀ j, j < k → (dirtyVictim.BlockBuffers j).Current = true) ∧
      (BLOCK_get sectorCard dirtyVictim 9).2 = some k ∧
      (BLOCK_assign sectorCard dirtyVictim 9).2 = some k ∧
      ((BLOCK_get sectorCard dirtyVictim 9).1.BlockBuffers k).BlockNumber = 9 ∧
      ((BLOCK_assign sectorCard dirtyVictim 9).1.BlockBuffers k).BlockNumber = 9) :=
  ⟨by decide, by decide, ⟨0, by decide⟩, by decide, by decide,
    C22_eviction_victim sectorCard dirtyVictim 9 (by decide) (by decide) ⟨0, by decide⟩⟩

/-- C23 (`BLOCK_assign` resolves exactly like `BLOCK_get`). In every state and for every block
`b` both return the same slot (or both `NULL`), leave the same card, make the same writes and
leave the same `BlockNumber`, `Current` and `Updated` in every slot; every slot other than the
returned one is the same in both, and on a hit or a `NULL` result the two final states are
equal. On a miss that returns slot `k` the results differ in two points only: `BLOCK_get`
makes one more driver call, the read of 2 blocks at the sector `get_block` computes from `b`,
and slot `k` holds the bytes read where `BLOCK_assign` leaves 1024 bytes `0x20`. -/
theorem C23_assign_like_get (sd : SdCard D) (s : BlockState D) (b : Int) :
    (BLOCK_assign sd s b).2 = (BLOCK_get sd s b).2 ∧
    (BLOCK_assign sd s b).1.card = (BLOCK_get sd s b).1.card ∧
    (BLOCK_assign sd s b).1.sdCalls.filter SdCall.isWrite =
      (BLOCK_get sd s b).1.sdCalls.filter SdCall.isWrite ∧
    (∀ j, ((BLOCK_assign sd s b).1.BlockBuffers j).BlockNumber =
        ((BLOCK_get sd s b).1.BlockBuffers j).BlockNumber ∧
      ((BLOCK_assign sd s b).1.BlockBuffers j).Current =
        ((BLOCK_get sd s b).1.BlockBuffers j).Current ∧
      ((BLOCK_assign sd s b).1.BlockBuffers j).Updated =
        ((BLOCK_get sd s b).1.BlockBuffers j).Updated) ∧
    (∀ j, (BLOCK_get sd s b).2 ≠ some j →
      (BLOCK_assign sd s b).1.BlockBuffers j = (BLOCK_get sd s b).1.BlockBuffers j) ∧
    ((∃ i, (s.BlockBuffers i).BlockNumber = b) →
      (BLOCK_assign sd s b).1 = (BLOCK_get sd s b).1) ∧
    ((BLOCK_get sd s b).2 = none → (BLOCK_assign sd s b).1 = (BLOCK_get sd s b).1) ∧
    ((∀ i, (s.BlockBuffers i).BlockNumber ≠ b) → ∀ k, (BLOCK_get sd s b).2 = some k →
      (BLOCK_get sd s b).1.sdCalls =
        (BLOCK_assign sd s b).1.sdCalls ++ [SdCall.read (int32 (b * 2)) 2] ∧
      ((BLOCK_get sd s b).1.BlockBuffers k).Data =
        sd.SD_ReadBlocks (BLOCK_assign sd s b).1.card (int32 (b * 2)) 2 ∧
      ((BLOCK_assign sd s b).1.BlockBuffers k).Data = List.replicate 1024 0x20) := by
  cases h1 : firstIndex (fun i => decide ((s.BlockBuffers i).BlockNumber = b)) with
  | some i =>
    rw [BLOCK_get_hit sd s b h1, BLOCK_assign_hit sd s b h1]
    refine ⟨rfl, rfl, rfl, fun j => ⟨rfl, rfl, rfl⟩, fun j _ => rfl, fun _ => rfl,
      fun _ => rfl, fun hm => absurd ((hit_iff s b i).1 h1).1 (hm i)⟩
  | none =>
    have hm := (miss_iff s b).1 h1
    have hne : ¬ ∃ i, (s.BlockBuffers i).BlockNumber = b := fun ⟨i, hi⟩ => hm i hi
    cases h2 : firstIndex (fun i => decide ((s.BlockBuffers i).BlockNumber < 0)) with
    | some i =>
      rw [BLOCK_get_free sd s b h1 h2, BLOCK_assign_free sd s b h1 h2]
      refine ⟨rfl, rfl, ?_, fun j => ?_, fun j hj => ?_, fun h => absurd h hne,
        fun h => (by cases h), fun _ k hk => ?_⟩
      · simp [get_block, init_block, SdCall.isWrite]
      · by_cases hj : j = i
        · subst hj; simp [get_block, init_block]
        · simp [get_block, init_block, setSlot_other _ _ hj, Function.update_noteq hj]
      · have hji : j ≠ i := fun e => hj (by rw [e])
        simp [get_block, init_block, setSlot_other _ _ hji, Function.update_noteq hji]
      · simp only [Option.some.injEq] at hk; subst hk
        refine ⟨by simp [get_block, init_block],
          by simp [get_block, init_block], ?_⟩
        show ((setSlot s i _).BlockBuffers i).Data = _
        rw [setSlot_same]
    | none =>
      cases h3 : firstIndex (fun i => !(s.BlockBuffers i).Current) with
      | some i =>
        rw [BLOCK_get_evict sd s b h1 h2 h3, BLOCK_assign_evict sd s b h1 h2 h3]
        refine ⟨rfl, rfl, ?_, fun j => ?_, fun j hj => ?_, fun h => absurd h hne,
          fun h => (by cases h), fun _ k hk => ?_⟩
        · simp [get_block, init_block, SdCall.isWrite]
        · by_cases hj : j = i
          · subst hj; simp [get_block, init_block]
          · simp [get_block, init_block, setSlot_other _ _ hj, Function.update_noteq hj]
        · have hji : j ≠ i := fun e => hj (by rw [e])
          simp [get_block, init_block, setSlot_other _ _ hji, Function.update_noteq hji]
        · simp only [Option.some.injEq] at hk; subst hk
          refine ⟨by simp [get_block, init_block],
            by simp [get_block, init_block], ?_⟩
          show ((setSlot _ i _).BlockBuffers i).Data = _
          rw [setSlot_same]
      | none =>
        rw [BLOCK_get_null sd s b h1 h2 h3, BLOCK_assign_null sd s b h1 h2 h3]
        exact ⟨rfl, rfl, rfl, fun j => ⟨rfl, rfl, rfl⟩, fun j _ => rfl, fun _ => rfl,
          fun _ => rfl, fun _ k hk => (by cases hk)⟩

/-- C23 at concrete inputs: a hit in `twoBlocks` (block 20), a miss into an unassigned slot in
`twoBlocks` (block 7) and a `NULL` result in `fourBlocks` (block 50). -/
theorem C23_assign_like_get_witness :
    (∃ i, (twoBlocks.BlockBuffers i).BlockNumber = 20) ∧
    (BLOCK_assign sectorCard twoBlocks 20).1 = (BLOCK_get sectorCard twoBlocks 20).1 ∧
    (∀ i, (twoBlocks.BlockBuffers i).BlockNumber ≠ 7) ∧
    (BLOCK_get sectorCard twoBlocks 7).2 = some 2 ∧
    (BLOCK_get sectorCard twoBlocks 7).1.sdCalls =
      (BLOCK_assign sectorCard twoBlocks 7).1.sdCalls ++ [SdCall.read (int32 (7 * 2)) 2] ∧
    int32 (7 * 2) = 14 ∧
    (BLOCK_get sectorCard fourBlocks 50).2 = none ∧
    (BLOCK_assign sectorCard fourBlocks 50).1 = (BLOCK_get sectorCard fourBlocks 50).1 :=
  ⟨⟨1, by decide⟩,
    (C23_assign_like_get sectorCard twoBlocks 20).2.2.2.2.2.1 ⟨1, by decide⟩,
    by decide, by decide,
    ((C23_assign_like_get sectorCard twoBlocks 7).2.2.2.2.2.2.2 (by decide) 2 (by decide)).1,
    by decide, by decide,
    (C23_assign_like_get sectorCard fourBlocks 50).2.2.2.2.2.2.1 (by decide)⟩

/-- C25 (`BLOCK_update` touches one flag only). In every state: without a current slot
`BLOCK_update` leaves the state as it is; in any case it makes no driver call, leaves the card
and the `BlockNumber`, `Current` and `Data` of every slot unchanged; with a current slot it
sets `Updated` in the lowest current slot and leaves `Updated` of every other slot as it was. -/
theorem C25_update_one_flag (s : BlockState D) :
    ((∀ i, (s.BlockBuffers i).Current = false) → BLOCK_update s = s) ∧
    (BLOCK_update s).sdCalls = s.sdCalls ∧
    (BLOCK_update s).card = s.card ∧
    (∀ j, ((BLOCK_update s).BlockBuffers j).BlockNumber = (s.BlockBuffers j).BlockNumber ∧
      ((BLOCK_update s).BlockBuffers j).Current = (s.BlockBuffers j).Current ∧
      ((BLOCK_update s).BlockBuffers j).Data = (s.BlockBuffers j).Data) ∧
    ((∃ i, (s.BlockBuffers i).Current = true) →
      ∃ k, (s.BlockBuffers k).Current = true ∧
        (∀ j, j < k → (s.BlockBuffers j).Current = false) ∧
        ((BLOCK_update s).BlockBuffers k).Updated = true ∧
        ∀ j, j ≠ k → (BLOCK_update s).BlockBuffers j = s.BlockBuffers j) := by
  refine ⟨?_, ?_, ?_, ?_, ?_⟩
  · intro h
    have : firstIndex (fun i => (s.BlockBuffers i).Current) = none :=
      firstIndex_eq_none.2 h
    simp only [BLOCK_update, this]
  · unfold BLOCK_update
    cases firstIndex (fun i => (s.BlockBuffers i).Current) <;> rfl
  · unfold BLOCK_update
    cases firstIndex (fun i => (s.BlockBuffers i).Current) <;> rfl
  · intro j
    rcases update_slot_cases s j with h | ⟨_, h⟩ <;> rw [h] <;> exact ⟨rfl, rfl, rfl⟩
  · rintro ⟨i, hi⟩
    obtain ⟨k, hk⟩ := firstIndex_isSome (c := fun i => (s.BlockBuffers i).Current) i hi
    have hs := firstIndex_eq_some.1 hk
    refine ⟨k, hs.1, hs.2, ?_, fun j hj => ?_⟩
    · simp only [BLOCK_update, hk]; simp [setUpdated]
    · simp only [BLOCK_update, hk]; simp [setUpdated, setSlot_other _ _ hj]

/-- C25 at concrete inputs: `initState` has no current slot and is left as it is; in
`twoBlocks` slot 0 is the lowest current slot and gets `Updated`, the other slots are kept. -/
theorem C25_update_one_flag_witness :
    (∀ i, (initState.BlockBuffers i).Current = false) ∧
    BLOCK_update initState = initState ∧
    (∃ i, (twoBlocks.BlockBuffers i).Current = true) ∧
    (∃ k, (twoBlocks.BlockBuffers k).Current = true ∧
      (∀ j, j < k → (twoBlocks.BlockBuffers j).Current = false) ∧
      ((BLOCK_update twoBlocks).BlockBuffers k).Updated = true ∧
      ∀ j, j ≠ k → (BLOCK_update twoBlocks).BlockBuffers j = twoBlocks.BlockBuffers j) :=
  ⟨by decide, (C25_update_one_flag initState).1 (by decide), ⟨0, by decide⟩,
    (C25_update_one_flag twoBlocks).2.2.2.2 ⟨0, by decide⟩⟩

/-! ## The `Current` flag in reachable states, the frame of a miss, the sentinel (C27 to C29) -/

/-- `BLOCK_get` never clears a `Current` flag. -/
theorem get_keeps_current (sd : SdCard D) (s : BlockState D) (b : Int)
    (j : Fin BLOCK_BUFFER_COUNT) (h : (s.BlockBuffers j).Current = true) :
    ((BLOCK_get sd s b).1.BlockBuffers j).Current = true := by
  rcases get_slot_cases sd s b j with hk | ⟨_, hk⟩ | ⟨_, _, _, hc, _⟩
  · rw [hk]; exact h
  · rw [hk]
  · exact hc

/-- `BLOCK_assign` never clears a `Current` flag. -/
theorem assign_keeps_current (sd : SdCard D) (s : BlockState D) (b : Int)
    (j : Fin BLOCK_BUFFER_COUNT) (h : (s.BlockBuffers j).Current = true) :
    ((BLOCK_assign sd s b).1.BlockBuffers j).Current = true := by
  rcases assign_slot_cases sd s b j with hk | ⟨_, hk⟩ | ⟨_, _, _, hc, _⟩
  · rw [hk]; exact h
  · rw [hk]
  · exact hc

theorem CurrentIffAssigned_step (sd : SdCard D) (s : BlockState D) (o : Op)
    (hok : o.nonneg = true) (h : CurrentIffAssigned s) : CurrentIffAssigned (Op.run sd s o) := by
  cases o with
  | emptyBuffers =>
    intro i
    simp [Op.run, BLOCK_emptyBuffers_slot]
  | update =>
    intro i
    rcases update_slot_cases s i with hk | ⟨_, hk⟩
    · simp only [Op.run, hk]; exact h i
    · simp only [Op.run, hk]; exact h i
  | get b =>
    have hb : 0 ≤ b := by simpa [Op.nonneg] using hok
    intro i
    rcases get_slot_cases sd s b i with hk | ⟨he, hk⟩ | ⟨_, _, hbn, hc, _⟩
    · simp only [Op.run, hk]; exact h i
    · simp only [Op.run, hk]
      exact ⟨fun _ => by rw [he]; exact hb, fun _ => trivial⟩
    · simp only [Op.run, hbn, hc]
      exact ⟨fun _ => hb, fun _ => trivial⟩
  | assign b =>
    have hb : 0 ≤ b := by simpa [Op.nonneg] using hok
    intro i
    rcases assign_slot_cases sd s b i with hk | ⟨he, hk⟩ | ⟨_, _, hbn, hc, _⟩
    · simp only [Op.run, hk]; exact h i
    · simp only [Op.run, hk]
      exact ⟨fun _ => by rw [he]; exact hb, fun _ => trivial⟩
    · simp only [Op.run, hbn, hc]
      exact ⟨fun _ => hb, fun _ => trivial⟩
  | saveBuffers =>
    intro i
    have f := BLOCK_saveBuffers_fields sd s i
    show ((BLOCK_saveBuffers sd s).BlockBuffers i).Current = true ↔
      0 ≤ ((BLOCK_saveBuffers sd s).BlockBuffers i).BlockNumber
    rw [f.2.1, f.2.2.1]; exact h i
  | flushBuffers =>
    intro i
    simp [Op.run, BLOCK_flushBuffers, BLOCK_emptyBuffers_slot]

/-- C27 (`Current` is never cleared by `BLOCK_get` or `BLOCK_assign`). In every state reachable
from `BLOCK_init` through the public operations called with non-negative block numbers, a slot
is current if and only if its block number is not negative. In every state, `BLOCK_get`,
`BLOCK_assign`, `BLOCK_update` and `BLOCK_saveBuffers` leave every set `Current` flag set;
`BLOCK_emptyBuffers`, `BLOCK_flushBuffers` and `BLOCK_init` clear all of them. -/
theorem C27_current_iff_assigned (sd : SdCard D) :
    (∀ s : BlockState D, Reachable sd s →
      ∀ i, (s.BlockBuffers i).Current = true ↔ 0 ≤ (s.BlockBuffers i).BlockNumber) ∧
    (∀ (s : BlockState D) (b : Int) (j : Fin BLOCK_BUFFER_COUNT),
      (s.BlockBuffers j).Current = true →
      ((BLOCK_get sd s b).1.BlockBuffers j).Current = true ∧
      ((BLOCK_assign sd s b).1.BlockBuffers j).Current = true ∧
      ((BLOCK_update s).BlockBuffers j).Current = true ∧
      ((BLOCK_saveBuffers sd s).BlockBuffers j).Current = true) ∧
    (∀ (s : BlockState D) (j : Fin BLOCK_BUFFER_COUNT),
      ((BLOCK_emptyBuffers s).BlockBuffers j).Current = false ∧
      ((BLOCK_flushBuffers sd s).BlockBuffers j).Current = false ∧
      ((BLOCK_init s).BlockBuffers j).Current = false) := by
  refine ⟨?_, ?_, ?_⟩
  · rintro s ⟨card, ops, hok, rfl⟩
    have h0 : CurrentIffAssigned (BLOCK_init (boot card)) := by
      intro i
      simp [BLOCK_init, BLOCK_emptyBuffers_slot]
    exact runOps_induct sd CurrentIffAssigned (fun o => o.nonneg = true)
      (fun s o ho hs => CurrentIffAssigned_step sd s o ho hs) ops _ hok h0
  · intro s b j h
    refine ⟨get_keeps_current sd s b j h, assign_keeps_current sd s b j h, ?_, ?_⟩
    · rcases update_slot_cases s j with hk | ⟨_, hk⟩ <;> rw [hk] <;> exact h
    · rw [(BLOCK_saveBuffers_fields sd s j).2.2.1]; exact h
  · intro s j
    refine ⟨?_, ?_, ?_⟩
    · rw [BLOCK_emptyBuffers_slot]
    · unfold BLOCK_flushBuffers; rw [BLOCK_emptyBuffers_slot]
    · unfold BLOCK_init; rw [BLOCK_emptyBuffers_slot]

/-- C27 at a concrete input: `fourBlocks` is reachable, all of its slots are assigned and all
are current; in `twoBlocks` slot 0 is current and stays current across `BLOCK_get(20)`. -/
theorem C27_current_iff_assigned_witness :
    Reachable sectorCard fourBlocks ∧
    (∀ i, (fourBlocks.BlockBuffers i).Current = true ↔
      0 ≤ (fourBlocks.BlockBuffers i).BlockNumber) ∧
    (twoBlocks.BlockBuffers 0).Current = true ∧
    ((BLOCK_get sectorCard twoBlocks 20).1.BlockBuffers 0).Current = true :=
  ⟨⟨blankCard, [Op.get 10, Op.get 20, Op.get 30, Op.get 40], by decide, rfl⟩,
    (C27_current_iff_assigned sectorCard).1 fourBlocks
      ⟨blankCard, [Op.get 10, Op.get 20, Op.get 30, Op.get 40], by decide, rfl⟩,
    by decide,
    ((C27_current_iff_assigned sectorCard).2.1 twoBlocks 20 0 (by decide)).1⟩

/-- C28 (a miss changes one slot only). In every state and for every block `b` that no slot
holds: if `BLOCK_get(b)` returns slot `k`, every other slot is exactly as before the call, with
its bytes, `BlockNumber`, `Current` and `Updated`; the same holds for `BLOCK_assign(b)`. -/
theorem C28_miss_changes_one_slot (sd : SdCard D) (s : BlockState D) (b : Int)
    (hmiss : ∀ i, (s.BlockBuffers i).BlockNumber ≠ b) :
    (∀ k, (BLOCK_get sd s b).2 = some k → ∀ j, j ≠ k →
      (BLOCK_get sd s b).1.BlockBuffers j = s.BlockBuffers j) ∧
    (∀ k, (BLOCK_assign sd s b).2 = some k → ∀ j, j ≠ k →
      (BLOCK_assign sd s b).1.BlockBuffers j = s.BlockBuffers j) := by
  constructor
  · intro k hk j hj
    rcases get_slot_cases sd s b j with h | ⟨he, _⟩ | ⟨_, hr, _⟩
    · exact h
    · exact absurd he (hmiss j)
    · rw [hk] at hr; exact absurd (Option.some.inj hr).symm hj
  · intro k hk j hj
    rcases assign_slot_cases sd s b j with h | ⟨he, _⟩ | ⟨_, hr, _⟩
    · exact h
    · exact absurd he (hmiss j)
    · rw [hk] at hr; exact absurd (Option.some.inj hr).symm hj

/-- C28 at concrete inputs: the free-slot path in `twoBlocks` (block 7 goes to slot 2, slot 0
is kept) and the eviction path in `dirtyVictim` (block 9 goes to slot 0, slot 1 is kept). -/
theorem C28_miss_changes_one_slot_witness :
    (∀ i, (twoBlocks.BlockBuffers i).BlockNumber ≠ 7) ∧
    (BLOCK_get sectorCard twoBlocks 7).2 = some 2 ∧
    (BLOCK_get sectorCard twoBlocks 7).1.BlockBuffers 0 = twoBlocks.BlockBuffers 0 ∧
    (∀ i, (dirtyVictim.BlockBuffers i).BlockNumber ≠ 9) ∧
    (BLOCK_assign sectorCard dirtyVictim 9).2 = some 0 ∧
    (BLOCK_assign sectorCard dirtyVictim 9).1.BlockBuffers 1 = dirtyVictim.BlockBuffers 1 :=
  ⟨by decide, by decide,
    (C28_miss_changes_one_slot sectorCard twoBlocks 7 (by decide)).1 2 (by decide) 0
      (by decide),
    by decide, by decide,
    (C28_miss_changes_one_slot sectorCard dirtyVictim 9 (by decide)).2 0 (by decide) 1
      (by decide)⟩

/-- C29 (the sentinel `-1` is matched as a block number). In every state with a slot whose
`BlockNumber` is `-1`, `BLOCK_get(-1)` and `BLOCK_assign(-1)` take the hit branch on the lowest
such slot `k`: they return slot `k`, make no driver call, leave the card and the bytes,
`BlockNumber` (still `-1`) and `Updated` of every slot unchanged and set `Current` of slot `k`.
If no lower slot is current, a following `BLOCK_update` leaves slot `k` with `BlockNumber = -1`
and `Updated` set. -/
theorem C29_sentinel_is_matched (sd : SdCard D) (s : BlockState D)
    (hempty : ∃ i, (s.BlockBuffers i).BlockNumber = -1) :
    ∃ k, (s.BlockBuffers k).BlockNumber = -1 ∧
      (∀ j, j < k → (s.BlockBuffers j).BlockNumber ≠ -1) ∧
      BLOCK_get sd s (-1) = (setCurrent s k true, some k) ∧
      BLOCK_assign sd s (-1) = (setCurrent s k true, some k) ∧
      (setCurrent s k true).sdCalls = s.sdCalls ∧
      (setCurrent s k true).card = s.card ∧
      (∀ j, ((setCurrent s k true).BlockBuffers j).Data = (s.BlockBuffers j).Data ∧
        ((setCurrent s k true).BlockBuffers j).BlockNumber = (s.BlockBuffers j).BlockNumber ∧
        ((setCurrent s k true).BlockBuffers j).Updated = (s.BlockBuffers j).Updated) ∧
      ((setCurrent s k true).BlockBuffers k).BlockNumber = -1 ∧
      ((setCurrent s k true).BlockBuffers k).Current = true ∧
      ((∀ j, j < k → (s.BlockBuffers j).Current = false) →
        ((BLOCK_update (BLOCK_get sd s (-1)).1).BlockBuffers k).BlockNumber = -1 ∧
        ((BLOCK_update (BLOCK_get sd s (-1)).1).BlockBuffers k).Updated = true ∧
        ((BLOCK_update (BLOCK_assign sd s (-1)).1).BlockBuffers k).BlockNumber = -1 ∧
        ((BLOCK_update (BLOCK_assign sd s (-1)).1).BlockBuffers k).Updated = true) := by
  obtain ⟨i, hi⟩ := hempty
  obtain ⟨k, hk⟩ := firstIndex_isSome
    (c := fun i => decide ((s.BlockBuffers i).BlockNumber = -1)) i (by simpa using hi)
  have hl := (hit_iff s (-1) k).1 hk
  have hg := BLOCK_get_hit sd s (-1) hk
  have ha := BLOCK_assign_hit sd s (-1) hk
  have hbn : ((setCurrent s k true).BlockBuffers k).BlockNumber = -1 := by
    rw [(setCurrent_fields s k k true).2.1]; exact hl.1
  have hcur : ((setCurrent s k true).BlockBuffers k).Current = true := by
    simp [setCurrent]
  refine ⟨k, hl.1, hl.2, hg, ha, rfl, rfl, fun j => setCurrent_fields s k j true, hbn, hcur,
    fun hlow => ?_⟩
  have hfirst : firstIndex (fun i => ((setCurrent s k true).BlockBuffers i).Current)
      = some k := by
    rw [firstIndex_eq_some]
    refine ⟨hcur, fun j hj => ?_⟩
    have hne : j ≠ k := ne_of_lt hj
    simp only [setCurrent, setSlot_other _ _ hne]
    exact hlow j hj
  have hu : BLOCK_update (setCurrent s k true) = setUpdated (setCurrent s k true) k true := by
    simp only [BLOCK_update, hfirst]
  rw [hg, ha]
  simp only [hu]
  refine ⟨?_, ?_, ?_, ?_⟩ <;> simp [setUpdated, hbn]

/-- C29 at a concrete input: in `initState` every slot has `BlockNumber = -1`; `BLOCK_get(-1)`
returns slot 0 without a driver call, and a following `BLOCK_update` leaves slot 0 with
`BlockNumber = -1` and `Updated` set. -/
theorem C29_sentinel_is_matched_witness :
    (∃ i, (initState.BlockBuffers i).BlockNumber = -1) ∧
    (BLOCK_get sectorCard initState (-1)).2 = some 0 ∧
    (BLOCK_get sectorCard initState (-1)).1.sdCalls = initState.sdCalls ∧
    ((BLOCK_update (BLOCK_get sectorCard initState (-1)).1).BlockBuffers 0).BlockNumber = -1 ∧
    ((BLOCK_update (BLOCK_get sectorCard initState (-1)).1).BlockBuffers 0).Updated = true ∧
    (∃ k, (initState.BlockBuffers k).BlockNumber = -1 ∧
      (∀ j, j < k → (initState.BlockBuffers j).BlockNumber ≠ -1) ∧
      BLOCK_get sectorCard initState (-1) = (setCurrent initState k true, some k) ∧
      BLOCK_assign sectorCard initState (-1) = (setCurrent initState k true, some k)) :=
  ⟨⟨0, by decide⟩, by decide, by decide, by decide, by decide,
    (C29_sentinel_is_matched sectorCard initState ⟨0, by decide⟩).imp
      (fun _ h => ⟨h.1, h.2.1, h.2.2.1, h.2.2.2.1⟩)⟩

/-! ## `FS_include` (C26) -/

/-- C26 (`FS_include` evaluates each line without its newline), evaluated on the code. The
count passed to `FORTH_evaluate` is always `strlen(line)-1`, so the text is the line without
its last byte: for a line that ends in a newline this is the line without the newline, but for
a final line `3 +` without a newline the text handed over is `3 `, the `+` is dropped. -/
theorem C26_last_byte_dropped :
    (∀ lines : List (List Nat), (FS_include lines).map evaluatedText =
      lines.map (fun line => line.take (strlen line - 1))) ∧
    (FS_include [[49, 32, 50, 10], [51, 32, 43]]).map evaluatedText =
      [[49, 32, 50], [51, 32]] ∧
    evaluatedText ([51, 32, 43], (strlen [51, 32, 43] : Int) - 1) ≠ [51, 32, 43] := by
  refine ⟨fun lines => ?_, by decide, by decide⟩
  simp only [FS_include, List.map_map]
  apply List.map_congr_left
  intro line _
  simp only [Function.comp, evaluatedText]
  congr 1
  omega

/-! ## `FLASH_programDouble` (C30) -/

/-- C30 (flash address guard). For every 32-bit `Address`, `word1`, `word2` and every behaviour of
the HAL: `FLASH_programDouble` calls `Error_Handler`, returns `-1` and calls neither
`HAL_FLASH_Unlock` nor `HAL_FLASH_Program_IT` if and only if `Address < 0x08040000` or
`Address > 0x080C0000` (it then does nothing else); for every `Address` from `0x08040000` to
`0x080C0000`, both included, it calls `HAL_FLASH_Program_IT` exactly once, at `Address`, with
the doubleword whose low 32 bits are `word1` and whose high 32 bits are `word2`. -/
theorem C30_flash_address_guard (hal : FlashHal) (Address word1 word2 : Nat)
    (hA : Address < 2 ^ 32) (h1 : word1 < 2 ^ 32) (h2 : word2 < 2 ^ 32) :
    ((Address < 0x08040000 ∨ Address > 0x080C0000) ↔
      (FlashEvent.Error_Handler ∈ (FLASH_programDouble hal Address word1 word2).2 ∧
        (FLASH_programDouble hal Address word1 word2).1 = -1 ∧
        FlashEvent.HAL_FLASH_Unlock ∉ (FLASH_programDouble hal Address word1 word2).2 ∧
        ∀ a d, FlashEvent.program a d ∉ (FLASH_programDouble hal Address word1 word2).2)) ∧
    ((Address < 0x08040000 ∨ Address > 0x080C0000) →
      FLASH_programDouble hal Address word1 word2 = (-1, [FlashEvent.Error_Handler])) ∧
    ((0x08040000 ≤ Address ∧ Address ≤ 0x080C0000) →
      FlashEvent.HAL_FLASH_Unlock ∈ (FLASH_programDouble hal Address word1 word2).2 ∧
      FlashEvent.program Address (doubleword word1 word2) ∈
        (FLASH_programDouble hal Address word1 word2).2 ∧
      (∀ a d, FlashEvent.program a d ∈ (FLASH_programDouble hal Address word1 word2).2 →
        a = Address ∧ d = doubleword word1 word2) ∧
      (FLASH_programDouble hal Address word1 word2).2.count
        (FlashEvent.program Address (doubleword word1 word2)) = 1 ∧
      doubleword word1 word2 % 2 ^ 32 = word1 ∧
      doubleword word1 word2 / 2 ^ 32 = word2 ∧
      doubleword word1 word2 < 2 ^ 64) := by
  have hout : (Address < 0x08040000 ∨ Address > 0x080C0000) →
      FLASH_programDouble hal Address word1 word2 = (-1, [FlashEvent.Error_Handler]) := by
    intro h
    simp only [FLASH_programDouble, h, if_true]
  have hin : (0x08040000 ≤ Address ∧ Address ≤ 0x080C0000) →
      FlashEvent.HAL_FLASH_Unlock ∈ (FLASH_programDouble hal Address word1 word2).2 ∧
      FlashEvent.program Address (doubleword word1 word2) ∈
        (FLASH_programDouble hal Address word1 word2).2 ∧
      (∀ a d, FlashEvent.program a d ∈ (FLASH_programDouble hal Address word1 word2).2 →
        a = Address ∧ d = doubleword word1 word2) ∧
      (FLASH_programDouble hal Address word1 word2).2.count
        (FlashEvent.program Address (doubleword word1 word2)) = 1 := by
    intro h
    have hn : ¬ (Address < 0x08040000 ∨ Address > 0x080C0000) := by omega
    simp only [FLASH_programDouble, hn, if_false]
    by_cases c1 : hal.unlockResult = hal.HAL_ERROR <;>
    by_cases c2 : hal.suspended = true <;>
    by_cases c3 : hal.programResult = hal.HAL_OK <;>
    by_cases c4 : (hal.flashError || !hal.semaphoreOk) = true <;>
    by_cases c5 : hal.lockResult = hal.HAL_ERROR <;>
    simp [c1, c2, c3, c4, c5, List.count_cons]
  refine ⟨⟨fun h => ?_, fun h => ?_⟩, hout, fun h => ?_⟩
  · rw [hout h]; simp
  · by_contra hn
    have hr : 0x08040000 ≤ Address ∧ Address ≤ 0x080C0000 := by omega
    exact h.2.2.1 (hin hr).1
  · obtain ⟨a, b, c, d⟩ := hin h
    refine ⟨a, b, c, d, ?_, ?_, ?_⟩
    · unfold doubleword; omega
    · unfold doubleword; omega
    · unfold doubleword; omega

/-- C30 at concrete inputs: the upper bound `0x080C0000` is accepted and programmed, the next
address `0x080C0001` is rejected. -/
theorem C30_flash_address_guard_witness :
    (0x080C0000 : Nat) < 2 ^ 32 ∧ (0x11223344 : Nat) < 2 ^ 32 ∧ (0x55667788 : Nat) < 2 ^ 32 ∧
    (0x08040000 ≤ 0x080C0000 ∧ 0x080C0000 ≤ 0x080C0000) ∧
    FlashEvent.program 0x080C0000 (doubleword 0x11223344 0x55667788) ∈
      (FLASH_programDouble goodHal 0x080C0000 0x11223344 0x55667788).2 ∧
    doubleword 0x11223344 0x55667788 = 0x5566778811223344 ∧
    FLASH_programDouble goodHal 0x080C0001 0x11223344 0x55667788 =
      (-1, [FlashEvent.Error_Handler]) :=
  ⟨by decide, by decide, by decide, by decide,
    ((C30_flash_address_guard goodHal 0x080C0000 0x11223344 0x55667788 (by decide) (by decide)
      (by decide)).2.2 (by decide)).2.1,
    by decide,
    (C30_flash_address_guard goodHal 0x080C0001 0x11223344 0x55667788 (by decide) (by decide)
      (by decide)).2.1 (by decide)⟩

end Block
